import Mathlib

/-!
# PBRViewer: shading-mode dispatch, environment precomputation and self-shadowing

A shallow embedding of the parts of PBRViewer that select the lighting program,
marshal the per-frame uniforms, precompute the image-based-lighting textures and
render the per-light depth maps.

Conventions of the embedding

* GLfloat values are rationals: rounding is not modelled.
* GLboolean flags only ever hold GL_TRUE or GL_FALSE and are Lean booleans.
* Unscoped C++ enumerations are held as their integer value.
* Calls into OpenGL, into a shader object and into the logger are recorded, in
  program order, as a list of Call values; the driver hands out object names from
  per-kind counters, so a generated name is never 0.
* Results of glm functions (lookAt, perspective, the matrix product) are kept as
  symbolic expressions of type Mat4: two matrices that are equal here are equal for
  every implementation of glm.
* A null smart pointer is none; dereferencing it makes the operation return none.
-/

namespace PBRViewer

/-! ## Scalars, vectors and matrices -/

abbrev GLfloat := ℚ
abbrev GLuint := Nat
abbrev GLint := Int
abbrev GLboolean := Bool

/-- The value a GLuint has after the implicit conversion to GLint (32 bit, two's complement). -/
def GLuint.toGLint (v : GLuint) : GLint :=
  if v % 2 ^ 32 < 2 ^ 31 then ((v % 2 ^ 32 : Nat) : Int) else ((v % 2 ^ 32 : Nat) : Int) - 2 ^ 32

/-- Stands for glm::vec3. -/
structure Vec3 where
  x : GLfloat
  y : GLfloat
  z : GLfloat
  deriving DecidableEq, Repr

/-- Stands for glm::vec3(s): all three components are s. -/
def Vec3.splat (s : GLfloat) : Vec3 := ⟨s, s, s⟩

/-- Component-wise difference. -/
def Vec3.sub (a b : Vec3) : Vec3 := ⟨a.x - b.x, a.y - b.y, a.z - b.z⟩

/-- Component-wise sum. -/
def Vec3.add (a b : Vec3) : Vec3 := ⟨a.x + b.x, a.y + b.y, a.z + b.z⟩

/-- Stands for the product of a glm::vec3 with a scalar. -/
def Vec3.scale (v : Vec3) (s : GLfloat) : Vec3 := ⟨v.x * s, v.y * s, v.z * s⟩

/-- Stands for glm::dot. -/
def Vec3.dot (a b : Vec3) : GLfloat := a.x * b.x + a.y * b.y + a.z * b.z

/-- Stands for glm::cross. -/
def Vec3.cross (a b : Vec3) : Vec3 :=
  ⟨a.y * b.z - b.y * a.z, a.z * b.x - b.z * a.x, a.x * b.y - b.x * a.y⟩

/-- An angle in radians, written as the number of degrees it was converted from. -/
structure Radians where
  degrees : GLfloat
  deriving DecidableEq, Repr

/-- Stands for glm::radians. -/
def radians (degrees : GLfloat) : Radians := ⟨degrees⟩

/-- Stands for glm::mat4, as the expression that produced the matrix. -/
inductive Mat4 where
  | identity : Mat4
  | given (tag : Nat) : Mat4
  | perspective (fovy : Radians) (aspect near far : GLfloat) : Mat4
  | lookAt (eye center up : Vec3) : Mat4
  | mul (a b : Mat4) : Mat4
  | translate (m : Mat4) (v : Vec3) : Mat4
  | upperLeft3x3 (m : Mat4) : Mat4
  | rotate (m : Mat4) (angle : Radians) (axis : Vec3) : Mat4
  | scale (m : Mat4) (v : Vec3) : Mat4
  deriving DecidableEq, Repr

/-! ## Enumerations (PBRViewerEnumerations.h) -/

abbrev LightingVariant := Int

namespace LightingVariant
def NoLighting : LightingVariant := 0
def BlinnPhong : LightingVariant := 1
def CookTorrance : LightingVariant := 2
def OrenNayar : LightingVariant := 3
def AshikhminShirley : LightingVariant := 4
def Debug : LightingVariant := 5
def Disney : LightingVariant := 6
end LightingVariant

abbrev DiffuseTerm := Int
abbrev FresnelTerm := Int
abbrev NormalDistributionTerm := Int
abbrev GeometryTerm := Int
abbrev RenderOutput := Int
abbrev DebugOutput := Int

def DiffuseTerm.Burley : DiffuseTerm := 3
def FresnelTerm.Schlick : FresnelTerm := 1
def NormalDistributionTerm.TrowbridgeReitzGGX : NormalDistributionTerm := 1
def GeometryTerm.SeparableSchlick_GGX : GeometryTerm := 2
def RenderOutput.Color : RenderOutput := 3
def DebugOutput.NegativeNDotL : DebugOutput := 0

/-- PBRViewerEnumerations::SkyboxTexture. -/
abbrev SkyboxTexture := Int

def SkyboxTexture.Environment : SkyboxTexture := 0
def SkyboxTexture.Irradiance : SkyboxTexture := 1
def SkyboxTexture.PreFilteredEnvironment : SkyboxTexture := 2

/-- PBRViewerEnumerations::ScaleOperation. -/
abbrev ScaleOperation := Int

def ScaleOperation.Increase : ScaleOperation := 0
def ScaleOperation.Decrease : ScaleOperation := 1

/-! ## Shader objects (PBRViewerShader) -/

/-- The OpenGL enumerators the modelled code passes to the driver. -/
inductive GLenum where
  | GL_NONE
  | GL_FRONT
  | GL_BACK
  | GL_FRAMEBUFFER
  | GL_RENDERBUFFER
  | GL_TEXTURE_2D
  | GL_TEXTURE_CUBE_MAP
  | GL_TEXTURE_CUBE_MAP_POSITIVE_X_plus (i : Nat)
  | GL_TEXTURE_CUBE_MAP_SEAMLESS
  | GL_COLOR_ATTACHMENT0
  | GL_DEPTH_ATTACHMENT
  | GL_DEPTH_COMPONENT
  | GL_DEPTH_COMPONENT24
  | GL_RGB
  | GL_RGBA
  | GL_RG
  | GL_RGB16F
  | GL_RGBA16F
  | GL_RGB32F
  | GL_RG32F
  | GL_FLOAT
  | GL_UNSIGNED_INT
  | GL_TEXTURE_WRAP_S
  | GL_TEXTURE_WRAP_T
  | GL_TEXTURE_WRAP_R
  | GL_TEXTURE_MIN_FILTER
  | GL_TEXTURE_MAG_FILTER
  | GL_TEXTURE_BORDER_COLOR
  | GL_CLAMP_TO_EDGE
  | GL_CLAMP_TO_BORDER
  | GL_LINEAR
  | GL_NEAREST
  | GL_LINEAR_MIPMAP_LINEAR
  | GL_TRIANGLES
  | GL_TRIANGLE_STRIP
  | GL_STATIC_DRAW
  | GL_ARRAY_BUFFER
  | GL_VERTEX_SHADER
  | GL_FRAGMENT_SHADER
  | GL_GEOMETRY_SHADER
  | GL_COLOR_BUFFER_BIT
  | GL_DEPTH_BUFFER_BIT
  | GL_LEQUAL
  | GL_LESS
  deriving DecidableEq, Repr

/-- A PBRViewerShader, identified by the files its three stages were assembled from:
the constructor arguments, then the files appended with AddFileAtTheEnd in order. -/
structure PBRViewerShader where
  vertexPath : String
  fragmentPath : String
  geometryPath : String := ""
  appended : List (GLenum × String) := []
  compiled : Bool := false
  deriving DecidableEq, Repr

/-- PBRViewerShader::AddFileAtTheEnd. -/
def PBRViewerShader.AddFileAtTheEnd (s : PBRViewerShader) (shaderType : GLenum) (filepath : String) :
    PBRViewerShader :=
  { s with appended := s.appended ++ [(shaderType, filepath)] }

/-- PBRViewerShader::Compile, as far as the shader object is concerned. -/
def PBRViewerShader.Compile (s : PBRViewerShader) : PBRViewerShader :=
  { s with compiled := true }

/-! ## Textures (PBRViewerTexture.h) -/

/-- The struct PBRViewerTexture; the member Type is called TextureType here. -/
structure PBRViewerTexture where
  ID : GLuint := 0
  TextureType : String := ""
  Filepath : String := ""
  deriving DecidableEq, Repr

/-- PBRViewerTexture::operator==. -/
def PBRViewerTexture.eq (a other : PBRViewerTexture) : GLboolean :=
  a.ID == other.ID

/-- PBRViewerTexture::operator!=, which compares the address of this object with the
address of the other one; each object is given with its address. -/
def PBRViewerTexture.ne (thisAddress : Nat) (_a : PBRViewerTexture) (otherAddress : Nat)
    (_other : PBRViewerTexture) : GLboolean :=
  !(thisAddress == otherAddress)

/-! ## The record of calls -/

set_option maxHeartbeats 1000000 in
/-- One call into the OpenGL driver, a shader object or the logger. glActiveTexture carries
the offset from GL_TEXTURE0, glClear the bits of its mask, glTexImage2D whether pixel data
was passed, glVertexAttribPointer its stride and offset in floats, and every glGen call
the name the driver returned; the contents of buffers and images are left out. -/
inductive Call where
  | PrintErrorMessage (message : String)
  | Compile (shader : PBRViewerShader)
  | Use (shader : PBRViewerShader)
  | setBool (shader : PBRViewerShader) (name : String) (value : GLboolean)
  | setInt (shader : PBRViewerShader) (name : String) (value : GLint)
  | setFloat (shader : PBRViewerShader) (name : String) (value : GLfloat)
  | setVec3 (shader : PBRViewerShader) (name : String) (value : Vec3)
  | setMat4 (shader : PBRViewerShader) (name : String) (value : Mat4)
  | glCullFace (mode : GLenum)
  | glDepthFunc (func : GLenum)
  | glEnable (cap : GLenum)
  | glDisable (cap : GLenum)
  | glViewport (x y : GLint) (width height : GLint)
  | glClear (mask : List GLenum)
  | glActiveTexture (offset : GLuint)
  | glGenTextures (name : GLuint)
  | glBindTexture (target : GLenum) (texture : GLuint)
  | glTexImage2D (target : GLenum) (level : GLint) (internalformat : GLenum)
      (width height : GLint) (format type : GLenum) (hasData : Bool)
  | glTexParameteri (target pname param : GLenum)
  | glTexParameterfv (target pname : GLenum) (params : List GLfloat)
  | glGenerateMipmap (target : GLenum)
  | glDeleteTextures (texture : GLuint)
  | glGenFramebuffers (name : GLuint)
  | glBindFramebuffer (target : GLenum) (framebuffer : GLuint)
  | glFramebufferTexture2D (target attachment textarget : GLenum) (texture : GLuint) (level : GLint)
  | glFramebufferRenderbuffer (target attachment renderbuffertarget : GLenum) (renderbuffer : GLuint)
  | glDrawBuffer (buf : GLenum)
  | glReadBuffer (src : GLenum)
  | glDeleteFramebuffers (framebuffer : GLuint)
  | glGenRenderbuffers (name : GLuint)
  | glBindRenderbuffer (target : GLenum) (renderbuffer : GLuint)
  | glRenderbufferStorage (target internalformat : GLenum) (width height : GLint)
  | glDeleteRenderbuffers (renderbuffer : GLuint)
  | glGenVertexArrays (name : GLuint)
  | glBindVertexArray (array : GLuint)
  | glDeleteVertexArrays (array : GLuint)
  | glGenBuffers (name : GLuint)
  | glBindBuffer (target : GLenum) (buffer : GLuint)
  | glDeleteBuffers (buffer : GLuint)
  | glBufferData (target usage : GLenum)
  | glEnableVertexAttribArray (index : GLuint)
  | glVertexAttribPointer (index : GLuint) (size : GLint) (type : GLenum) (strideFloats offsetFloats : Nat)
  | glDrawArrays (mode : GLenum) (first count : GLint)
  | glDrawElements (mode : GLenum) (count : GLint) (type : GLenum)
  | stbi_set_flip_vertically_on_load (flag : Bool)
  | stbi_loadf (filename : String)
  | stbi_image_free
  deriving DecidableEq, Repr

/-! ## Meshes and scenes (PBRViewerMesh, PBRViewerScene) -/

/-- The members of PBRViewerMesh that Draw reads; the vertex data is left out. -/
structure PBRViewerMesh where
  myIndices : List GLuint := []
  myTextures : List PBRViewerTexture := []
  myVAO : GLuint := 0
  myVBO : GLuint := 0
  myEBO : GLuint := 0
  deriving DecidableEq, Repr

/-- The eight per-type counters PBRViewerMesh::Draw keeps while it walks the texture list. -/
structure TextureCounters where
  diffuseNr : GLuint := 0
  normalNr : GLuint := 0
  roughnessNr : GLuint := 0
  emissiveNr : GLuint := 0
  irradianceNr : GLuint := 0
  preFilteredEnvironmentNr : GLuint := 0
  brdfLookupNr : GLuint := 0
  shadowNr : GLuint := 0
  deriving DecidableEq, Repr

/-- Stands for name.append("[").append(std::to_string(nr)).append("]"). -/
def indexedName (name : String) (nr : Nat) : String :=
  name ++ "[" ++ toString nr ++ "]"

/-- One iteration of the texture loop of PBRViewerMesh::Draw, for the texture at position i. -/
def PBRViewerMesh.DrawTexture (shader : PBRViewerShader) (i : GLuint) (t : PBRViewerTexture)
    (c : TextureCounters) : List Call × TextureCounters :=
  let name := t.TextureType
  if name = "textureDiffuse" then
    ([.glActiveTexture i, .glBindTexture .GL_TEXTURE_2D t.ID,
      .setBool shader "textureDiffuseAvailable" true,
      .setInt shader (indexedName name c.diffuseNr) i.toGLint],
     { c with diffuseNr := c.diffuseNr + 1 })
  else if name = "textureNormal" then
    ([.glActiveTexture i, .glBindTexture .GL_TEXTURE_2D t.ID,
      .setBool shader "textureNormalAvailable" true,
      .setInt shader (indexedName name c.normalNr) i.toGLint],
     { c with normalNr := c.normalNr + 1 })
  else if name = "textureRoughness" then
    ([.glActiveTexture i, .glBindTexture .GL_TEXTURE_2D t.ID,
      .setBool shader "textureRoughnessAvailable" true,
      .setInt shader (indexedName name c.roughnessNr) i.toGLint],
     { c with roughnessNr := c.roughnessNr + 1 })
  else if name = "textureEmissive" then
    ([.glActiveTexture i, .glBindTexture .GL_TEXTURE_2D t.ID,
      .setBool shader "textureEmissiveAvailable" true,
      .setInt shader (indexedName name c.emissiveNr) i.toGLint],
     { c with emissiveNr := c.emissiveNr + 1 })
  else if name = "textureIrradiance" then
    ([.glActiveTexture i, .glBindTexture .GL_TEXTURE_CUBE_MAP t.ID,
      .setBool shader "textureIrradianceAvailable" true,
      .setInt shader (indexedName name c.irradianceNr) i.toGLint],
     { c with irradianceNr := c.irradianceNr + 1 })
  else if name = "texturePreFilterEnvironment" then
    ([.glActiveTexture i, .glBindTexture .GL_TEXTURE_CUBE_MAP t.ID,
      .setBool shader "texturePrefilteredEnvironmentAvailable" true,
      .setInt shader (indexedName name c.preFilteredEnvironmentNr) i.toGLint],
     { c with preFilteredEnvironmentNr := c.preFilteredEnvironmentNr + 1 })
  else if name = "textureBRDFLookup" then
    ([.glActiveTexture i, .glBindTexture .GL_TEXTURE_2D t.ID,
      .setBool shader "textureBRDFLookupAvailable" true,
      .setInt shader (indexedName name c.brdfLookupNr) i.toGLint],
     { c with brdfLookupNr := c.brdfLookupNr + 1 })
  else if name = "textureShadows" then
    ([.glActiveTexture i, .glBindTexture .GL_TEXTURE_2D t.ID,
      .setBool shader "textureShadowsAvailable" true,
      .setInt shader (indexedName name c.shadowNr) i.toGLint],
     { c with shadowNr := c.shadowNr + 1 })
  else
    ([.glActiveTexture i, .setInt shader "" i.toGLint], c)

/-- The texture loop of PBRViewerMesh::Draw, from position i on. -/
def PBRViewerMesh.DrawTextures (shader : PBRViewerShader) :
    GLuint → List PBRViewerTexture → TextureCounters → List Call
  | _, [], _ => []
  | i, t :: rest, c =>
    (PBRViewerMesh.DrawTexture shader i t c).1 ++
      PBRViewerMesh.DrawTextures shader (i + 1) rest (PBRViewerMesh.DrawTexture shader i t c).2

/-- PBRViewerMesh::Draw. -/
def PBRViewerMesh.Draw (mesh : PBRViewerMesh) (shader : PBRViewerShader) : List Call :=
  PBRViewerMesh.DrawTextures shader 0 mesh.myTextures {} ++
  [.glBindVertexArray mesh.myVAO,
   .glDrawElements .GL_TRIANGLES (GLuint.toGLint mesh.myIndices.length) .GL_UNSIGNED_INT,
   .glBindVertexArray 0,
   .glActiveTexture 0,
   .setBool shader "textureDiffuseAvailable" false,
   .setBool shader "textureNormalAvailable" false,
   .setBool shader "textureRoughnessAvailable" false,
   .setBool shader "textureEmissiveAvailable" false,
   .setBool shader "textureIrradianceAvailable" false,
   .setBool shader "textureBRDFLookupAvailable" false,
   .setBool shader "texturePrefilteredEnvironmentAvailable" false,
   .setBool shader "textureShadowsAvailable" false]

/-- The members of PBRViewerScene the modelled code reads. -/
structure PBRViewerScene where
  myIsReady : GLboolean := false
  myModelMatrix : Mat4 := Mat4.identity
  myTextures : List PBRViewerTexture := []
  myMeshes : List PBRViewerMesh := []
  deriving DecidableEq, Repr

/-- PBRViewerScene::GetModelMatrix. -/
def PBRViewerScene.GetModelMatrix (scene : PBRViewerScene) : Mat4 :=
  scene.myModelMatrix

/-- PBRViewerScene::Draw. -/
def PBRViewerScene.Draw (scene : PBRViewerScene) (shader : PBRViewerShader) : List Call :=
  Call.Use shader :: scene.myMeshes.flatMap (fun mesh => mesh.Draw shader)

/-! ## Point lights, shadow set, skybox (data) -/

/-- The members of PBRViewerPointLight. -/
structure PBRViewerPointLight where
  myPosition : Vec3 := Vec3.splat 0
  myLightColor : Vec3 := Vec3.splat 1
  myIsActive : GLboolean := false
  deriving DecidableEq, Repr

def PBRViewerPointLight.GetIsActive (l : PBRViewerPointLight) : GLboolean := l.myIsActive
def PBRViewerPointLight.GetPosition (l : PBRViewerPointLight) : Vec3 := l.myPosition
def PBRViewerPointLight.GetLightColor (l : PBRViewerPointLight) : Vec3 := l.myLightColor
def PBRViewerPointLight.SetIsActive (l : PBRViewerPointLight) (newValue : GLboolean) :
    PBRViewerPointLight := { l with myIsActive := newValue }
def PBRViewerPointLight.SetPosition (l : PBRViewerPointLight) (newPosition : Vec3) :
    PBRViewerPointLight := { l with myPosition := newPosition }
def PBRViewerPointLight.SetLightColor (l : PBRViewerPointLight) (newColor : Vec3) :
    PBRViewerPointLight := { l with myLightColor := newColor }

/-- The members of PBRViewerShadows. The member myModel shares the scene object with the
owner of the shadow set, so the operations below receive that scene as an argument. -/
structure PBRViewerShadows where
  myShadowShader : PBRViewerShader := { vertexPath := "SelfShadowing.vert", fragmentPath := "SelfShadowing.frag" }
  myTextures : List PBRViewerTexture := []
  myFramebufferObjects : List GLuint := []
  myTextureWidth : GLuint := 0
  myTextureHeight : GLuint := 0
  myNearPlane : GLfloat := 0
  myFarPlane : GLfloat := 0
  deriving DecidableEq, Repr

/-- The constructor of PBRViewerShadows (default planes 0.1 and 2.0), as far as the object
is concerned. -/
def PBRViewerShadows.new (nearPlane : GLfloat := 1 / 10) (farPlane : GLfloat := 2) : PBRViewerShadows :=
  { myNearPlane := nearPlane
    myFarPlane := farPlane
    myShadowShader :=
      PBRViewerShader.Compile { vertexPath := "SelfShadowing.vert", fragmentPath := "SelfShadowing.frag" } }

/-- The members of PBRViewerSkybox. -/
structure PBRViewerSkybox where
  myFilepathEnvironmentTexture : String
  myEquirectangularToCubemapShader : PBRViewerShader
  myVAO : GLuint := 0
  myTextureToDisplay : GLuint := 0
  myTextureMipMapLevelToDisplay : GLuint := 0
  myEnvironmentTexture : PBRViewerTexture := {}
  myIrradianceTexture : PBRViewerTexture := {}
  myPreFilteredEnvironmentMap : PBRViewerTexture := {}
  myBRDFLookupTexture : PBRViewerTexture := {}
  deriving DecidableEq, Repr

/-- The constructor of PBRViewerSkybox, as far as the object is concerned. -/
def PBRViewerSkybox.new (filepathEnvironmentTexture : String) : PBRViewerSkybox :=
  { myFilepathEnvironmentTexture := filepathEnvironmentTexture
    myEquirectangularToCubemapShader :=
      PBRViewerShader.Compile
        { vertexPath := "EquirectangularToCubemap.vert", fragmentPath := "EquirectangularToCubemap.frag" } }

/-- The camera, as far as a frame reads it. The front and up vectors are the ones
UpdateCameraVectors computed last; the initial values are those of a camera on the
positive z axis that looks at the origin, as PBRViewerModel::Init creates it. -/
structure PBRViewerArcballCamera where
  myCameraPosition : Vec3
  myFrontVector : Vec3 := ⟨0, 0, -1⟩
  myUpVector : Vec3 := ⟨0, 1, 0⟩
  deriving DecidableEq, Repr

def PBRViewerArcballCamera.GetCameraPosition (c : PBRViewerArcballCamera) : Vec3 := c.myCameraPosition

/-- PBRViewerArcballCamera::GetViewMatrix. -/
def PBRViewerArcballCamera.GetViewMatrix (c : PBRViewerArcballCamera) : Mat4 :=
  Mat4.lookAt c.myCameraPosition (c.myCameraPosition.add c.myFrontVector) c.myUpVector

/-- PBRViewerArcballCamera::GetZoom. -/
def PBRViewerArcballCamera.GetZoom (_ : PBRViewerArcballCamera) : GLfloat := 45

/-! ## The model (PBRViewerModel) -/

/-- The members of PBRViewerModel, with the initial values of PBRViewerModel.h. -/
structure PBRViewerModel where
  myNewModelShouldBeLoaded : GLboolean := false
  myNewModelFilepath : String := ""
  myLoadedModel : Option PBRViewerScene := none
  myNewSkyboxShouldBeLoaded : GLboolean := false
  myNewSkyboxFilepath : String := ""
  mySkybox : Option PBRViewerSkybox := none
  myCurrentLightShader : Option PBRViewerShader := none
  myBlinnPhongShader : Option PBRViewerShader := none
  myNoLightingShader : Option PBRViewerShader := none
  myPbrCookTorranceShader : Option PBRViewerShader := none
  myOrenNayarShader : Option PBRViewerShader := none
  myAshikhminShirleyShader : Option PBRViewerShader := none
  mySkyboxShader : Option PBRViewerShader := none
  myDebugShader : Option PBRViewerShader := none
  myDisneyShader : Option PBRViewerShader := none
  myDebugNormalVectorShader : Option PBRViewerShader := none
  myLightSources : List PBRViewerPointLight := []
  myShadows : Option PBRViewerShadows := none
  myShadowDepthCubeMaps : List PBRViewerTexture := []
  myAreShadowsEnabled : GLboolean := true
  myBlinnPhongExponent : GLuint := 64
  myAshikhminShirleyNu : GLuint := 500
  myAshikhminShirleyNv : GLuint := 500
  myCookTorranceDiffuseTerm : DiffuseTerm := DiffuseTerm.Burley
  myCookTorranceFresnelTerm : FresnelTerm := FresnelTerm.Schlick
  myCookTorranceNormalDistributionTerm : NormalDistributionTerm := NormalDistributionTerm.TrowbridgeReitzGGX
  myCookTorranceGeometryTerm : GeometryTerm := GeometryTerm.SeparableSchlick_GGX
  myCookTorranceAreCustomMaterialValuesEnabled : GLboolean := false
  myCookTorranceMetalness : GLfloat := 1 / 2
  myCookTorranceRoughness : GLfloat := 1 / 2
  myDebugOutput : DebugOutput := DebugOutput.NegativeNDotL
  myDisneySubsurface : GLfloat := 1 / 2
  myDisneyMetallic : GLfloat := 1 / 2
  myDisneySpecular : GLfloat := 1 / 2
  myDisneySpecularTint : GLfloat := 1 / 2
  myDisneyRoughness : GLfloat := 1 / 2
  myDisneyAnisotropic : GLfloat := 1 / 2
  myDisneySheen : GLfloat := 1 / 2
  myDisneySheenTint : GLfloat := 1 / 2
  myDisneyClearcoat : GLfloat := 1 / 2
  myDisneyClearcoatGloss : GLfloat := 1 / 2
  myLightingVariant : LightingVariant := LightingVariant.CookTorrance
  myRenderOutput : RenderOutput := RenderOutput.Color
  myGamma : GLfloat := 22 / 10
  myExposure : GLfloat := 1
  myCamera : Option PBRViewerArcballCamera := none

namespace PBRViewerModel

/-- PBRViewerModel::GetCurrentLightingVariant. -/
def GetCurrentLightingVariant (m : PBRViewerModel) : LightingVariant :=
  m.myLightingVariant

/-- PBRViewerModel::ChangeLighting. -/
def ChangeLighting (m : PBRViewerModel) (lightingVariant : LightingVariant) : PBRViewerModel :=
  { m with myLightingVariant := lightingVariant }

end PBRViewerModel

/-! ## The activation toggles (PBRViewerBXDFWidget, PBRViewerGraphicSettings, PBRViewerController) -/

/-- The icon shown on an activation button. -/
inductive Icon where
  | ENTYPO_ICON_CHECK
  | ENTYPO_ICON_CROSS
  deriving DecidableEq, Repr

/-- The activation button of a lighting widget: a nanogui toggle button. -/
structure ActivationButton where
  pushed : Bool
  icon : Icon
  deriving DecidableEq, Repr

/-- PBRViewerBXDFWidget::SetActivationButtonActive. -/
def SetActivationButtonActive (_button : ActivationButton) (activated : GLboolean) : ActivationButton :=
  if activated then
    { icon := Icon.ENTYPO_ICON_CHECK, pushed := true }
  else
    { icon := Icon.ENTYPO_ICON_CROSS, pushed := false }

/-- The six lighting widgets of PBRViewerGraphicSettings. -/
inductive Tab where
  | CookTorranceTab
  | BlinnPhongTab
  | OrenNayarTab
  | AshikhminShirleyTab
  | DisneyTab
  | DebugTab
  deriving DecidableEq, Repr

/-- The activation buttons of the six widgets, as their constructors leave them:
Cook-Torrance pushed with the check icon, the others not pushed with the cross icon. -/
structure PBRViewerGraphicSettings where
  CookTorranceTab : ActivationButton := { pushed := true, icon := Icon.ENTYPO_ICON_CHECK }
  BlinnPhongTab : ActivationButton := { pushed := false, icon := Icon.ENTYPO_ICON_CROSS }
  OrenNayarTab : ActivationButton := { pushed := false, icon := Icon.ENTYPO_ICON_CROSS }
  AshikhminShirleyTab : ActivationButton := { pushed := false, icon := Icon.ENTYPO_ICON_CROSS }
  DisneyTab : ActivationButton := { pushed := false, icon := Icon.ENTYPO_ICON_CROSS }
  DebugTab : ActivationButton := { pushed := false, icon := Icon.ENTYPO_ICON_CROSS }
  deriving DecidableEq, Repr

namespace PBRViewerGraphicSettings

/-- The member Tabs, in the order the constructor fills it. -/
def Tabs : List Tab :=
  [Tab.CookTorranceTab, Tab.BlinnPhongTab, Tab.OrenNayarTab, Tab.AshikhminShirleyTab,
   Tab.DisneyTab, Tab.DebugTab]

/-- The activation button of a widget. -/
def button (g : PBRViewerGraphicSettings) : Tab → ActivationButton
  | Tab.CookTorranceTab => g.CookTorranceTab
  | Tab.BlinnPhongTab => g.BlinnPhongTab
  | Tab.OrenNayarTab => g.OrenNayarTab
  | Tab.AshikhminShirleyTab => g.AshikhminShirleyTab
  | Tab.DisneyTab => g.DisneyTab
  | Tab.DebugTab => g.DebugTab

/-- Replaces the activation button of a widget. -/
def setButton (g : PBRViewerGraphicSettings) (tab : Tab) (b : ActivationButton) :
    PBRViewerGraphicSettings :=
  match tab with
  | Tab.CookTorranceTab => { g with CookTorranceTab := b }
  | Tab.BlinnPhongTab => { g with BlinnPhongTab := b }
  | Tab.OrenNayarTab => { g with OrenNayarTab := b }
  | Tab.AshikhminShirleyTab => { g with AshikhminShirleyTab := b }
  | Tab.DisneyTab => { g with DisneyTab := b }
  | Tab.DebugTab => { g with DebugTab := b }

end PBRViewerGraphicSettings

/-- The lighting variant the activation callback of a widget passes to ChangeLighting. -/
def Tab.variant : Tab → LightingVariant
  | Tab.CookTorranceTab => LightingVariant.CookTorrance
  | Tab.BlinnPhongTab => LightingVariant.BlinnPhong
  | Tab.OrenNayarTab => LightingVariant.OrenNayar
  | Tab.AshikhminShirleyTab => LightingVariant.AshikhminShirley
  | Tab.DisneyTab => LightingVariant.Disney
  | Tab.DebugTab => LightingVariant.Debug

/-- The toggles together with the model they drive. -/
structure ControllerState where
  GraphicSettings : PBRViewerGraphicSettings := {}
  myModel : PBRViewerModel := {}

/-- The activation callback PBRViewerController::ConfigureGraphicSettings installs on the
widget own: it sets the own button, and either selects the own variant and deactivates
every other entry of Tabs, or selects NoLighting. -/
def ActivationButtonCallback (own : Tab) (activated : GLboolean) (s : ControllerState) :
    ControllerState :=
  let g := s.GraphicSettings.setButton own (SetActivationButtonActive (s.GraphicSettings.button own) activated)
  if activated then
    { GraphicSettings :=
        PBRViewerGraphicSettings.Tabs.foldl
          (fun g tab => if tab ≠ own then g.setButton tab (SetActivationButtonActive (g.button tab) false) else g)
          g
      myModel := s.myModel.ChangeLighting own.variant }
  else
    { GraphicSettings := g
      myModel := s.myModel.ChangeLighting LightingVariant.NoLighting }

/-- A click on the activation button of a widget: the toggle button flips its pushed flag
and passes the new flag to the change callback. -/
def click (tab : Tab) (s : ControllerState) : ControllerState :=
  let activated := !(s.GraphicSettings.button tab).pushed
  let b := s.GraphicSettings.button tab
  ActivationButtonCallback tab activated
    { s with GraphicSettings := s.GraphicSettings.setButton tab { b with pushed := activated } }

/-- The states the toggles and the lighting variant can reach by clicks on the toggles. -/
inductive Reachable : ControllerState → Prop where
  | initial : Reachable {}
  | step (tab : Tab) (s : ControllerState) : Reachable s → Reachable (click tab s)

/-- The flag pushed of the activation button of a widget. -/
def ControllerState.pushed (s : ControllerState) (tab : Tab) : Bool :=
  (s.GraphicSettings.button tab).pushed

/-! ## Lighting programs (PBRViewerModel::CreateShader, SetLightingShader) -/

/-- The files PBRViewerModel::CreateShader appends to every entry of myLightingShaders. -/
def appendLightingCode (lightingShader : PBRViewerShader) : PBRViewerShader :=
  ((((lightingShader.AddFileAtTheEnd .GL_FRAGMENT_SHADER "GetNormalFromMap.gl").AddFileAtTheEnd
    .GL_FRAGMENT_SHADER "CalculateShadowCoverage.gl").AddFileAtTheEnd
    .GL_FRAGMENT_SHADER "ChooseRenderOutput.gl").AddFileAtTheEnd
    .GL_FRAGMENT_SHADER "VectorTransformation.gl").AddFileAtTheEnd
    .GL_FRAGMENT_SHADER "FresnelApproximations.gl"

/-- The files PBRViewerModel::CreateShader appends to every entry of myPBRShaders. -/
def appendPBRCode (pbrShader : PBRViewerShader) : PBRViewerShader :=
  (pbrShader.AddFileAtTheEnd .GL_FRAGMENT_SHADER "NormalDistributionFunctions.gl").AddFileAtTheEnd
    .GL_FRAGMENT_SHADER "GeometryFunctions.gl"

namespace PBRViewerModel

/-- PBRViewerModel::CreateShader: the nine shader objects are created, the lighting shaders
(Blinn-Phong, Cook-Torrance, Oren-Nayar, Ashikhmin-Shirley, Disney) and then the PBR
shaders (the last four of these) get the common code appended, the debug shader gets
GetNormalFromMap.gl, and all nine are compiled. -/
def CreateShader (m : PBRViewerModel) : PBRViewerModel :=
  { m with
    myNoLightingShader := some (PBRViewerShader.Compile
      { vertexPath := "NoLighting.vert", fragmentPath := "NoLighting.frag" })
    myBlinnPhongShader := some (PBRViewerShader.Compile (appendLightingCode
      { vertexPath := "CommonVertexShader.vert", fragmentPath := "BlinnPhong.frag" }))
    myPbrCookTorranceShader := some (PBRViewerShader.Compile (appendPBRCode (appendLightingCode
      { vertexPath := "CommonVertexShader.vert", fragmentPath := "CookTorrance.frag" })))
    myOrenNayarShader := some (PBRViewerShader.Compile (appendPBRCode (appendLightingCode
      { vertexPath := "CommonVertexShader.vert", fragmentPath := "OrenNayar.frag" })))
    myAshikhminShirleyShader := some (PBRViewerShader.Compile (appendPBRCode (appendLightingCode
      { vertexPath := "CommonVertexShader.vert", fragmentPath := "AshikhminShirley.frag" })))
    mySkyboxShader := some (PBRViewerShader.Compile
      { vertexPath := "Skybox.vert", fragmentPath := "Skybox.frag" })
    myDebugNormalVectorShader := some (PBRViewerShader.Compile
      { vertexPath := "NormalVector.vert", fragmentPath := "NormalVector.frag",
        geometryPath := "NormalVector.geom" })
    myDebugShader := some (PBRViewerShader.Compile
      (PBRViewerShader.AddFileAtTheEnd
        { vertexPath := "CommonVertexShader.vert", fragmentPath := "Debug.frag" }
        .GL_FRAGMENT_SHADER "GetNormalFromMap.gl"))
    myDisneyShader := some (PBRViewerShader.Compile (appendPBRCode (appendLightingCode
      { vertexPath := "CommonVertexShader.vert", fragmentPath := "DisneyBRDF.frag" }))) }

/-- PBRViewerModel::SetLightingShader. -/
def SetLightingShader (m : PBRViewerModel) : PBRViewerModel :=
  if m.myLightingVariant = LightingVariant.NoLighting then
    { m with myCurrentLightShader := m.myNoLightingShader }
  else if m.myLightingVariant = LightingVariant.BlinnPhong then
    { m with myCurrentLightShader := m.myBlinnPhongShader }
  else if m.myLightingVariant = LightingVariant.CookTorrance then
    { m with myCurrentLightShader := m.myPbrCookTorranceShader }
  else if m.myLightingVariant = LightingVariant.OrenNayar then
    { m with myCurrentLightShader := m.myOrenNayarShader }
  else if m.myLightingVariant = LightingVariant.AshikhminShirley then
    { m with myCurrentLightShader := m.myAshikhminShirleyShader }
  else if m.myLightingVariant = LightingVariant.Debug then
    { m with myCurrentLightShader := m.myDebugShader }
  else if m.myLightingVariant = LightingVariant.Disney then
    { m with myCurrentLightShader := m.myDisneyShader }
  else
    { m with myCurrentLightShader := m.myNoLightingShader }

/-- The program SetLightingShader binds when the shaders are the ones of CreateShader and
the lighting variant is v. -/
def selectedProgram (m : PBRViewerModel) (v : LightingVariant) : Option PBRViewerShader :=
  (SetLightingShader (ChangeLighting (CreateShader m) v)).myCurrentLightShader

end PBRViewerModel

/-! ## The driver and the host -/

/-- What the process shares with the OpenGL driver: how many names of each kind the driver
has handed out, and the function-local static myFullScreenQuadVAO of RenderFullScreenQuad.
The next name of a kind is its counter plus one. -/
structure Driver where
  textures : Nat := 0
  framebuffers : Nat := 0
  renderbuffers : Nat := 0
  vertexArrays : Nat := 0
  buffers : Nat := 0
  myFullScreenQuadVAO : GLuint := 0
  deriving DecidableEq, Repr

/-- What an operation leaves behind: its result, the driver, and the calls it made in
program order. -/
structure Ran (α : Type) where
  result : α
  driver : Driver
  calls : List Call

/-- The header of a decoded floating-point image. -/
structure HdrImage where
  width : GLint
  height : GLint
  nrChannels : GLint
  deriving DecidableEq, Repr

/-- What the code asks of its surroundings: the image decoder (none when stbi_loadf returns
a null pointer) and the size glfwGetWindowSize reports. -/
structure Host where
  stbi_loadf : String → Option HdrImage
  windowWidth : GLint
  windowHeight : GLint

/-! ## Capture views and quads (PBRViewerOpenGLUtilities) -/

/-- PBRViewerOpenGLUtilities::GetCaptureViewsForCubeMap. -/
def GetCaptureViewsForCubeMap : List Mat4 :=
  [ Mat4.lookAt ⟨0, 0, 0⟩ ⟨1, 0, 0⟩ ⟨0, -1, 0⟩,
    Mat4.lookAt ⟨0, 0, 0⟩ ⟨-1, 0, 0⟩ ⟨0, -1, 0⟩,
    Mat4.lookAt ⟨0, 0, 0⟩ ⟨0, 1, 0⟩ ⟨0, 0, 1⟩,
    Mat4.lookAt ⟨0, 0, 0⟩ ⟨0, -1, 0⟩ ⟨0, 0, -1⟩,
    Mat4.lookAt ⟨0, 0, 0⟩ ⟨0, 0, 1⟩ ⟨0, -1, 0⟩,
    Mat4.lookAt ⟨0, 0, 0⟩ ⟨0, 0, -1⟩ ⟨0, -1, 0⟩ ]

/-- The arguments of the lookAt call that produced a view matrix. -/
def Mat4.lookAtArguments : Mat4 → Option (Vec3 × Vec3 × Vec3)
  | Mat4.lookAt eye center up => some (eye, center, up)
  | _ => none

/-- PBRViewerOpenGLUtilities::RenderQuad. -/
def RenderQuad (vao : GLuint) : List Call :=
  [.glBindVertexArray vao, .glDrawArrays .GL_TRIANGLE_STRIP 0 4, .glBindVertexArray 0]

/-- PBRViewerOpenGLUtilities::RenderFullScreenQuad. -/
def RenderFullScreenQuad (d : Driver) : Ran Unit :=
  if d.myFullScreenQuadVAO = 0 then
    { result := ()
      driver := { d with myFullScreenQuadVAO := d.vertexArrays + 1
                         vertexArrays := d.vertexArrays + 1
                         buffers := d.buffers + 1 }
      calls :=
        [.glGenVertexArrays (d.vertexArrays + 1), .glGenBuffers (d.buffers + 1),
         .glBindVertexArray (d.vertexArrays + 1),
         .glBindBuffer .GL_ARRAY_BUFFER (d.buffers + 1),
         .glBufferData .GL_ARRAY_BUFFER .GL_STATIC_DRAW,
         .glEnableVertexAttribArray 0, .glVertexAttribPointer 0 3 .GL_FLOAT 5 0,
         .glEnableVertexAttribArray 1, .glVertexAttribPointer 1 2 .GL_FLOAT 5 3] ++
        RenderQuad (d.vertexArrays + 1) }
  else
    { result := (), driver := d, calls := RenderQuad d.myFullScreenQuadVAO }

/-! ## The skybox (PBRViewerSkybox) -/

namespace PBRViewerSkybox

/-- PBRViewerSkybox::GetCaptureProjection. -/
def GetCaptureProjection : Mat4 :=
  Mat4.perspective (radians 90) 1 (1 / 10) 10

/-- PBRViewerSkybox::RenderCube. -/
def RenderCube (sky : PBRViewerSkybox) : List Call :=
  [.glBindVertexArray sky.myVAO, .glDrawArrays .GL_TRIANGLES 0 36, .glBindVertexArray 0]

/-- PBRViewerSkybox::LoadEquirectangularTexture; the second component of the result is the
out-parameter textureResult. -/
def LoadEquirectangularTexture (host : Host) (filepath : String) (textureResult : PBRViewerTexture)
    (d : Driver) : Ran (GLboolean × PBRViewerTexture) :=
  match host.stbi_loadf filepath with
  | some data =>
    { result := (true, { ID := d.textures + 1, Filepath := filepath, TextureType := "textureEquirectangular" })
      driver := { d with textures := d.textures + 1 }
      calls :=
        [.stbi_set_flip_vertically_on_load true, .stbi_loadf filepath,
         .stbi_set_flip_vertically_on_load false,
         .glGenTextures (d.textures + 1),
         .glBindTexture .GL_TEXTURE_2D (d.textures + 1),
         .glTexImage2D .GL_TEXTURE_2D 0 .GL_RGBA16F data.width data.height .GL_RGB .GL_FLOAT true,
         .glTexParameteri .GL_TEXTURE_2D .GL_TEXTURE_WRAP_S .GL_CLAMP_TO_EDGE,
         .glTexParameteri .GL_TEXTURE_2D .GL_TEXTURE_WRAP_T .GL_CLAMP_TO_EDGE,
         .glTexParameteri .GL_TEXTURE_2D .GL_TEXTURE_MIN_FILTER .GL_LINEAR,
         .glTexParameteri .GL_TEXTURE_2D .GL_TEXTURE_MAG_FILTER .GL_LINEAR,
         .stbi_image_free] }
  | none =>
    { result := (false, textureResult)
      driver := d
      calls :=
        [.stbi_set_flip_vertically_on_load true, .stbi_loadf filepath,
         .stbi_set_flip_vertically_on_load false,
         .PrintErrorMessage ("Failed to image at path: " ++ filepath)] }

/-- One face pass of ConvertEquirectangularTextureToCubemap. -/
def ConvertFacePass (sky : PBRViewerSkybox) (myVAO cubemapTexture : GLuint) (i : Nat) : List Call :=
  [.setMat4 sky.myEquirectangularToCubemapShader "view" (GetCaptureViewsForCubeMap.getD i Mat4.identity),
   .glFramebufferTexture2D .GL_FRAMEBUFFER .GL_COLOR_ATTACHMENT0 (.GL_TEXTURE_CUBE_MAP_POSITIVE_X_plus i)
     cubemapTexture 0,
   .glClear [.GL_COLOR_BUFFER_BIT, .GL_DEPTH_BUFFER_BIT],
   .glBindVertexArray myVAO, .glDrawArrays .GL_TRIANGLES 0 36, .glBindVertexArray 0]

/-- PBRViewerSkybox::ConvertEquirectangularTextureToCubemap; the second component of the
result is the out-parameter textureResult. -/
def ConvertEquirectangularTextureToCubemap (host : Host) (sky : PBRViewerSkybox)
    (textureToConvert textureResult : PBRViewerTexture) (d : Driver) :
    Ran (PBRViewerSkybox × PBRViewerTexture) :=
  { result := ({ sky with myVAO := d.vertexArrays + 1 }, { textureResult with ID := d.textures + 1 })
    driver := { d with framebuffers := d.framebuffers + 1
                       renderbuffers := d.renderbuffers + 1
                       vertexArrays := d.vertexArrays + 1
                       buffers := d.buffers + 1
                       textures := d.textures + 1 }
    calls :=
      [.glGenFramebuffers (d.framebuffers + 1), .glGenRenderbuffers (d.renderbuffers + 1),
       .glBindFramebuffer .GL_FRAMEBUFFER (d.framebuffers + 1),
       .glBindRenderbuffer .GL_RENDERBUFFER (d.renderbuffers + 1),
       .glRenderbufferStorage .GL_RENDERBUFFER .GL_DEPTH_COMPONENT24 2048 2048,
       .glFramebufferRenderbuffer .GL_FRAMEBUFFER .GL_DEPTH_ATTACHMENT .GL_RENDERBUFFER (d.renderbuffers + 1),
       .glGenVertexArrays (d.vertexArrays + 1), .glGenBuffers (d.buffers + 1),
       .glBindVertexArray (d.vertexArrays + 1),
       .glBindBuffer .GL_ARRAY_BUFFER (d.buffers + 1),
       .glBufferData .GL_ARRAY_BUFFER .GL_STATIC_DRAW,
       .glEnableVertexAttribArray 0, .glVertexAttribPointer 0 3 .GL_FLOAT 3 0,
       .glGenTextures (d.textures + 1),
       .glBindTexture .GL_TEXTURE_CUBE_MAP (d.textures + 1)] ++
      (List.range 6).map (fun i =>
        Call.glTexImage2D (.GL_TEXTURE_CUBE_MAP_POSITIVE_X_plus i) 0 .GL_RGB32F 2048 2048 .GL_RGBA .GL_FLOAT false) ++
      [.glTexParameteri .GL_TEXTURE_CUBE_MAP .GL_TEXTURE_WRAP_S .GL_CLAMP_TO_EDGE,
       .glTexParameteri .GL_TEXTURE_CUBE_MAP .GL_TEXTURE_WRAP_T .GL_CLAMP_TO_EDGE,
       .glTexParameteri .GL_TEXTURE_CUBE_MAP .GL_TEXTURE_WRAP_R .GL_CLAMP_TO_EDGE,
       .glTexParameteri .GL_TEXTURE_CUBE_MAP .GL_TEXTURE_MIN_FILTER .GL_LINEAR,
       .glTexParameteri .GL_TEXTURE_CUBE_MAP .GL_TEXTURE_MAG_FILTER .GL_LINEAR,
       .Use sky.myEquirectangularToCubemapShader,
       .glActiveTexture 0,
       .glBindTexture .GL_TEXTURE_2D textureToConvert.ID,
       .setInt sky.myEquirectangularToCubemapShader "textureEquirectangular" 0,
       .setMat4 sky.myEquirectangularToCubemapShader "projection"
         (Mat4.perspective (radians 90) 1 (1 / 10) 10),
       .glViewport 0 0 2048 2048,
       .glBindFramebuffer .GL_FRAMEBUFFER (d.framebuffers + 1)] ++
      (List.range 6).flatMap (ConvertFacePass sky (d.vertexArrays + 1) (d.textures + 1)) ++
      [.glBindFramebuffer .GL_FRAMEBUFFER 0,
       .glViewport 0 0 host.windowWidth host.windowHeight,
       .glDeleteRenderbuffers (d.renderbuffers + 1),
       .glDeleteFramebuffers (d.framebuffers + 1),
       .glDeleteVertexArrays (d.buffers + 1)] }

/-- PBRViewerSkybox::LoadEnvironmentTexture. -/
def LoadEnvironmentTexture (host : Host) (sky : PBRViewerSkybox) (d : Driver) :
    Ran (GLboolean × PBRViewerSkybox) :=
  let loaded := LoadEquirectangularTexture host sky.myFilepathEnvironmentTexture {} d
  if loaded.result.1 = false then
    { result := (false, sky), driver := loaded.driver, calls := loaded.calls }
  else
    let equirectangularTexture := loaded.result.2
    let named : PBRViewerTexture :=
      { sky.myEnvironmentTexture with
        Filepath := sky.myFilepathEnvironmentTexture, TextureType := "textureEnvironment" }
    let converted :=
      ConvertEquirectangularTextureToCubemap host { sky with myEnvironmentTexture := named }
        equirectangularTexture named loaded.driver
    { result := (true, { converted.result.1 with myEnvironmentTexture := converted.result.2 })
      driver := converted.driver
      calls := loaded.calls ++ converted.calls ++
        [.glBindTexture .GL_TEXTURE_CUBE_MAP converted.result.2.ID,
         .glTexParameteri .GL_TEXTURE_CUBE_MAP .GL_TEXTURE_MIN_FILTER .GL_LINEAR_MIPMAP_LINEAR,
         .glGenerateMipmap .GL_TEXTURE_CUBE_MAP,
         .glDeleteTextures equirectangularTexture.ID] }

end PBRViewerSkybox

namespace PBRViewerSkybox

/-- The shader object CreateIrradianceTexture constructs and compiles. -/
def irradianceShader : PBRViewerShader :=
  PBRViewerShader.Compile
    { vertexPath := "IrradianceConvolution.vert", fragmentPath := "IrradianceConvolution.frag" }

/-- One face pass of CreateIrradianceTexture. -/
def IrradianceFacePass (sky : PBRViewerSkybox) (irradianceMap : GLuint) (i : Nat) : List Call :=
  [.setMat4 irradianceShader "view" (GetCaptureViewsForCubeMap.getD i Mat4.identity),
   .glFramebufferTexture2D .GL_FRAMEBUFFER .GL_COLOR_ATTACHMENT0 (.GL_TEXTURE_CUBE_MAP_POSITIVE_X_plus i)
     irradianceMap 0,
   .glClear [.GL_COLOR_BUFFER_BIT, .GL_DEPTH_BUFFER_BIT]] ++
  RenderCube sky

/-- PBRViewerSkybox::CreateIrradianceTexture. -/
def CreateIrradianceTexture (sky : PBRViewerSkybox) (d : Driver) : Ran (GLboolean × PBRViewerSkybox) :=
  { result :=
      (true, { sky with myIrradianceTexture :=
        { sky.myIrradianceTexture with ID := d.textures + 1, TextureType := "textureIrradiance" } })
    driver := { d with textures := d.textures + 1
                       framebuffers := d.framebuffers + 1
                       renderbuffers := d.renderbuffers + 1 }
    calls :=
      [.glGenTextures (d.textures + 1),
       .glBindTexture .GL_TEXTURE_CUBE_MAP (d.textures + 1)] ++
      (List.range 6).map (fun i =>
        Call.glTexImage2D (.GL_TEXTURE_CUBE_MAP_POSITIVE_X_plus i) 0 .GL_RGB16F 32 32 .GL_RGB .GL_FLOAT false) ++
      [.glTexParameteri .GL_TEXTURE_CUBE_MAP .GL_TEXTURE_WRAP_S .GL_CLAMP_TO_EDGE,
       .glTexParameteri .GL_TEXTURE_CUBE_MAP .GL_TEXTURE_WRAP_T .GL_CLAMP_TO_EDGE,
       .glTexParameteri .GL_TEXTURE_CUBE_MAP .GL_TEXTURE_WRAP_R .GL_CLAMP_TO_EDGE,
       .glTexParameteri .GL_TEXTURE_CUBE_MAP .GL_TEXTURE_MIN_FILTER .GL_LINEAR,
       .glTexParameteri .GL_TEXTURE_CUBE_MAP .GL_TEXTURE_MAG_FILTER .GL_LINEAR,
       .glGenFramebuffers (d.framebuffers + 1), .glGenRenderbuffers (d.renderbuffers + 1),
       .glBindFramebuffer .GL_FRAMEBUFFER (d.framebuffers + 1),
       .glBindRenderbuffer .GL_RENDERBUFFER (d.renderbuffers + 1),
       .glRenderbufferStorage .GL_RENDERBUFFER .GL_DEPTH_COMPONENT24 32 32,
       .Compile irradianceShader,
       .Use irradianceShader,
       .setInt irradianceShader "textureEnvironment" 0,
       .setMat4 irradianceShader "projection" GetCaptureProjection,
       .glActiveTexture 0,
       .glBindTexture .GL_TEXTURE_CUBE_MAP sky.myEnvironmentTexture.ID,
       .glViewport 0 0 32 32,
       .glBindFramebuffer .GL_FRAMEBUFFER (d.framebuffers + 1)] ++
      (List.range 6).flatMap (IrradianceFacePass sky (d.textures + 1)) ++
      [.glBindFramebuffer .GL_FRAMEBUFFER 0,
       .glDeleteRenderbuffers (d.renderbuffers + 1),
       .glDeleteFramebuffers (d.framebuffers + 1)] }

/-- The shader object CreateBRDFLookupTexture constructs and compiles. -/
def brdfLookupShader : PBRViewerShader :=
  PBRViewerShader.Compile
    ((((({ vertexPath := "BRDFLookup.vert", fragmentPath := "BRDFLookup.frag" } : PBRViewerShader).AddFileAtTheEnd
      .GL_FRAGMENT_SHADER "ImportanceSampleGGX.gl").AddFileAtTheEnd
      .GL_FRAGMENT_SHADER "VectorTransformation.gl").AddFileAtTheEnd
      .GL_FRAGMENT_SHADER "NormalDistributionFunctions.gl").AddFileAtTheEnd
      .GL_FRAGMENT_SHADER "GeometryFunctions.gl")

/-- PBRViewerSkybox::CreateBRDFLookupTexture. -/
def CreateBRDFLookupTexture (sky : PBRViewerSkybox) (d : Driver) : Ran (GLboolean × PBRViewerSkybox) :=
  let quad := RenderFullScreenQuad
    { d with textures := d.textures + 1
             framebuffers := d.framebuffers + 1
             renderbuffers := d.renderbuffers + 1 }
  { result :=
      (true, { sky with myBRDFLookupTexture :=
        { sky.myBRDFLookupTexture with ID := d.textures + 1, TextureType := "textureBRDFLookup" } })
    driver := quad.driver
    calls :=
      [.glGenTextures (d.textures + 1),
       .Compile brdfLookupShader,
       .glBindTexture .GL_TEXTURE_2D (d.textures + 1),
       .glTexImage2D .GL_TEXTURE_2D 0 .GL_RG32F 512 512 .GL_RG .GL_FLOAT false,
       .glTexParameteri .GL_TEXTURE_2D .GL_TEXTURE_WRAP_S .GL_CLAMP_TO_EDGE,
       .glTexParameteri .GL_TEXTURE_2D .GL_TEXTURE_WRAP_T .GL_CLAMP_TO_EDGE,
       .glTexParameteri .GL_TEXTURE_2D .GL_TEXTURE_MIN_FILTER .GL_LINEAR,
       .glTexParameteri .GL_TEXTURE_2D .GL_TEXTURE_MAG_FILTER .GL_LINEAR,
       .glGenFramebuffers (d.framebuffers + 1), .glGenRenderbuffers (d.renderbuffers + 1),
       .glBindFramebuffer .GL_FRAMEBUFFER (d.framebuffers + 1),
       .glBindRenderbuffer .GL_RENDERBUFFER (d.renderbuffers + 1),
       .glRenderbufferStorage .GL_RENDERBUFFER .GL_DEPTH_COMPONENT24 512 512,
       .glFramebufferTexture2D .GL_FRAMEBUFFER .GL_COLOR_ATTACHMENT0 .GL_TEXTURE_2D (d.textures + 1) 0,
       .glViewport 0 0 512 512,
       .Use brdfLookupShader,
       .glClear [.GL_COLOR_BUFFER_BIT, .GL_DEPTH_BUFFER_BIT]] ++
      quad.calls ++
      [.glBindFramebuffer .GL_FRAMEBUFFER 0,
       .glDeleteRenderbuffers (d.renderbuffers + 1),
       .glDeleteFramebuffers (d.framebuffers + 1)] }

/-- The shader object CreatePreFilteredEnvironmentMap constructs and compiles. -/
def prefilterShader : PBRViewerShader :=
  PBRViewerShader.Compile
    ((({ vertexPath := "PreFilterEnvironmentMap.vert", fragmentPath := "PreFilterEnvironmentMap.frag" } :
      PBRViewerShader).AddFileAtTheEnd
      .GL_FRAGMENT_SHADER "NormalDistributionFunctions.gl").AddFileAtTheEnd
      .GL_FRAGMENT_SHADER "ImportanceSampleGGX.gl")

/-- Stands for static_cast of GLuint to a size times std::pow(0.5, mip): the product is
exact, and the cast drops the fraction. -/
def mipSize (size : GLuint) (mip : GLuint) : GLuint :=
  Int.toNat ⌊(size : ℚ) * (1 / 2 : ℚ) ^ mip⌋

/-- One face pass of CreatePreFilteredEnvironmentMap at mip level mip. -/
def PrefilterFacePass (sky : PBRViewerSkybox) (prefilterMap : GLuint) (mip : GLuint) (i : Nat) :
    List Call :=
  [.setMat4 prefilterShader "view" (GetCaptureViewsForCubeMap.getD i Mat4.identity),
   .glFramebufferTexture2D .GL_FRAMEBUFFER .GL_COLOR_ATTACHMENT0 (.GL_TEXTURE_CUBE_MAP_POSITIVE_X_plus i)
     prefilterMap mip.toGLint] ++
  [.glClear [.GL_COLOR_BUFFER_BIT, .GL_DEPTH_BUFFER_BIT]] ++
  RenderCube sky

/-- One iteration of the mip loop of CreatePreFilteredEnvironmentMap. -/
def PrefilterMipLevel (sky : PBRViewerSkybox) (prefilterMap captureRBO : GLuint)
    (textureWidth textureHeight maxMipLevels : GLuint) (mip : GLuint) : List Call :=
  [.glBindRenderbuffer .GL_RENDERBUFFER captureRBO,
   .glRenderbufferStorage .GL_RENDERBUFFER .GL_DEPTH_COMPONENT24
     (mipSize textureWidth mip).toGLint (mipSize textureHeight mip).toGLint,
   .glViewport 0 0 (mipSize textureWidth mip).toGLint (mipSize textureHeight mip).toGLint,
   .setFloat prefilterShader "roughness" ((mip : GLfloat) / ((maxMipLevels - 1 : Nat) : GLfloat))] ++
  (List.range 6).flatMap (PrefilterFacePass sky prefilterMap mip)

/-- PBRViewerSkybox::CreatePreFilteredEnvironmentMap. -/
def CreatePreFilteredEnvironmentMap (sky : PBRViewerSkybox) (d : Driver) :
    Ran (GLboolean × PBRViewerSkybox) :=
  let textureWidth : GLuint := 512
  let textureHeight : GLuint := textureWidth
  let maxMipLevels : GLuint := 5
  { result :=
      (true, { sky with myPreFilteredEnvironmentMap :=
        { sky.myPreFilteredEnvironmentMap with
          ID := d.textures + 1, TextureType := "texturePreFilterEnvironment" } })
    driver := { d with textures := d.textures + 1
                       framebuffers := d.framebuffers + 1
                       renderbuffers := d.renderbuffers + 1 }
    calls :=
      [.glEnable .GL_TEXTURE_CUBE_MAP_SEAMLESS,
       .glGenTextures (d.textures + 1),
       .glBindTexture .GL_TEXTURE_CUBE_MAP (d.textures + 1)] ++
      (List.range 6).map (fun i =>
        Call.glTexImage2D (.GL_TEXTURE_CUBE_MAP_POSITIVE_X_plus i) 0 .GL_RGB16F
          textureWidth.toGLint textureHeight.toGLint .GL_RGB .GL_FLOAT false) ++
      [.glTexParameteri .GL_TEXTURE_CUBE_MAP .GL_TEXTURE_WRAP_S .GL_CLAMP_TO_EDGE,
       .glTexParameteri .GL_TEXTURE_CUBE_MAP .GL_TEXTURE_WRAP_T .GL_CLAMP_TO_EDGE,
       .glTexParameteri .GL_TEXTURE_CUBE_MAP .GL_TEXTURE_WRAP_R .GL_CLAMP_TO_EDGE,
       .glTexParameteri .GL_TEXTURE_CUBE_MAP .GL_TEXTURE_MIN_FILTER .GL_LINEAR_MIPMAP_LINEAR,
       .glTexParameteri .GL_TEXTURE_CUBE_MAP .GL_TEXTURE_MAG_FILTER .GL_LINEAR,
       .glGenerateMipmap .GL_TEXTURE_CUBE_MAP,
       .Compile prefilterShader,
       .Use prefilterShader,
       .setInt prefilterShader "textureEnvironmentMap" 0,
       .setInt prefilterShader "cubemapFaceResolution" textureWidth.toGLint,
       .setMat4 prefilterShader "projection" GetCaptureProjection,
       .glActiveTexture 0,
       .glBindTexture .GL_TEXTURE_CUBE_MAP sky.myEnvironmentTexture.ID,
       .glGenFramebuffers (d.framebuffers + 1), .glGenRenderbuffers (d.renderbuffers + 1),
       .glBindFramebuffer .GL_FRAMEBUFFER (d.framebuffers + 1),
       .glBindRenderbuffer .GL_RENDERBUFFER (d.renderbuffers + 1),
       .glRenderbufferStorage .GL_RENDERBUFFER .GL_DEPTH_COMPONENT24 512 512,
       .glFramebufferRenderbuffer .GL_FRAMEBUFFER .GL_DEPTH_ATTACHMENT .GL_RENDERBUFFER (d.renderbuffers + 1),
       .glBindFramebuffer .GL_FRAMEBUFFER (d.framebuffers + 1)] ++
      (List.range maxMipLevels).flatMap
        (PrefilterMipLevel sky (d.textures + 1) (d.renderbuffers + 1) textureWidth textureHeight maxMipLevels) ++
      [.glBindFramebuffer .GL_FRAMEBUFFER 0,
       .glDeleteRenderbuffers (d.renderbuffers + 1),
       .glDeleteFramebuffers (d.framebuffers + 1),
       .glDisable .GL_TEXTURE_CUBE_MAP_SEAMLESS] }

/-- PBRViewerSkybox::Init: the four steps run one after the other, each result is
and-ed into resultTextures, and the environment texture becomes the texture to display. -/
def Init (host : Host) (sky : PBRViewerSkybox) (d : Driver) : Ran (GLboolean × PBRViewerSkybox) :=
  let resultTextures : GLboolean := true
  let environment := LoadEnvironmentTexture host sky d
  let resultTextures := resultTextures && environment.result.1
  let irradiance := CreateIrradianceTexture environment.result.2 environment.driver
  let resultTextures := resultTextures && irradiance.result.1
  let prefiltered := CreatePreFilteredEnvironmentMap irradiance.result.2 irradiance.driver
  let resultTextures := resultTextures && prefiltered.result.1
  let lookup := CreateBRDFLookupTexture prefiltered.result.2 prefiltered.driver
  let resultTextures := resultTextures && lookup.result.1
  { result :=
      (resultTextures,
       { lookup.result.2 with myTextureToDisplay := lookup.result.2.myEnvironmentTexture.ID })
    driver := lookup.driver
    calls := environment.calls ++ irradiance.calls ++ prefiltered.calls ++ lookup.calls }

end PBRViewerSkybox

/-! ## Reading a record of calls -/

/-- The settings in effect when a draw call is issued. -/
structure RenderPass where
  program : Option PBRViewerShader := none
  roughness : Option GLfloat := none
  viewport : Option (GLint × GLint × GLint × GLint) := none
  depthStorage : Option (GLint × GLint) := none
  colorTarget : Option (GLenum × GLuint × GLint) := none
  deriving DecidableEq, Repr

/-- The effect of one call on the settings a render pass runs under: the program in use,
the uniform roughness, the viewport, the storage of the depth renderbuffer and the image
attached as colour attachment 0. -/
def RenderPass.after (p : RenderPass) : Call → RenderPass
  | .Use shader => { p with program := some shader }
  | .setFloat _ "roughness" value => { p with roughness := some value }
  | .glViewport x y w h => { p with viewport := some (x, y, w, h) }
  | .glRenderbufferStorage _ .GL_DEPTH_COMPONENT24 w h => { p with depthStorage := some (w, h) }
  | .glFramebufferTexture2D _ .GL_COLOR_ATTACHMENT0 textarget texture level =>
      { p with colorTarget := some (textarget, texture, level) }
  | _ => p

/-- The render passes of a record of calls: for every draw call, the settings in effect. -/
def renderPasses : RenderPass → List Call → List RenderPass
  | _, [] => []
  | p, .glDrawArrays _ _ _ :: rest => p :: renderPasses p rest
  | p, .glDrawElements _ _ _ :: rest => p :: renderPasses p rest
  | p, c :: rest => renderPasses (p.after c) rest

/-- The names of the textures a record of calls generates. -/
def generatedTextures (calls : List Call) : List GLuint :=
  calls.filterMap fun c => match c with
    | .glGenTextures name => some name
    | _ => none

/-! ## Reading uniform writes -/

/-- The value of one uniform write. -/
inductive UniformValue where
  | bool (value : GLboolean)
  | int (value : GLint)
  | float (value : GLfloat)
  | vec3 (value : Vec3)
  | mat4 (value : Mat4)
  deriving DecidableEq, Repr

/-- The name and the value a call writes, when the call is a uniform write. -/
def Call.uniform : Call → Option (String × UniformValue)
  | .setBool _ name value => some (name, .bool value)
  | .setInt _ name value => some (name, .int value)
  | .setFloat _ name value => some (name, .float value)
  | .setVec3 _ name value => some (name, .vec3 value)
  | .setMat4 _ name value => some (name, .mat4 value)
  | _ => none

/-- The uniform names and values of a record of calls, in order, whatever the program. -/
def uniformWrites (calls : List Call) : List (String × UniformValue) :=
  calls.filterMap Call.uniform

/-- The values a record of calls writes under the uniform name key, in order. -/
def writesOf (key : String) (calls : List Call) : List UniformValue :=
  calls.filterMap fun c =>
    match c.uniform with
    | some (name, value) => if name = key then some value else none
    | none => none

/-- Whether a call is of one of the kinds PBRViewerScene::Draw issues: the selection of the
program, texture binding, boolean and integer uniforms, and the indexed draw. -/
def Call.isMeshCall : Call → Bool
  | .Use _ => true
  | .glActiveTexture _ => true
  | .glBindTexture _ _ => true
  | .setBool _ _ _ => true
  | .setInt _ _ _ => true
  | .glBindVertexArray _ => true
  | .glDrawElements _ _ _ => true
  | _ => false

/-- Whether a uniform name is one PBRViewerMesh::Draw can write: the empty name or a name
that starts with the letter t. -/
def isTextureUniformName (name : String) : Bool :=
  name == "" || name.data.head? == some 't'

/-- Whether a uniform name is one the light loop of DrawModel can write: a name that starts
with the letter l or the letter i. -/
def isLightUniformName (name : String) : Bool :=
  name.data.head? == some 'l' || name.data.head? == some 'i'

/-! ## The shadow set (PBRViewerShadows) -/

namespace PBRViewerShadows

/-- PBRViewerShadows::GetTextureWidth. -/
def GetTextureWidth (sh : PBRViewerShadows) : GLuint := sh.myTextureWidth

/-- PBRViewerShadows::GetTextureHeight. -/
def GetTextureHeight (sh : PBRViewerShadows) : GLuint := sh.myTextureHeight

/-- The local aspectHeight of GetShadowProjectionMatrix: the divisor of the aspect ratio. -/
def aspectHeight (sh : PBRViewerShadows) : GLuint :=
  if 0 = sh.myTextureHeight then 1 else sh.myTextureHeight

/-- PBRViewerShadows::GetShadowProjectionMatrix. -/
def GetShadowProjectionMatrix (sh : PBRViewerShadows) : Mat4 :=
  Mat4.perspective (radians 90) ((sh.myTextureWidth : GLfloat) / (sh.aspectHeight : GLfloat))
    sh.myNearPlane sh.myFarPlane

/-- One iteration of the loop of CreateDepthTextures, for the generated name depthMap. -/
def DepthTexture (textureWidth textureHeight depthMap : GLuint) : List Call :=
  [.glGenTextures depthMap,
   .glBindTexture .GL_TEXTURE_2D depthMap,
   .glTexImage2D .GL_TEXTURE_2D 0 .GL_DEPTH_COMPONENT textureWidth.toGLint textureHeight.toGLint
     .GL_DEPTH_COMPONENT .GL_FLOAT false,
   .glTexParameteri .GL_TEXTURE_2D .GL_TEXTURE_MIN_FILTER .GL_NEAREST,
   .glTexParameteri .GL_TEXTURE_2D .GL_TEXTURE_MAG_FILTER .GL_NEAREST,
   .glTexParameteri .GL_TEXTURE_2D .GL_TEXTURE_WRAP_S .GL_CLAMP_TO_BORDER,
   .glTexParameteri .GL_TEXTURE_2D .GL_TEXTURE_WRAP_T .GL_CLAMP_TO_BORDER,
   .glTexParameterfv .GL_TEXTURE_2D .GL_TEXTURE_BORDER_COLOR [1, 1, 1]]

/-- PBRViewerShadows::CreateDepthTextures: one depth texture per light source, with the
names the driver generates one after the other. -/
def CreateDepthTextures (amountLightSources textureWidth textureHeight : GLuint) (d : Driver) :
    Ran (List PBRViewerTexture) :=
  { result := (List.range' (d.textures + 1) amountLightSources).map
      (fun depthMap => { ID := depthMap, TextureType := "textureShadows" })
    driver := { d with textures := d.textures + amountLightSources }
    calls := (List.range' (d.textures + 1) amountLightSources).flatMap
        (DepthTexture textureWidth textureHeight) ++
      [.glBindTexture .GL_TEXTURE_2D 0] }

/-- One iteration of the loop of CreateShadowFrameBuffers, for the generated name
depthMapFBO. -/
def ShadowFrameBuffer (depthMapFBO : GLuint) (shadowDepthCubeMap : PBRViewerTexture) : List Call :=
  [.glGenFramebuffers depthMapFBO,
   .glBindFramebuffer .GL_FRAMEBUFFER depthMapFBO,
   .glFramebufferTexture2D .GL_FRAMEBUFFER .GL_DEPTH_ATTACHMENT .GL_TEXTURE_2D shadowDepthCubeMap.ID 0,
   .glDrawBuffer .GL_NONE,
   .glReadBuffer .GL_NONE]

/-- The loop of CreateShadowFrameBuffers, when the next name the driver generates is
depthMapFBO. -/
def ShadowFrameBuffers : GLuint → List PBRViewerTexture → List Call
  | _, [] => []
  | depthMapFBO, shadowDepthCubeMap :: rest =>
    ShadowFrameBuffer depthMapFBO shadowDepthCubeMap ++ ShadowFrameBuffers (depthMapFBO + 1) rest

/-- PBRViewerShadows::CreateShadowFrameBuffers. -/
def CreateShadowFrameBuffers (shadowDepthCubeMaps : List PBRViewerTexture) (d : Driver) :
    Ran (List GLuint) :=
  { result := List.range' (d.framebuffers + 1) shadowDepthCubeMaps.length
    driver := { d with framebuffers := d.framebuffers + shadowDepthCubeMaps.length }
    calls := ShadowFrameBuffers (d.framebuffers + 1) shadowDepthCubeMaps ++
      [.glBindFramebuffer .GL_FRAMEBUFFER 0] }

/-- PBRViewerShadows::CreateSelfShadowingTextures; the result is the returned vector
together with the shadow set after the call. -/
def CreateSelfShadowingTextures (sh : PBRViewerShadows) (amountLightSources : GLuint)
    (textureWidth : GLuint := 4096) (textureHeight : GLuint := 4096) (d : Driver) :
    Ran (List PBRViewerTexture × PBRViewerShadows) :=
  let textures := CreateDepthTextures amountLightSources textureWidth textureHeight d
  let framebuffers := CreateShadowFrameBuffers textures.result textures.driver
  { result :=
      (textures.result,
       { sh with myTextureWidth := textureWidth
                 myTextureHeight := textureHeight
                 myTextures := textures.result
                 myFramebufferObjects := framebuffers.result })
    driver := framebuffers.driver
    calls := textures.calls ++ framebuffers.calls }

/-- PBRViewerShadows::Cleanup. -/
def Cleanup (sh : PBRViewerShadows) : List Call :=
  sh.myTextures.map (fun texture => Call.glDeleteTextures texture.ID) ++
  sh.myFramebufferObjects.map (fun fbo => Call.glDeleteFramebuffers fbo)

/-- One iteration of the loop of CalculateSelfShadowing, for slot i and its framebuffer:
none when lightSources has no entry i. -/
def ShadowPass (sh : PBRViewerShadows) (myModel : PBRViewerScene)
    (lightSources : List PBRViewerPointLight) (i : Nat) (framebuffer : GLuint) : Option (List Call) :=
  match lightSources[i]? with
  | none => none
  | some light =>
    if light.GetIsActive = false then
      some [.glBindFramebuffer .GL_FRAMEBUFFER framebuffer, .glClear [.GL_DEPTH_BUFFER_BIT]]
    else
      some ([.glBindFramebuffer .GL_FRAMEBUFFER framebuffer, .glClear [.GL_DEPTH_BUFFER_BIT],
          .setMat4 sh.myShadowShader "lightSpaceMatrix"
            (Mat4.mul sh.GetShadowProjectionMatrix
              (Mat4.lookAt light.GetPosition (Vec3.splat 0) ⟨0, 1, 0⟩)),
          .setMat4 sh.myShadowShader "model" myModel.GetModelMatrix] ++
        myModel.Draw sh.myShadowShader)

/-- The loop of CalculateSelfShadowing from slot i on, over the remaining framebuffers. -/
def ShadowPasses (sh : PBRViewerShadows) (myModel : PBRViewerScene)
    (lightSources : List PBRViewerPointLight) : Nat → List GLuint → Option (List Call)
  | _, [] => some []
  | i, framebuffer :: rest =>
    match ShadowPass sh myModel lightSources i framebuffer,
        ShadowPasses sh myModel lightSources (i + 1) rest with
    | some pass, some passes => some (pass ++ passes)
    | _, _ => none

/-- PBRViewerShadows::CalculateSelfShadowing; myModel is the scene the member myModel
points to. -/
def CalculateSelfShadowing (sh : PBRViewerShadows) (myModel : PBRViewerScene)
    (currentViewportWidth currentViewportHeight : GLuint)
    (lightSources : List PBRViewerPointLight) : Option (List Call) :=
  if sh.myFramebufferObjects.isEmpty then
    some [.PrintErrorMessage
      "It is not possible to calculate self-shading without having created the appropriate texture beforehand."]
  else
    match ShadowPasses sh myModel lightSources 0 sh.myFramebufferObjects with
    | none => none
    | some passes =>
      some ([.glCullFace .GL_FRONT,
          .glViewport 0 0 sh.myTextureWidth.toGLint sh.myTextureHeight.toGLint,
          .Use sh.myShadowShader] ++
        passes ++
        [.glBindFramebuffer .GL_FRAMEBUFFER 0,
         .glViewport 0 0 currentViewportWidth.toGLint currentViewportHeight.toGLint,
         .glCullFace .GL_BACK])

end PBRViewerShadows

/-! ## Reading framebuffer writes and frame settings -/

/-- Whether a call writes the depth attachment of the bound framebuffer: a clear whose
mask has the depth bit, or a draw call. -/
def Call.writesDepth : Call → Bool
  | .glClear mask => mask.contains GLenum.GL_DEPTH_BUFFER_BIT
  | .glDrawArrays _ _ _ => true
  | .glDrawElements _ _ _ => true
  | _ => false

/-- The calls of a record that write the depth attachment of the framebuffer f, in order:
the depth clears and draw calls issued while f is bound, when bound is the framebuffer
bound as the record begins. -/
def depthWrites (f : GLuint) : GLuint → List Call → List Call
  | _, [] => []
  | _, .glBindFramebuffer _ framebuffer :: rest => depthWrites f framebuffer rest
  | bound, c :: rest =>
    if bound = f ∧ c.writesDepth = true then c :: depthWrites f bound rest
    else depthWrites f bound rest

/-- What is known of a depth image: the draw calls rendered into it since its last clear,
and whether that clear happened at all. -/
structure DepthContent where
  cleared : Bool
  draws : List Call
  deriving DecidableEq, Repr

/-- The depth image after one write: a clear leaves the cleared image, a draw call is
rendered on top of what is there. -/
def DepthContent.write (content : DepthContent) : Call → DepthContent
  | .glClear _ => { cleared := true, draws := [] }
  | c => { content with draws := content.draws ++ [c] }

/-- The depth image of the framebuffer f after a record of calls. -/
def depthContentAfter (f bound : GLuint) (content : DepthContent) (calls : List Call) : DepthContent :=
  (depthWrites f bound calls).foldl DepthContent.write content

/-- The frame settings a draw call runs under. -/
structure FrameState where
  viewport : Option (GLint × GLint × GLint × GLint) := none
  cullFace : Option GLenum := none
  framebuffer : Option GLuint := none
  program : Option PBRViewerShader := none
  deriving DecidableEq, Repr

/-- The effect of one call on the frame settings. -/
def FrameState.after (s : FrameState) : Call → FrameState
  | .glViewport x y w h => { s with viewport := some (x, y, w, h) }
  | .glCullFace mode => { s with cullFace := some mode }
  | .glBindFramebuffer _ framebuffer => { s with framebuffer := some framebuffer }
  | .Use shader => { s with program := some shader }
  | _ => s

/-- The frame settings after a record of calls. -/
def frameStateAfter (s : FrameState) (calls : List Call) : FrameState :=
  calls.foldl FrameState.after s

/-- The frame settings in effect at each draw call of a record, in order. -/
def drawStates : FrameState → List Call → List FrameState
  | _, [] => []
  | s, .glDrawArrays _ _ _ :: rest => s :: drawStates s rest
  | s, .glDrawElements _ _ _ :: rest => s :: drawStates s rest
  | s, c :: rest => drawStates (s.after c) rest

/-- The depth attachments a record of calls makes, as pairs of the framebuffer bound at
the time and the attached texture. -/
def depthAttachments : GLuint → List Call → List (GLuint × GLuint)
  | _, [] => []
  | _, .glBindFramebuffer _ framebuffer :: rest => depthAttachments framebuffer rest
  | bound, .glFramebufferTexture2D _ .GL_DEPTH_ATTACHMENT _ texture _ :: rest =>
    (bound, texture) :: depthAttachments bound rest
  | bound, _ :: rest => depthAttachments bound rest

/-! ## Per-frame uniform marshalling (PBRViewerModel::DrawModel) and the parameter setters -/

namespace PBRViewerModel

/-- One iteration of the light loop of DrawModel, for the light at slot i: none when the
light is active and myShadows is null. -/
def DrawModelLight (shader : PBRViewerShader) (myShadows : Option PBRViewerShadows) (i : GLuint)
    (light : PBRViewerPointLight) : Option (List Call) :=
  if light.GetIsActive then
    match myShadows with
    | none => none
    | some shadows =>
      some [.setVec3 shader (indexedName "lightPositions" i) light.GetPosition,
        .setVec3 shader (indexedName "lightColors" i) light.GetLightColor,
        .setBool shader (indexedName "isLightActive" i) light.GetIsActive,
        .setMat4 shader (indexedName "lightSpaceMatrices" i)
          (Mat4.mul shadows.GetShadowProjectionMatrix
            (Mat4.lookAt light.GetPosition (Vec3.splat 0) ⟨0, 1, 0⟩))]
  else
    some [.setVec3 shader (indexedName "lightPositions" i) light.GetPosition,
      .setVec3 shader (indexedName "lightColors" i) light.GetLightColor,
      .setBool shader (indexedName "isLightActive" i) light.GetIsActive]

/-- The light loop of DrawModel from slot i on. -/
def DrawModelLights (shader : PBRViewerShader) (myShadows : Option PBRViewerShadows) :
    GLuint → List PBRViewerPointLight → Option (List Call)
  | _, [] => some []
  | i, light :: rest =>
    match DrawModelLight shader myShadows i light, DrawModelLights shader myShadows (i + 1) rest with
    | some slot, some slots => some (slot ++ slots)
    | _, _ => none

/-- The uniform writes of DrawModel that follow the light loop. -/
def DrawModelParameters (m : PBRViewerModel) (shader : PBRViewerShader) : List Call :=
  [.setInt shader "blinnPhongExponent" m.myBlinnPhongExponent.toGLint,
   .setInt shader "n_u" m.myAshikhminShirleyNu.toGLint,
   .setInt shader "n_v" m.myAshikhminShirleyNv.toGLint,
   .setInt shader "diffuseTerm" m.myCookTorranceDiffuseTerm,
   .setInt shader "fresnelTerm" m.myCookTorranceFresnelTerm,
   .setInt shader "normalDistributionTerm" m.myCookTorranceNormalDistributionTerm,
   .setInt shader "geometryTerm" m.myCookTorranceGeometryTerm] ++
  (if m.myCookTorranceAreCustomMaterialValuesEnabled then
    [.setBool shader "customMaterialValuesEnabled" true,
     .setFloat shader "customMetalness" m.myCookTorranceMetalness,
     .setFloat shader "customRoughness" m.myCookTorranceRoughness]
  else
    [.setBool shader "customMaterialValuesEnabled" false]) ++
  [.setFloat shader "subsurface" m.myDisneySubsurface,
   .setFloat shader "metallic" m.myDisneyMetallic,
   .setFloat shader "specular" m.myDisneySpecular,
   .setFloat shader "specularTint" m.myDisneySpecularTint,
   .setFloat shader "roughness" m.myDisneyRoughness,
   .setFloat shader "anisotropic" m.myDisneyAnisotropic,
   .setFloat shader "sheen" m.myDisneySheen,
   .setFloat shader "sheenTint" m.myDisneySheenTint,
   .setFloat shader "clearcoat" m.myDisneyClearcoat,
   .setFloat shader "clearcoatGloss" m.myDisneyClearcoatGloss,
   .setBool shader "shadowsEnabled" m.myAreShadowsEnabled,
   .setInt shader "renderOutput" m.myRenderOutput,
   .setInt shader "debugOutput" m.myDebugOutput,
   .setFloat shader "gamma" m.myGamma,
   .setFloat shader "exposure" m.myExposure]

/-- PBRViewerModel::DrawModel: none when myCurrentLightShader, myLoadedModel or myCamera is
null, or when a light is active and myShadows is null. -/
def DrawModel (m : PBRViewerModel) (view projection : Mat4) : Option (List Call) :=
  match m.myCurrentLightShader, m.myLoadedModel, m.myCamera with
  | some shader, some scene, some camera =>
    match DrawModelLights shader m.myShadows 0 m.myLightSources with
    | none => none
    | some lights =>
      some ([.Use shader,
          .setMat4 shader "model" scene.GetModelMatrix,
          .setMat4 shader "view" view,
          .setMat4 shader "projection" projection,
          .setVec3 shader "camPos" camera.GetCameraPosition] ++
        lights ++
        DrawModelParameters m shader ++
        scene.Draw shader)
  | _, _, _ => none

/-- PBRViewerModel::SetBlinnPhongExponent. -/
def SetBlinnPhongExponent (m : PBRViewerModel) (currentExponent : GLuint) : PBRViewerModel :=
  { m with myBlinnPhongExponent := currentExponent }

/-- PBRViewerModel::SetAshikhminShirleyNu. -/
def SetAshikhminShirleyNu (m : PBRViewerModel) (currentNu : GLuint) : PBRViewerModel :=
  { m with myAshikhminShirleyNu := currentNu }

/-- PBRViewerModel::SetAshikhminShirleyNv. -/
def SetAshikhminShirleyNv (m : PBRViewerModel) (currentNv : GLuint) : PBRViewerModel :=
  { m with myAshikhminShirleyNv := currentNv }

/-- PBRViewerModel::SetCustomMetalness. -/
def SetCustomMetalness (m : PBRViewerModel) (value : GLfloat) : PBRViewerModel :=
  { m with myCookTorranceMetalness := value }

/-- PBRViewerModel::SetCustomRoughness. -/
def SetCustomRoughness (m : PBRViewerModel) (value : GLfloat) : PBRViewerModel :=
  { m with myCookTorranceRoughness := value }

/-- PBRViewerModel::SetEnableCustomMaterialValues. -/
def SetEnableCustomMaterialValues (m : PBRViewerModel) (activated : GLboolean) : PBRViewerModel :=
  { m with myCookTorranceAreCustomMaterialValuesEnabled := activated }

/-- PBRViewerModel::SetDisneySubsurface. -/
def SetDisneySubsurface (m : PBRViewerModel) (value : GLfloat) : PBRViewerModel :=
  { m with myDisneySubsurface := value }

/-- PBRViewerModel::SetDisneyMetallic. -/
def SetDisneyMetallic (m : PBRViewerModel) (value : GLfloat) : PBRViewerModel :=
  { m with myDisneyMetallic := value }

/-- PBRViewerModel::SetDisneySpecular. -/
def SetDisneySpecular (m : PBRViewerModel) (value : GLfloat) : PBRViewerModel :=
  { m with myDisneySpecular := value }

/-- PBRViewerModel::SetDisneySpecularTint. -/
def SetDisneySpecularTint (m : PBRViewerModel) (value : GLfloat) : PBRViewerModel :=
  { m with myDisneySpecularTint := value }

/-- PBRViewerModel::SetDisneyRoughness. -/
def SetDisneyRoughness (m : PBRViewerModel) (value : GLfloat) : PBRViewerModel :=
  { m with myDisneyRoughness := value }

/-- PBRViewerModel::SetDisneyAnisotropic. -/
def SetDisneyAnisotropic (m : PBRViewerModel) (value : GLfloat) : PBRViewerModel :=
  { m with myDisneyAnisotropic := value }

/-- PBRViewerModel::SetDisneySheen. -/
def SetDisneySheen (m : PBRViewerModel) (value : GLfloat) : PBRViewerModel :=
  { m with myDisneySheen := value }

/-- PBRViewerModel::SetDisneySheenTint. -/
def SetDisneySheenTint (m : PBRViewerModel) (value : GLfloat) : PBRViewerModel :=
  { m with myDisneySheenTint := value }

/-- PBRViewerModel::SetDisneyClearcoat. -/
def SetDisneyClearcoat (m : PBRViewerModel) (value : GLfloat) : PBRViewerModel :=
  { m with myDisneyClearcoat := value }

/-- PBRViewerModel::SetDisneyClearcoatGloss. -/
def SetDisneyClearcoatGloss (m : PBRViewerModel) (value : GLfloat) : PBRViewerModel :=
  { m with myDisneyClearcoatGloss := value }

/-- PBRViewerModel::CreateLightSources, as far as the light collection is concerned. -/
def CreateLightSources (m : PBRViewerModel) : PBRViewerModel :=
  { m with myLightSources := m.myLightSources ++
      [ { myPosition := ⟨-1, 1, 1⟩, myIsActive := false, myLightColor := Vec3.splat 5 },
        { myPosition := ⟨1, 1, 1⟩, myIsActive := false, myLightColor := Vec3.splat 5 },
        { myPosition := ⟨-1, 1, -1⟩, myIsActive := false, myLightColor := Vec3.splat 5 },
        { myPosition := ⟨1, 1, -1⟩, myIsActive := false, myLightColor := Vec3.splat 5 } ] }

/-- PBRViewerModel::ActivateLightSource: none when the collection has no entry number. -/
def ActivateLightSource (m : PBRViewerModel) (number : Nat) : Option PBRViewerModel :=
  match m.myLightSources[number]? with
  | none => none
  | some light => some { m with myLightSources := m.myLightSources.set number (light.SetIsActive true) }

/-- PBRViewerModel::DisableLightSource: none when the collection has no entry number. -/
def DisableLightSource (m : PBRViewerModel) (number : Nat) : Option PBRViewerModel :=
  match m.myLightSources[number]? with
  | none => none
  | some light => some { m with myLightSources := m.myLightSources.set number (light.SetIsActive false) }

end PBRViewerModel

/-- The ten scalars of the Disney BRDF. -/
inductive DisneyParameter where
  | subsurface
  | metallic
  | specular
  | specularTint
  | roughness
  | anisotropic
  | sheen
  | sheenTint
  | clearcoat
  | clearcoatGloss
  deriving DecidableEq, Repr

namespace DisneyParameter

/-- The uniform name DrawModel writes the scalar under. -/
def key : DisneyParameter → String
  | subsurface => "subsurface"
  | metallic => "metallic"
  | specular => "specular"
  | specularTint => "specularTint"
  | roughness => "roughness"
  | anisotropic => "anisotropic"
  | sheen => "sheen"
  | sheenTint => "sheenTint"
  | clearcoat => "clearcoat"
  | clearcoatGloss => "clearcoatGloss"

/-- The setter of PBRViewerModel for the scalar. -/
def set : DisneyParameter → PBRViewerModel → GLfloat → PBRViewerModel
  | subsurface => PBRViewerModel.SetDisneySubsurface
  | metallic => PBRViewerModel.SetDisneyMetallic
  | specular => PBRViewerModel.SetDisneySpecular
  | specularTint => PBRViewerModel.SetDisneySpecularTint
  | roughness => PBRViewerModel.SetDisneyRoughness
  | anisotropic => PBRViewerModel.SetDisneyAnisotropic
  | sheen => PBRViewerModel.SetDisneySheen
  | sheenTint => PBRViewerModel.SetDisneySheenTint
  | clearcoat => PBRViewerModel.SetDisneyClearcoat
  | clearcoatGloss => PBRViewerModel.SetDisneyClearcoatGloss

/-- The member of PBRViewerModel that holds the scalar. -/
def stored : DisneyParameter → PBRViewerModel → GLfloat
  | subsurface => (·.myDisneySubsurface)
  | metallic => (·.myDisneyMetallic)
  | specular => (·.myDisneySpecular)
  | specularTint => (·.myDisneySpecularTint)
  | roughness => (·.myDisneyRoughness)
  | anisotropic => (·.myDisneyAnisotropic)
  | sheen => (·.myDisneySheen)
  | sheenTint => (·.myDisneySheenTint)
  | clearcoat => (·.myDisneyClearcoat)
  | clearcoatGloss => (·.myDisneyClearcoatGloss)

end DisneyParameter

/-! ## Texture lists and clean-up (PBRViewerMesh, PBRViewerScene, PBRViewerSkybox) -/

namespace PBRViewerMesh

/-- PBRViewerMesh::Cleanup. -/
def Cleanup (mesh : PBRViewerMesh) : List Call :=
  [.glDeleteVertexArrays mesh.myVAO, .glDeleteBuffers mesh.myVBO, .glDeleteBuffers mesh.myEBO]

/-- PBRViewerMesh::AddTexture: std::find compares with PBRViewerTexture::operator==. -/
def AddTexture (mesh : PBRViewerMesh) (textureToAdd : PBRViewerTexture) : PBRViewerMesh :=
  if mesh.myTextures.any (fun texture => texture.eq textureToAdd) then mesh
  else { mesh with myTextures := mesh.myTextures ++ [textureToAdd] }

/-- PBRViewerMesh::RemoveTexture: erases the first entry std::find reports. -/
def RemoveTexture (mesh : PBRViewerMesh) (textureToRemove : PBRViewerTexture) : PBRViewerMesh :=
  match mesh.myTextures.findIdx? (fun texture => texture.eq textureToRemove) with
  | some it => { mesh with myTextures := mesh.myTextures.eraseIdx it }
  | none => mesh

end PBRViewerMesh

namespace PBRViewerScene

/-- PBRViewerScene::Cleanup. -/
def Cleanup (scene : PBRViewerScene) : List Call :=
  scene.myTextures.map (fun texture => Call.glDeleteTextures texture.ID) ++
  scene.myMeshes.flatMap PBRViewerMesh.Cleanup

/-- PBRViewerScene::AddTextureToAllMeshes. -/
def AddTextureToAllMeshes (scene : PBRViewerScene) (textureToAdd : PBRViewerTexture) : PBRViewerScene :=
  { scene with myMeshes := scene.myMeshes.map (fun mesh => mesh.AddTexture textureToAdd) }

/-- PBRViewerScene::RemoveTextureFromAllMeshes. -/
def RemoveTextureFromAllMeshes (scene : PBRViewerScene) (textureToRemove : PBRViewerTexture) :
    PBRViewerScene :=
  { scene with myMeshes := scene.myMeshes.map (fun mesh => mesh.RemoveTexture textureToRemove) }

/-- PBRViewerScene::SetModelMatrix. -/
def SetModelMatrix (scene : PBRViewerScene) (modelMatrix : Mat4) : PBRViewerScene :=
  { scene with myModelMatrix := modelMatrix }

end PBRViewerScene

namespace PBRViewerSkybox

/-- PBRViewerSkybox::Cleanup. -/
def Cleanup (sky : PBRViewerSkybox) : List Call :=
  [.glDeleteTextures sky.myEnvironmentTexture.ID,
   .glDeleteTextures sky.myIrradianceTexture.ID,
   .glDeleteTextures sky.myBRDFLookupTexture.ID,
   .glDeleteTextures sky.myPreFilteredEnvironmentMap.ID,
   .glDeleteVertexArrays sky.myVAO]

/-- PBRViewerSkybox::GetIrradianceTexture. -/
def GetIrradianceTexture (sky : PBRViewerSkybox) : PBRViewerTexture := sky.myIrradianceTexture

/-- PBRViewerSkybox::GetPreFilteredEnvironmentMap. -/
def GetPreFilteredEnvironmentMap (sky : PBRViewerSkybox) : PBRViewerTexture :=
  sky.myPreFilteredEnvironmentMap

/-- PBRViewerSkybox::GetBRDFLookupTexture. -/
def GetBRDFLookupTexture (sky : PBRViewerSkybox) : PBRViewerTexture := sky.myBRDFLookupTexture

/-- PBRViewerSkybox::Draw. -/
def Draw (sky : PBRViewerSkybox) (shader : PBRViewerShader) : List Call :=
  [.glDepthFunc .GL_LEQUAL,
   .glActiveTexture 0,
   .glBindTexture .GL_TEXTURE_CUBE_MAP sky.myTextureToDisplay,
   .setInt shader "textureEnvironment" 0,
   if sky.myTextureToDisplay = sky.myPreFilteredEnvironmentMap.ID then
     .setInt shader "mipMapLevel" sky.myTextureMipMapLevelToDisplay.toGLint
   else
     .setInt shader "mipMapLevel" 0] ++
  RenderCube sky ++
  [.glDepthFunc .GL_LESS]

end PBRViewerSkybox

/-- The two file-level statics of PBRViewerPointLight.cpp: the shader and the 3D model all
lights are drawn with. -/
structure PointLightStatics where
  myShader : Option PBRViewerShader := none
  myModel : Option PBRViewerScene := none

/-- PBRViewerPointLight::Draw: none when the light is active and a static is empty. -/
def PBRViewerPointLight.Draw (statics : PointLightStatics) (light : PBRViewerPointLight)
    (modelMatrix viewMatrix projectionMatrix : Mat4) : Option (List Call) :=
  if light.myIsActive = false then some []
  else
    match statics.myShader, statics.myModel with
    | some myShader, some myModel =>
      some ([.Use myShader,
          .setMat4 myShader "model" modelMatrix,
          .setMat4 myShader "view" viewMatrix,
          .setMat4 myShader "projection" projectionMatrix,
          .setVec3 myShader "lightColor" light.myLightColor] ++
        myModel.Draw myShader)
    | _, _ => none

/-- The value a GLint has after the implicit conversion to GLuint. -/
def GLint.toGLuint (v : GLint) : GLuint := (v % 2 ^ 32).toNat

/-! ## Loading, clearing and the frame (PBRViewerModel) -/

namespace PBRViewerModel

/-- PBRViewerModel::ResetModelTransformations. -/
def ResetModelTransformations (m : PBRViewerModel) : PBRViewerModel :=
  match m.myLoadedModel with
  | none => m
  | some scene => { m with myLoadedModel := some (scene.SetModelMatrix Mat4.identity) }

/-- PBRViewerModel::LoadNewModel. -/
def LoadNewModel (m : PBRViewerModel) (filepathNewModel : String) : PBRViewerModel :=
  ResetModelTransformations
    { m with myNewModelFilepath := filepathNewModel, myNewModelShouldBeLoaded := true }

/-- PBRViewerModel::LoadNewSkybox. -/
def LoadNewSkybox (m : PBRViewerModel) (filepathNewSkybox : String) : PBRViewerModel :=
  { m with myNewSkyboxFilepath := filepathNewSkybox, myNewSkyboxShouldBeLoaded := true }

/-- PBRViewerModel::ClearModel, with the calls it issues: none when it dereferences an
empty myLoadedModel. The scene it releases is the one the irradiance texture was removed
from. -/
def ClearModel (m : PBRViewerModel) : Option (PBRViewerModel × List Call) :=
  match m.mySkybox with
  | some _ =>
    match m.myLoadedModel with
    | none => none
    | some _ => some ({ m with myLoadedModel := none }, [])
  | none => some ({ m with myLoadedModel := none }, [])

/-- PBRViewerModel::ClearSkybox, with the calls it issues: none when it dereferences an
empty mySkybox. -/
def ClearSkybox (m : PBRViewerModel) : Option (PBRViewerModel × List Call) :=
  match m.mySkybox with
  | none => none
  | some sky =>
    some ({ m with
        myLoadedModel := m.myLoadedModel.map fun scene =>
          ((scene.RemoveTextureFromAllMeshes sky.GetIrradianceTexture).RemoveTextureFromAllMeshes
            sky.GetPreFilteredEnvironmentMap).RemoveTextureFromAllMeshes sky.GetBRDFLookupTexture
        mySkybox := none },
      sky.Cleanup)

/-- PBRViewerModel::RemoveShadowTexturesFromModel, on the loaded scene. -/
def RemoveShadowTexturesFromModel (m : PBRViewerModel) (scene : PBRViewerScene) : PBRViewerScene :=
  m.myShadowDepthCubeMaps.foldl (fun s texture => s.RemoveTextureFromAllMeshes texture) scene

/-- PBRViewerModel::DrawLightSources. -/
def DrawLightSources (statics : PointLightStatics) (view projection : Mat4) :
    List PBRViewerPointLight → Option (List Call)
  | [] => some []
  | light :: rest =>
    match light.Draw statics
        (Mat4.translate (Mat4.translate Mat4.identity light.GetPosition) ⟨0, 1 / 2, 0⟩) view projection,
      DrawLightSources statics view projection rest with
    | some drawn, some others => some (drawn ++ others)
    | _, _ => none

/-- PBRViewerModel::DrawSkybox: none when the skybox shader, the camera or the skybox is
empty. -/
def DrawSkybox (m : PBRViewerModel) (projection : Mat4) : Option (List Call) :=
  match m.mySkyboxShader, m.myCamera, m.mySkybox with
  | some shader, some camera, some sky =>
    some ([.Use shader,
        .setMat4 shader "view" (Mat4.upperLeft3x3 camera.GetViewMatrix),
        .setMat4 shader "projection" projection,
        .setFloat shader "gamma" m.myGamma,
        .setFloat shader "exposure" m.myExposure] ++
      sky.Draw shader)
  | _, _, _ => none

/-- The block of DrawOpenGL that runs when myNewModelShouldBeLoaded is set. The
constructor of PBRViewerScene imports the file with Assimp; newScene stands for it, giving
the scene it builds and the calls it issues. -/
def LoadPendingModel (newScene : String → Driver → Ran PBRViewerScene) (m : PBRViewerModel)
    (d : Driver) : Ran PBRViewerModel :=
  let released : List Call :=
    match m.myLoadedModel with
    | some scene => scene.Cleanup
    | none => []
  let loaded := newScene m.myNewModelFilepath d
  let withSkybox : PBRViewerScene :=
    match m.mySkybox with
    | some sky =>
      ((loaded.result.AddTextureToAllMeshes sky.GetIrradianceTexture).AddTextureToAllMeshes
        sky.GetPreFilteredEnvironmentMap).AddTextureToAllMeshes sky.GetBRDFLookupTexture
    | none => loaded.result
  let releasedShadows : List Call :=
    match m.myShadows with
    | some shadows => shadows.Cleanup
    | none => []
  let shadows := PBRViewerShadows.new
  let shadowTextures :=
    shadows.CreateSelfShadowingTextures (m.myLightSources.length % 2 ^ 32) 4096 4096 loaded.driver
  { result :=
      { m with
        myLoadedModel := some (shadowTextures.result.1.foldl
          (fun scene texture => scene.AddTextureToAllMeshes texture) withSkybox)
        myShadows := some shadowTextures.result.2
        myNewModelShouldBeLoaded := false }
    driver := shadowTextures.driver
    calls := released ++ loaded.calls ++ releasedShadows ++ [.Compile shadows.myShadowShader] ++
      shadowTextures.calls }

/-- The block of DrawOpenGL that runs when myNewSkyboxShouldBeLoaded is set; the first
component of the result tells whether DrawOpenGL returns from inside the block. -/
def LoadPendingSkybox (host : Host) (m : PBRViewerModel) (d : Driver) : Ran (Bool × PBRViewerModel) :=
  let released : List Call :=
    match m.mySkybox with
    | some sky => sky.Cleanup
    | none => []
  let created := PBRViewerSkybox.new m.myNewSkyboxFilepath
  let init := PBRViewerSkybox.Init host created d
  if init.result.1 = false then
    { result := (true, { m with mySkybox := none, myNewSkyboxShouldBeLoaded := false })
      driver := init.driver
      calls := released ++ [.Compile created.myEquirectangularToCubemapShader] ++ init.calls ++
        init.result.2.Cleanup }
  else
    { result :=
        (false,
         { m with
           mySkybox := some init.result.2
           myLoadedModel := m.myLoadedModel.map fun scene =>
             ((scene.AddTextureToAllMeshes init.result.2.GetIrradianceTexture).AddTextureToAllMeshes
               init.result.2.GetPreFilteredEnvironmentMap).AddTextureToAllMeshes
               init.result.2.GetBRDFLookupTexture
           myNewSkyboxShouldBeLoaded := false })
      driver := init.driver
      calls := released ++ [.Compile created.myEquirectangularToCubemapShader] ++ init.calls }

/-- The part of DrawOpenGL after the two loading blocks: none when an empty pointer is
dereferenced. -/
def DrawFrame (host : Host) (statics : PointLightStatics) (m : PBRViewerModel) :
    Option (PBRViewerModel × List Call) :=
  match m.myCamera with
  | none => none
  | some camera =>
    let currentWindowWidth := host.windowWidth
    let currentWindowHeight := if host.windowHeight = 0 then 1 else host.windowHeight
    let projection := Mat4.perspective (radians camera.GetZoom)
      ((currentWindowWidth : GLfloat) / (currentWindowHeight : GLfloat)) (1 / 10) 50
    let view := camera.GetViewMatrix
    match DrawLightSources statics view projection m.myLightSources with
    | none => none
    | some lights =>
      let scenePart : Option (PBRViewerModel × List Call) :=
        match m.myLoadedModel with
        | none => some (m, [])
        | some scene =>
          let shadowPart : Option (List Call) :=
            if m.myAreShadowsEnabled then
              match m.myShadows with
              | none => none
              | some shadows =>
                shadows.CalculateSelfShadowing scene currentWindowWidth.toGLuint
                  currentWindowHeight.toGLuint m.myLightSources
            else some []
          match shadowPart, (SetLightingShader m).DrawModel view projection with
          | some shadowCalls, some modelCalls =>
            some ({ SetLightingShader m with
                myLoadedModel := some ((SetLightingShader m).RemoveShadowTexturesFromModel scene) },
              shadowCalls ++ modelCalls)
          | _, _ => none
      match scenePart with
      | none => none
      | some (drawn, sceneCalls) =>
        match drawn.mySkybox with
        | none => some (drawn, lights ++ sceneCalls)
        | some _ =>
          match drawn.DrawSkybox projection with
          | none => none
          | some skyboxCalls => some (drawn, lights ++ sceneCalls ++ skyboxCalls)

/-- The first statement of DrawOpenGL that acts on the model: the block of a pending scene,
when one is pending. -/
def PendingModelStep (newScene : String → Driver → Ran PBRViewerScene) (m : PBRViewerModel)
    (d : Driver) : Ran PBRViewerModel :=
  if m.myNewModelShouldBeLoaded then LoadPendingModel newScene m d
  else { result := m, driver := d, calls := [] }

/-- The second statement of DrawOpenGL that acts on the model: the block of a pending
skybox, when one is pending. -/
def PendingSkyboxStep (host : Host) (m : PBRViewerModel) (d : Driver) : Ran (Bool × PBRViewerModel) :=
  if m.myNewSkyboxShouldBeLoaded then LoadPendingSkybox host m d
  else { result := (false, m), driver := d, calls := [] }

/-- PBRViewerModel::DrawOpenGL, for the events glfwPollEvents delivered already handled and
without the frame time: none when an empty pointer is dereferenced. -/
def DrawOpenGL (host : Host) (newScene : String → Driver → Ran PBRViewerScene)
    (statics : PointLightStatics) (m : PBRViewerModel) (d : Driver) : Option (Ran PBRViewerModel) :=
  let model := PendingModelStep newScene m d
  let skybox := PendingSkyboxStep host model.result model.driver
  if skybox.result.1 then
    some { result := skybox.result.2, driver := skybox.driver, calls := model.calls ++ skybox.calls }
  else
    match DrawFrame host statics skybox.result.2 with
    | none => none
    | some (drawn, frameCalls) =>
      some { result := drawn, driver := skybox.driver
             calls := model.calls ++ skybox.calls ++ frameCalls }

end PBRViewerModel

/-! ## Reading which textures exist -/

/-- The texture names that exist after a record of calls, given those that existed before:
glGenTextures adds a name, glDeleteTextures removes it. -/
def texturesAlive : List GLuint → List Call → List GLuint
  | alive, [] => alive
  | alive, .glGenTextures name :: rest => texturesAlive (name :: alive) rest
  | alive, .glDeleteTextures texture :: rest => texturesAlive (alive.filter (· ≠ texture)) rest
  | alive, _ :: rest => texturesAlive alive rest

/-- The framebuffer names that exist after a record of calls, given those that existed
before. -/
def framebuffersAlive : List GLuint → List Call → List GLuint
  | alive, [] => alive
  | alive, .glGenFramebuffers name :: rest => framebuffersAlive (name :: alive) rest
  | alive, .glDeleteFramebuffers framebuffer :: rest =>
    framebuffersAlive (alive.filter (· ≠ framebuffer)) rest
  | alive, _ :: rest => framebuffersAlive alive rest

/-- The texture names the meshes of a scene list. -/
def PBRViewerScene.listedTextures (scene : PBRViewerScene) : List GLuint :=
  scene.myMeshes.flatMap fun mesh => mesh.myTextures.map fun texture => texture.ID

/-! ## Light colour (PBRViewerModel::SetLightingColor) -/

/-- The loop of SetLightingColor from the light at the head of the list on: the statement
rgb.operator*=(5) multiplies the parameter rgb in place and hands the product to the light,
so the next light starts from the product. -/
def PBRViewerModel.SetLightingColorLoop : Vec3 → List PBRViewerPointLight → List PBRViewerPointLight
  | _, [] => []
  | rgb, light :: rest =>
    light.SetLightColor (rgb.scale 5) :: PBRViewerModel.SetLightingColorLoop (rgb.scale 5) rest

/-- PBRViewerModel::SetLightingColor. -/
def PBRViewerModel.SetLightingColor (m : PBRViewerModel) (rgb : Vec3) : PBRViewerModel :=
  { m with myLightSources := PBRViewerModel.SetLightingColorLoop rgb m.myLightSources }

/-! ## Sequences of texture list operations (PBRViewerMesh) -/

/-- A call of PBRViewerMesh::AddTexture or of PBRViewerMesh::RemoveTexture. -/
inductive TextureListCall where
  | AddTexture (textureToAdd : PBRViewerTexture)
  | RemoveTexture (textureToRemove : PBRViewerTexture)
  deriving DecidableEq, Repr

/-- The mesh after one call. -/
def PBRViewerMesh.after (mesh : PBRViewerMesh) : TextureListCall → PBRViewerMesh
  | .AddTexture textureToAdd => mesh.AddTexture textureToAdd
  | .RemoveTexture textureToRemove => mesh.RemoveTexture textureToRemove

/-- The mesh after a sequence of calls. -/
def PBRViewerMesh.afterAll (mesh : PBRViewerMesh) (calls : List TextureListCall) : PBRViewerMesh :=
  calls.foldl PBRViewerMesh.after mesh

/-! ## The other public operations of PBRViewerModel -/

/-- PBRViewerSkybox::SetTextureToDisplay. -/
def PBRViewerSkybox.SetTextureToDisplay (sky : PBRViewerSkybox) (currentSkyboxTexture : SkyboxTexture) :
    PBRViewerSkybox :=
  if currentSkyboxTexture = SkyboxTexture.Environment then
    { sky with myTextureToDisplay := sky.myEnvironmentTexture.ID }
  else if currentSkyboxTexture = SkyboxTexture.Irradiance then
    { sky with myTextureToDisplay := sky.myIrradianceTexture.ID }
  else if currentSkyboxTexture = SkyboxTexture.PreFilteredEnvironment then
    { sky with myTextureToDisplay := sky.myPreFilteredEnvironmentMap.ID }
  else
    { sky with myTextureToDisplay := sky.myEnvironmentTexture.ID }

/-- PBRViewerSkybox::SetTextureToDisplayMipMapLevel. -/
def PBRViewerSkybox.SetTextureToDisplayMipMapLevel (sky : PBRViewerSkybox) (currentMipMapLevel : GLuint) :
    PBRViewerSkybox :=
  { sky with myTextureMipMapLevelToDisplay := currentMipMapLevel }

namespace PBRViewerScene

/-- PBRViewerScene::RotateModel. -/
def RotateModel (scene : PBRViewerScene) (rotationMatrix : Mat4) : PBRViewerScene :=
  { scene with myModelMatrix := Mat4.mul rotationMatrix scene.myModelMatrix }

/-- PBRViewerScene::RotateModelX. -/
def RotateModelX (scene : PBRViewerScene) (rotationAroundX : GLfloat) : PBRViewerScene :=
  { scene with myModelMatrix := Mat4.rotate scene.myModelMatrix (radians rotationAroundX) ⟨1, 0, 0⟩ }

/-- PBRViewerScene::RotateModelY. -/
def RotateModelY (scene : PBRViewerScene) (rotationAroundY : GLfloat) : PBRViewerScene :=
  { scene with myModelMatrix := Mat4.rotate scene.myModelMatrix (radians rotationAroundY) ⟨0, 1, 0⟩ }

/-- PBRViewerScene::RotateModelZ. -/
def RotateModelZ (scene : PBRViewerScene) (rotationAroundZ : GLfloat) : PBRViewerScene :=
  { scene with myModelMatrix := Mat4.rotate scene.myModelMatrix (radians rotationAroundZ) ⟨0, 0, 1⟩ }

/-- PBRViewerScene::SetPosition. -/
def SetPosition (scene : PBRViewerScene) (newPosition : Vec3) : PBRViewerScene :=
  { scene with myModelMatrix := Mat4.translate Mat4.identity newPosition }

/-- PBRViewerScene::ScaleIsotropically. -/
def ScaleIsotropically (scene : PBRViewerScene) (increaseValue : GLfloat)
    (scaleOperation : ScaleOperation) : PBRViewerScene :=
  if scaleOperation = ScaleOperation.Increase then
    { scene with myModelMatrix := Mat4.scale scene.myModelMatrix (Vec3.splat (1 + increaseValue)) }
  else if scaleOperation = ScaleOperation.Decrease then
    { scene with myModelMatrix := Mat4.scale scene.myModelMatrix (Vec3.splat (1 - increaseValue)) }
  else scene

end PBRViewerScene

namespace PBRViewerModel

/-- PBRViewerModel::Init, as far as the members are concerned, once the window and the
OpenGL loader are up. -/
def Init (m : PBRViewerModel) : PBRViewerModel :=
  { CreateShader (CreateLightSources m) with myCamera := some { myCameraPosition := ⟨0, 0, 3⟩ } }

/-- PBRViewerModel::ChangeNormalDistributionTerm. -/
def ChangeNormalDistributionTerm (m : PBRViewerModel) (normalDistributionTerm : NormalDistributionTerm) :
    PBRViewerModel :=
  { m with myCookTorranceNormalDistributionTerm := normalDistributionTerm }

/-- PBRViewerModel::ChangeFresnelTerm. -/
def ChangeFresnelTerm (m : PBRViewerModel) (fresnelTerm : FresnelTerm) : PBRViewerModel :=
  { m with myCookTorranceFresnelTerm := fresnelTerm }

/-- PBRViewerModel::ChangeGeometryTerm. -/
def ChangeGeometryTerm (m : PBRViewerModel) (geometryTerm : GeometryTerm) : PBRViewerModel :=
  { m with myCookTorranceGeometryTerm := geometryTerm }

/-- PBRViewerModel::ChangeRenderOutput. -/
def ChangeRenderOutput (m : PBRViewerModel) (renderOutput : RenderOutput) : PBRViewerModel :=
  { m with myRenderOutput := renderOutput }

/-- PBRViewerModel::SetGamma. -/
def SetGamma (m : PBRViewerModel) (value : GLfloat) : PBRViewerModel :=
  { m with myGamma := value }

/-- PBRViewerModel::SetExposure. -/
def SetExposure (m : PBRViewerModel) (value : GLfloat) : PBRViewerModel :=
  { m with myExposure := value }

/-- PBRViewerModel::SetEnableShadows. -/
def SetEnableShadows (m : PBRViewerModel) (activated : GLboolean) : PBRViewerModel :=
  { m with myAreShadowsEnabled := activated }

/-- PBRViewerModel::SetDebugOutput. -/
def SetDebugOutput (m : PBRViewerModel) (currentDebugOutput : DebugOutput) : PBRViewerModel :=
  { m with myDebugOutput := currentDebugOutput }

/-- PBRViewerModel::SetDiffuseTerm. -/
def SetDiffuseTerm (m : PBRViewerModel) (currentDiffuseTerm : DiffuseTerm) : PBRViewerModel :=
  { m with myCookTorranceDiffuseTerm := currentDiffuseTerm }

/-- PBRViewerModel::SetSkyboxTexture. -/
def SetSkyboxTexture (m : PBRViewerModel) (currentSkyboxTexture : SkyboxTexture) : PBRViewerModel :=
  match m.mySkybox with
  | none => m
  | some sky => { m with mySkybox := some (sky.SetTextureToDisplay currentSkyboxTexture) }

/-- PBRViewerModel::SetSkyboxTextureMipMapLevel. -/
def SetSkyboxTextureMipMapLevel (m : PBRViewerModel) (currentMipMapLevel : GLuint) : PBRViewerModel :=
  match m.mySkybox with
  | none => m
  | some sky => { m with mySkybox := some (sky.SetTextureToDisplayMipMapLevel currentMipMapLevel) }

/-- PBRViewerModel::RotateModel. -/
def RotateModel (m : PBRViewerModel) (rotationMatrix : Mat4) : PBRViewerModel :=
  match m.myLoadedModel with
  | none => m
  | some scene =>
    if rotationMatrix = Mat4.identity then m
    else { m with myLoadedModel := some (scene.RotateModel rotationMatrix) }

/-- PBRViewerModel::RotateModelX. -/
def RotateModelX (m : PBRViewerModel) (rotationAroundX : GLfloat) : PBRViewerModel :=
  match m.myLoadedModel with
  | none => m
  | some scene =>
    if rotationAroundX = 0 then m
    else { m with myLoadedModel := some (scene.RotateModelX rotationAroundX) }

/-- PBRViewerModel::RotateModelY. -/
def RotateModelY (m : PBRViewerModel) (rotationAroundY : GLfloat) : PBRViewerModel :=
  match m.myLoadedModel with
  | none => m
  | some scene =>
    if rotationAroundY = 0 then m
    else { m with myLoadedModel := some (scene.RotateModelY rotationAroundY) }

/-- PBRViewerModel::RotateModelZ. -/
def RotateModelZ (m : PBRViewerModel) (rotationAroundZ : GLfloat) : PBRViewerModel :=
  match m.myLoadedModel with
  | none => m
  | some scene =>
    if rotationAroundZ = 0 then m
    else { m with myLoadedModel := some (scene.RotateModelZ rotationAroundZ) }

/-- PBRViewerModel::SetPosition. -/
def SetPosition (m : PBRViewerModel) (newPosition : Vec3) : PBRViewerModel :=
  match m.myLoadedModel with
  | none => m
  | some scene =>
    if newPosition = Vec3.splat 0 then m
    else { m with myLoadedModel := some (scene.SetPosition newPosition) }

/-- PBRViewerModel::SetModelMatrix. -/
def SetModelMatrix (m : PBRViewerModel) (newModelMatrix : Mat4) : PBRViewerModel :=
  match m.myLoadedModel with
  | none => m
  | some scene => { m with myLoadedModel := some (scene.SetModelMatrix newModelMatrix) }

/-- PBRViewerModel::ScaleIsotropically. -/
def ScaleIsotropically (m : PBRViewerModel) (value : GLfloat) (scaleOperation : ScaleOperation) :
    PBRViewerModel :=
  match m.myLoadedModel with
  | none => m
  | some scene =>
    if 0 = value then m
    else { m with myLoadedModel := some (scene.ScaleIsotropically value scaleOperation) }

/-- PBRViewerModel::Cleanup: the calls it issues; the members stay as they are. -/
def Cleanup (m : PBRViewerModel) : List Call :=
  (match m.myShadows with
    | some shadows => shadows.Cleanup
    | none => []) ++
  (match m.myLoadedModel with
    | some scene => scene.Cleanup
    | none => []) ++
  (match m.mySkybox with
    | some sky => sky.Cleanup
    | none => [])

end PBRViewerModel

/-! ## The calls a caller makes on the model -/

/-- A call of a public member function of PBRViewerModel that can change the model, with
its arguments. Init and the const getters are left out. ActivateLightSource and
DisableLightSource carry the number the controller passes, which is 0, 1, 2 or 3.
SetDisney stands for the ten Disney setters, CameraMoved for a use of the pointer GetCamera
hands out (the mouse callbacks move the camera through it), and SetMouseProcessing touches
a member outside the embedding only. -/
inductive ModelCall where
  | DrawOpenGL (host : Host)
  | LoadNewModel (filepathNewModel : String)
  | ClearModel
  | LoadNewSkybox (filepathNewSkybox : String)
  | ClearSkybox
  | ChangeLighting (lightingVariant : LightingVariant)
  | ChangeNormalDistributionTerm (normalDistributionTerm : NormalDistributionTerm)
  | ChangeFresnelTerm (fresnelTerm : FresnelTerm)
  | ChangeGeometryTerm (geometryTerm : GeometryTerm)
  | SetLightingColor (rgb : Vec3)
  | ChangeRenderOutput (renderOutput : RenderOutput)
  | SetMouseProcessing (mouseShouldBeProcessed : GLboolean)
  | RotateModel (rotationMatrix : Mat4)
  | RotateModelX (rotationAroundX : GLfloat)
  | RotateModelY (rotationAroundY : GLfloat)
  | RotateModelZ (rotationAroundZ : GLfloat)
  | SetPosition (newPosition : Vec3)
  | SetModelMatrix (newModelMatrix : Mat4)
  | ScaleIsotropically (value : GLfloat) (scaleOperation : ScaleOperation)
  | ResetModelTransformations
  | CameraMoved (camera : PBRViewerArcballCamera)
  | ActivateLightSource (number : Fin 4)
  | DisableLightSource (number : Fin 4)
  | SetGamma (value : GLfloat)
  | SetExposure (value : GLfloat)
  | SetCustomMetalness (value : GLfloat)
  | SetCustomRoughness (value : GLfloat)
  | SetEnableCustomMaterialValues (activated : GLboolean)
  | SetSkyboxTexture (currentSkyboxTexture : SkyboxTexture)
  | SetSkyboxTextureMipMapLevel (currentMipMapLevel : GLuint)
  | SetBlinnPhongExponent (currentExponent : GLuint)
  | SetEnableShadows (activated : GLboolean)
  | SetDebugOutput (currentDebugOutput : DebugOutput)
  | SetDiffuseTerm (currentDiffuseTerm : DiffuseTerm)
  | SetAshikhminShirleyNu (currentNu : GLuint)
  | SetAshikhminShirleyNv (currentNv : GLuint)
  | SetDisney (parameter : DisneyParameter) (value : GLfloat)
  | Cleanup

/-- The model and the driver after a call: none when the call dereferences an empty
pointer or reads past the end of the light collection. -/
def PBRViewerModel.afterCall (newScene : String → Driver → Ran PBRViewerScene)
    (statics : PointLightStatics) (s : PBRViewerModel × Driver) :
    ModelCall → Option (PBRViewerModel × Driver)
  | .DrawOpenGL host =>
    (PBRViewerModel.DrawOpenGL host newScene statics s.1 s.2).map fun frame =>
      (frame.result, frame.driver)
  | .LoadNewModel filepathNewModel => some (s.1.LoadNewModel filepathNewModel, s.2)
  | .ClearModel => s.1.ClearModel.map fun cleared => (cleared.1, s.2)
  | .LoadNewSkybox filepathNewSkybox => some (s.1.LoadNewSkybox filepathNewSkybox, s.2)
  | .ClearSkybox => s.1.ClearSkybox.map fun cleared => (cleared.1, s.2)
  | .ChangeLighting lightingVariant => some (s.1.ChangeLighting lightingVariant, s.2)
  | .ChangeNormalDistributionTerm normalDistributionTerm =>
    some (s.1.ChangeNormalDistributionTerm normalDistributionTerm, s.2)
  | .ChangeFresnelTerm fresnelTerm => some (s.1.ChangeFresnelTerm fresnelTerm, s.2)
  | .ChangeGeometryTerm geometryTerm => some (s.1.ChangeGeometryTerm geometryTerm, s.2)
  | .SetLightingColor rgb => some (s.1.SetLightingColor rgb, s.2)
  | .ChangeRenderOutput renderOutput => some (s.1.ChangeRenderOutput renderOutput, s.2)
  | .SetMouseProcessing _ => some s
  | .RotateModel rotationMatrix => some (s.1.RotateModel rotationMatrix, s.2)
  | .RotateModelX rotationAroundX => some (s.1.RotateModelX rotationAroundX, s.2)
  | .RotateModelY rotationAroundY => some (s.1.RotateModelY rotationAroundY, s.2)
  | .RotateModelZ rotationAroundZ => some (s.1.RotateModelZ rotationAroundZ, s.2)
  | .SetPosition newPosition => some (s.1.SetPosition newPosition, s.2)
  | .SetModelMatrix newModelMatrix => some (s.1.SetModelMatrix newModelMatrix, s.2)
  | .ScaleIsotropically value scaleOperation =>
    some (s.1.ScaleIsotropically value scaleOperation, s.2)
  | .ResetModelTransformations => some (s.1.ResetModelTransformations, s.2)
  | .CameraMoved camera =>
    match s.1.myCamera with
    | none => none
    | some _ => some ({ s.1 with myCamera := some camera }, s.2)
  | .ActivateLightSource number => (s.1.ActivateLightSource number.val).map fun m => (m, s.2)
  | .DisableLightSource number => (s.1.DisableLightSource number.val).map fun m => (m, s.2)
  | .SetGamma value => some (s.1.SetGamma value, s.2)
  | .SetExposure value => some (s.1.SetExposure value, s.2)
  | .SetCustomMetalness value => some (s.1.SetCustomMetalness value, s.2)
  | .SetCustomRoughness value => some (s.1.SetCustomRoughness value, s.2)
  | .SetEnableCustomMaterialValues activated =>
    some (s.1.SetEnableCustomMaterialValues activated, s.2)
  | .SetSkyboxTexture currentSkyboxTexture => some (s.1.SetSkyboxTexture currentSkyboxTexture, s.2)
  | .SetSkyboxTextureMipMapLevel currentMipMapLevel =>
    some (s.1.SetSkyboxTextureMipMapLevel currentMipMapLevel, s.2)
  | .SetBlinnPhongExponent currentExponent => some (s.1.SetBlinnPhongExponent currentExponent, s.2)
  | .SetEnableShadows activated => some (s.1.SetEnableShadows activated, s.2)
  | .SetDebugOutput currentDebugOutput => some (s.1.SetDebugOutput currentDebugOutput, s.2)
  | .SetDiffuseTerm currentDiffuseTerm => some (s.1.SetDiffuseTerm currentDiffuseTerm, s.2)
  | .SetAshikhminShirleyNu currentNu => some (s.1.SetAshikhminShirleyNu currentNu, s.2)
  | .SetAshikhminShirleyNv currentNv => some (s.1.SetAshikhminShirleyNv currentNv, s.2)
  | .SetDisney parameter value => some (parameter.set s.1 value, s.2)
  | .Cleanup => some s

/-- The states of the model and the driver a caller can reach: the one Init leaves on a
default-constructed model, and every state a call leads to from a reachable one. -/
inductive ModelReachable (newScene : String → Driver → Ran PBRViewerScene)
    (statics : PointLightStatics) : PBRViewerModel × Driver → Prop where
  | init (d : Driver) : ModelReachable newScene statics (PBRViewerModel.Init {}, d)
  | call (s next : PBRViewerModel × Driver) (c : ModelCall) :
    ModelReachable newScene statics s → PBRViewerModel.afterCall newScene statics s c = some next →
    ModelReachable newScene statics next

/-- The state in which DrawOpenGL reaches its drawing part: the model and the driver
after the two loading blocks. -/
def PBRViewerModel.beforeDrawFrame (host : Host) (newScene : String → Driver → Ran PBRViewerScene)
    (s : PBRViewerModel × Driver) : PBRViewerModel × Driver :=
  ((PBRViewerModel.PendingSkyboxStep host (PBRViewerModel.PendingModelStep newScene s.1 s.2).result
      (PBRViewerModel.PendingModelStep newScene s.1 s.2).driver).result.2,
   (PBRViewerModel.PendingSkyboxStep host (PBRViewerModel.PendingModelStep newScene s.1 s.2).result
      (PBRViewerModel.PendingModelStep newScene s.1 s.2).driver).driver)

/-! ## The gamma slider (PBRViewerScalarSlider, PBRViewerGraphicSettings) -/

/-- A value of the C++ type float, as far as its comparisons go: a number, an infinity or
not-a-number. strtof returns an infinity for a text such as inf or 1e99, not-a-number for
a text such as nan, and the number 0 for a text it cannot read. -/
inductive FloatValue where
  | number (v : GLfloat)
  | infinity (negative : Bool)
  | nan
  deriving DecidableEq, Repr

namespace FloatValue

/-- The operator == of float: false whenever an operand is not-a-number. -/
def eq : FloatValue → FloatValue → Bool
  | number a, number b => a == b
  | infinity a, infinity b => a == b
  | _, _ => false

/-- The operator < of float: false whenever an operand is not-a-number. -/
def lt : FloatValue → FloatValue → Bool
  | number a, number b => decide (a < b)
  | number _, infinity negative => !negative
  | infinity negative, number _ => negative
  | infinity a, infinity b => a && !b
  | _, _ => false

/-- The operator > of float. -/
def gt (a b : FloatValue) : Bool := lt b a

/-- The operator <= of float: false whenever an operand is not-a-number. -/
def le (a b : FloatValue) : Bool := lt a b || eq a b

end FloatValue

/-- nanogui::Slider, as far as PBRViewerScalarSlider uses it: its range and its value. The
ranges the program gives its sliders are numbers; setValue stores the float it receives. -/
structure Slider where
  range : GLfloat × GLfloat
  value : FloatValue
  deriving DecidableEq, Repr

/-- The members of PBRViewerScalarSlider<GLfloat>; the text box holds the entered text,
which the callback below receives as the float strtof reads from it. -/
structure PBRViewerScalarSlider where
  mySlider : Slider
  myDefaultValue : GLfloat
  deriving DecidableEq, Repr

/-- The constructor of PBRViewerScalarSlider. -/
def PBRViewerScalarSlider.new (range : GLfloat × GLfloat) (defaultValue : GLfloat) :
    PBRViewerScalarSlider :=
  { mySlider := { range := range, value := .number defaultValue }, myDefaultValue := defaultValue }

/-- The callback the constructor gives the text box, for the float strtof reads from the
entered text: the value it passes to the callback of the slider, if any, and the slider
afterwards. -/
def PBRViewerScalarSlider.TextboxCallback (s : PBRViewerScalarSlider) (enteredValue : FloatValue) :
    Option FloatValue × PBRViewerScalarSlider :=
  if enteredValue.eq s.mySlider.value then (none, s)
  else if enteredValue.lt (.number s.mySlider.range.1) || enteredValue.gt (.number s.mySlider.range.2) then
    (none, s)
  else (some enteredValue, { s with mySlider := { s.mySlider with value := enteredValue } })

/-- The gamma slider the constructor of PBRViewerGraphicSettings creates. -/
def PBRViewerGraphicSettings.myGammaSlider : PBRViewerScalarSlider :=
  PBRViewerScalarSlider.new (1 / 100, 8) (22 / 10)

/-- The gamma slider together with the member myGamma of the model its callback writes to
through SetGamma. The member is held as a float here, so that it can hold every value
SetGamma can receive. -/
structure GammaControl where
  slider : PBRViewerScalarSlider
  myGamma : FloatValue
  deriving DecidableEq, Repr

/-- An input to the gamma slider: the knob is moved to a value, or a text is entered of
which strtof reads the value. -/
inductive GammaInput where
  | sliderMoved (value : GLfloat)
  | textEntered (enteredValue : FloatValue)
  deriving DecidableEq, Repr

/-- The gamma control after an input. Moving the knob stores the value in the slider and
passes it to the callback the controller set, which calls SetGamma; an entered text goes
through the callback of the text box first. SetGamma stores the value it receives. -/
def GammaControl.after (g : GammaControl) : GammaInput → GammaControl
  | .sliderMoved value =>
    { slider := { g.slider with mySlider := { g.slider.mySlider with value := .number value } }
      myGamma := .number value }
  | .textEntered enteredValue =>
    match (g.slider.TextboxCallback enteredValue).1 with
    | some value => { slider := (g.slider.TextboxCallback enteredValue).2, myGamma := value }
    | none => { g with slider := (g.slider.TextboxCallback enteredValue).2 }

/-- The states of the gamma control that can be reached from the state after construction,
in which myGamma is the gamma Init leaves in the model, when the slider widget reports
values inside its range only. -/
inductive GammaReachable : GammaControl → Prop where
  | constructed : GammaReachable { slider := PBRViewerGraphicSettings.myGammaSlider,
                                   myGamma := .number (PBRViewerModel.Init {}).myGamma }
  | sliderMoved (g : GammaControl) (value : GLfloat) :
    GammaReachable g → g.slider.mySlider.range.1 ≤ value → value ≤ g.slider.mySlider.range.2 →
    GammaReachable (g.after (.sliderMoved value))
  | textEntered (g : GammaControl) (enteredValue : FloatValue) :
    GammaReachable g → GammaReachable (g.after (.textEntered enteredValue))

/-! ## Reading texture units and the calls around a draw call -/

/-- Whether a call is a draw call. -/
def Call.isDrawCall : Call → Bool
  | .glDrawArrays _ _ _ => true
  | .glDrawElements _ _ _ => true
  | _ => false

/-- The calls of a record before its first draw call. -/
def beforeDraw (calls : List Call) : List Call :=
  calls.takeWhile fun c => !c.isDrawCall

/-- The calls of a record after its first draw call. -/
def afterDraw (calls : List Call) : List Call :=
  (calls.dropWhile fun c => !c.isDrawCall).drop 1

/-- The texture bindings a record makes, in order: the texture unit active at the time (as
its offset from GL_TEXTURE0, starting from the given one), the target and the texture. -/
def textureBindings : GLuint → List Call → List (GLuint × GLenum × GLuint)
  | _, [] => []
  | _, .glActiveTexture offset :: rest => textureBindings offset rest
  | unit, .glBindTexture target texture :: rest => (unit, target, texture) :: textureBindings unit rest
  | unit, _ :: rest => textureBindings unit rest

/-- The eight texture types PBRViewerMesh::Draw recognises, each with the target its
textures are bound to and the name of its available flag. -/
def recognisedTextureTypes : List (String × GLenum × String) :=
  [("textureDiffuse", .GL_TEXTURE_2D, "textureDiffuseAvailable"),
   ("textureNormal", .GL_TEXTURE_2D, "textureNormalAvailable"),
   ("textureRoughness", .GL_TEXTURE_2D, "textureRoughnessAvailable"),
   ("textureEmissive", .GL_TEXTURE_2D, "textureEmissiveAvailable"),
   ("textureIrradiance", .GL_TEXTURE_CUBE_MAP, "textureIrradianceAvailable"),
   ("texturePreFilterEnvironment", .GL_TEXTURE_CUBE_MAP, "texturePrefilteredEnvironmentAvailable"),
   ("textureBRDFLookup", .GL_TEXTURE_2D, "textureBRDFLookupAvailable"),
   ("textureShadows", .GL_TEXTURE_2D, "textureShadowsAvailable")]

/-- The number of textures of a type at the positions before i of a list. -/
def typeIndex (textures : List PBRViewerTexture) (i : Nat) (type : String) : Nat :=
  (textures.take i).countP fun entry => entry.TextureType == type

/-- The binding expected for the texture at position i of a list: the texture on unit i,
when its type is recognised. -/
def expectedBindingsAt (textures : List PBRViewerTexture) (i : Nat) : List (GLuint × GLenum × GLuint) :=
  match textures[i]? with
  | none => []
  | some t =>
    match recognisedTextureTypes.lookup t.TextureType with
    | some (target, _) => [(i, target, t.ID)]
    | none => []

/-- The uniform writes expected for the texture at position i of a list: for a recognised
type T the available flag of T and then the integer i under T[k], k being the number of
textures of type T before position i; for another type the integer i under the empty name. -/
def expectedWritesAt (textures : List PBRViewerTexture) (i : Nat) : List (String × UniformValue) :=
  match textures[i]? with
  | none => []
  | some t =>
    match recognisedTextureTypes.lookup t.TextureType with
    | some (_, flag) =>
      [(flag, .bool true), (indexedName t.TextureType (typeIndex textures i t.TextureType), .int i)]
    | none => [("", .int i)]

/-- The counters of PBRViewerMesh::Draw after the loop has passed the textures seen. -/
def TextureCounters.after (seen : List PBRViewerTexture) : TextureCounters :=
  { diffuseNr := seen.countP fun entry => entry.TextureType == "textureDiffuse"
    normalNr := seen.countP fun entry => entry.TextureType == "textureNormal"
    roughnessNr := seen.countP fun entry => entry.TextureType == "textureRoughness"
    emissiveNr := seen.countP fun entry => entry.TextureType == "textureEmissive"
    irradianceNr := seen.countP fun entry => entry.TextureType == "textureIrradiance"
    preFilteredEnvironmentNr := seen.countP fun entry => entry.TextureType == "texturePreFilterEnvironment"
    brdfLookupNr := seen.countP fun entry => entry.TextureType == "textureBRDFLookup"
    shadowNr := seen.countP fun entry => entry.TextureType == "textureShadows" }

/-! ## Texture names across frames -/

/-- What is taken for granted of the import of a scene file: the driver counts at least as
many textures after the import as before, and the textures the meshes of the new scene
list carry names the driver has handed out. -/
def ImportUsesDriverNames (newScene : String → Driver → Ran PBRViewerScene) : Prop :=
  ∀ (path : String) (d : Driver),
    d.textures ≤ (newScene path d).driver.textures ∧
    ∀ mesh ∈ (newScene path d).result.myMeshes, ∀ t ∈ mesh.myTextures,
      t.ID ≤ (newScene path d).driver.textures

/-- The relation between the texture lists of the meshes, the shadow set, the skybox and
the driver that the calls on the model keep: the list RemoveShadowTexturesFromModel walks
is empty; a loaded scene has a shadow set; every mesh of the loaded scene lists every
depth texture of the shadow set; the names of the depth textures and of the three derived
textures of the skybox were handed out by the driver; and no depth texture has the name of
one of these three textures. -/
structure TexturesConsistent (s : PBRViewerModel × Driver) : Prop where
  noRemovalList : s.1.myShadowDepthCubeMaps = []
  sceneHasShadows : ∀ scene, s.1.myLoadedModel = some scene → ∃ shadows, s.1.myShadows = some shadows
  shadowsListed : ∀ scene shadows, s.1.myLoadedModel = some scene → s.1.myShadows = some shadows →
    ∀ mesh ∈ scene.myMeshes, ∀ t ∈ shadows.myTextures, t ∈ mesh.myTextures
  shadowNames : ∀ shadows, s.1.myShadows = some shadows →
    ∀ t ∈ shadows.myTextures, t.ID ≤ s.2.textures
  skyboxNames : ∀ sky, s.1.mySkybox = some sky →
    sky.myIrradianceTexture.ID ≤ s.2.textures ∧ sky.myPreFilteredEnvironmentMap.ID ≤ s.2.textures ∧
      sky.myBRDFLookupTexture.ID ≤ s.2.textures
  namesApart : ∀ sky shadows, s.1.mySkybox = some sky → s.1.myShadows = some shadows →
    ∀ t ∈ shadows.myTextures, t.ID ≠ sky.myIrradianceTexture.ID ∧
      t.ID ≠ sky.myPreFilteredEnvironmentMap.ID ∧ t.ID ≠ sky.myBRDFLookupTexture.ID

/-! ## Concrete inputs -/

/-- A host on which no image file can be decoded. -/
def missingFileHost : Host :=
  { stbi_loadf := fun _ => none, windowWidth := 1536, windowHeight := 864 }

/-- A scene of one mesh without material textures. -/
def sampleScene : PBRViewerScene :=
  { myIsReady := true
    myMeshes := [{ myIndices := [0, 1, 2], myVAO := 1, myVBO := 1, myEBO := 2 }] }

/-- A model as PBRViewerModel::Init leaves it (four lights, the nine shaders, the camera at
(0, 0, 3)), with the scene sampleScene loaded, a shadow set of four 64 by 64 depth maps
and the program of the initial lighting variant bound. -/
def sampleModel : PBRViewerModel :=
  PBRViewerModel.SetLightingShader
    { PBRViewerModel.CreateShader (PBRViewerModel.CreateLightSources {}) with
      myLoadedModel := some sampleScene
      myShadows := some (PBRViewerShadows.CreateSelfShadowingTextures (PBRViewerShadows.new) 4 64 64 {}).result.2
      myCamera := some { myCameraPosition := ⟨0, 0, 3⟩ } }

/-- The record of DrawModel with the identity as view and projection matrix; empty when
DrawModel does not return. -/
def drawModelRecord (m : PBRViewerModel) : List Call :=
  (m.DrawModel Mat4.identity Mat4.identity).getD []

/-- The model sampleModel with custom material values enabled and the metalness 3/4. -/
def customMetalModel : PBRViewerModel :=
  PBRViewerModel.SetCustomMetalness (PBRViewerModel.SetEnableCustomMaterialValues sampleModel true) (3 / 4)

/-- The model sampleModel with the light of slot 1 activated. -/
def litModel : PBRViewerModel :=
  (sampleModel.ActivateLightSource 1).getD sampleModel

/-- A shadow set of four 64 by 64 depth maps, with the framebuffers 1, 2, 3 and 4. -/
def sampleShadows : PBRViewerShadows :=
  (PBRViewerShadows.CreateSelfShadowingTextures (PBRViewerShadows.new) 4 64 64 {}).result.2

/-- The four lights of CreateLightSources with the lights 0, 1 and 3 switched on and the
light 2 switched off. -/
def scenarioLights : List PBRViewerPointLight :=
  [ { myPosition := ⟨-1, 1, 1⟩, myIsActive := true, myLightColor := Vec3.splat 5 },
    { myPosition := ⟨1, 1, 1⟩, myIsActive := true, myLightColor := Vec3.splat 5 },
    { myPosition := ⟨-1, 1, -1⟩, myIsActive := false, myLightColor := Vec3.splat 5 },
    { myPosition := ⟨1, 1, -1⟩, myIsActive := true, myLightColor := Vec3.splat 5 } ]


/-- A host on which every image file decodes to a 2 by 1 image with three channels. -/
def decodingHost : Host :=
  { stbi_loadf := fun _ => some { width := 2, height := 1, nrChannels := 3 }
    windowWidth := 1536, windowHeight := 864 }

/-- An import that builds the scene sampleScene from every file, with the vertex array and
the two buffers of its mesh taken from the driver. -/
def sampleImport (_ : String) (d : Driver) : Ran PBRViewerScene :=
  { result := sampleScene
    driver := { d with vertexArrays := d.vertexArrays + 1, buffers := d.buffers + 2 }
    calls := [] }

/-- The statics of the point lights after PBRViewerModel::Init. -/
def sampleStatics : PointLightStatics :=
  { myShader := some (PBRViewerShader.Compile
      { vertexPath := "CommonVertexShader.vert", fragmentPath := "lightsource.frag" })
    myModel := some sampleScene }

/-- A model as PBRViewerModel::Init leaves it: four lights, the nine shaders and the camera
at (0, 0, 3); no scene and no skybox. -/
def initialModel : PBRViewerModel :=
  PBRViewerModel.Init {}

/-- The model and the driver after a frame, as far as the frame returns. -/
def frameAfter (host : Host) (state : PBRViewerModel × Driver) : PBRViewerModel × Driver :=
  match PBRViewerModel.DrawOpenGL host sampleImport sampleStatics state.1 state.2 with
  | some ran => (ran.result, ran.driver)
  | none => state

/-- The record of a frame; empty when the frame does not return. -/
def frameRecord (host : Host) (state : PBRViewerModel × Driver) : List Call :=
  match PBRViewerModel.DrawOpenGL host sampleImport sampleStatics state.1 state.2 with
  | some ran => ran.calls
  | none => []

/-- The state after LoadNewModel and one frame. -/
def sceneLoaded : PBRViewerModel × Driver :=
  frameAfter decodingHost (PBRViewerModel.LoadNewModel initialModel "scene.gltf", {})

/-- The state after LoadNewModel, LoadNewSkybox and one frame. -/
def sceneAndSkyboxLoaded : PBRViewerModel × Driver :=
  frameAfter decodingHost
    (PBRViewerModel.LoadNewSkybox (PBRViewerModel.LoadNewModel initialModel "scene.gltf") "first.hdr", {})

/-- The state sceneAndSkyboxLoaded after LoadNewSkybox with a second file. -/
def skyboxReplacementPending : PBRViewerModel × Driver :=
  (PBRViewerModel.LoadNewSkybox sceneAndSkyboxLoaded.1 "second.hdr", sceneAndSkyboxLoaded.2)

/-- The state sceneLoaded after LoadNewSkybox. -/
def skyboxPending : PBRViewerModel × Driver :=
  (PBRViewerModel.LoadNewSkybox sceneLoaded.1 "missing.hdr", sceneLoaded.2)

/-- The state sceneLoaded after ClearModel. -/
def sceneCleared : PBRViewerModel × Driver :=
  (match PBRViewerModel.ClearModel sceneLoaded.1 with
   | some cleared => cleared.1
   | none => sceneLoaded.1,
   sceneLoaded.2)

/-- The state sceneLoaded after LoadNewModel with a second file. -/
def sceneReplacementPending : PBRViewerModel × Driver :=
  (PBRViewerModel.LoadNewModel sceneLoaded.1 "other.gltf", sceneLoaded.2)

/-- The state after LoadNewSkybox and one frame, with no scene loaded. -/
def skyboxLoaded : PBRViewerModel × Driver :=
  frameAfter decodingHost (PBRViewerModel.LoadNewSkybox initialModel "first.hdr", {})

/-- An import that builds, from every file, a scene of one mesh with one material texture;
the texture, the vertex array and the two buffers carry the next names of the driver. -/
def texturedImport (path : String) (d : Driver) : Ran PBRViewerScene :=
  { result :=
      { myIsReady := true
        myTextures := [{ ID := d.textures + 1, TextureType := "textureDiffuse", Filepath := path }]
        myMeshes :=
          [{ myIndices := [0, 1, 2], myVAO := d.vertexArrays + 1, myVBO := d.buffers + 1,
             myEBO := d.buffers + 2,
             myTextures := [{ ID := d.textures + 1, TextureType := "textureDiffuse", Filepath := path }] }] }
    driver := { d with textures := d.textures + 1, vertexArrays := d.vertexArrays + 1,
                       buffers := d.buffers + 2 }
    calls := [.glGenTextures (d.textures + 1)] }

/-- The state after LoadNewModel, LoadNewSkybox and one frame, with the import
texturedImport. -/
def texturedSceneLoaded : PBRViewerModel × Driver :=
  match PBRViewerModel.DrawOpenGL decodingHost texturedImport sampleStatics
      (PBRViewerModel.LoadNewSkybox (PBRViewerModel.LoadNewModel initialModel "scene.gltf") "first.hdr")
      {} with
  | some ran => (ran.result, ran.driver)
  | none => (initialModel, {})

/-! # Theorems -/

/-! ## Activation toggles and lighting variant -/

/-- What a click on the toggle of tab does to the pushed flag of the toggle of t: the
clicked toggle flips, and every other toggle is released when the click activates. -/
theorem click_pushed (tab t : Tab) (s : ControllerState) :
    (click tab s).pushed t =
      if t = tab then !s.pushed tab else (if s.pushed tab then s.pushed t else false) := by
  unfold click ActivationButtonCallback ControllerState.pushed
  cases hb : (s.GraphicSettings.button tab).pushed
  · cases tab <;> cases t <;> rfl
  · cases tab <;> cases t <;> rfl

/-- What a click on the toggle of tab does to the lighting variant. -/
theorem click_variant (tab : Tab) (s : ControllerState) :
    (click tab s).myModel.GetCurrentLightingVariant =
      if s.pushed tab then LightingVariant.NoLighting else tab.variant := by
  unfold click ActivationButtonCallback ControllerState.pushed
  cases hb : (s.GraphicSettings.button tab).pushed <;> rfl

/-- Every reachable state has at most one pushed toggle, named by o, and the lighting
variant that belongs to it (NoLighting when no toggle is pushed). -/
theorem toggles_exclusive_reachable (s : ControllerState) (h : Reachable s) :
    ∃ o : Option Tab, (∀ t, s.pushed t = decide (o = some t)) ∧
      s.myModel.GetCurrentLightingVariant = (o.map Tab.variant).getD LightingVariant.NoLighting := by
  induction h with
  | initial =>
    refine ⟨some Tab.CookTorranceTab, ?_, rfl⟩
    intro t
    cases t <;> rfl
  | step tab s _ ih =>
    obtain ⟨o, hp, hv⟩ := ih
    by_cases hb : s.pushed tab = true
    · refine ⟨none, ?_, ?_⟩
      · intro t
        rw [click_pushed, hb]
        have ho : o = some tab := by
          have := hp tab
          rw [hb] at this
          simpa using this.symm
        by_cases ht : t = tab
        · simp [ht]
        · have h2 := hp t
          rw [ho] at h2
          have h3 : s.pushed t = false := by
            rw [h2]
            simp
            exact fun h => ht h.symm
          simp [ht, h3]
      · rw [click_variant, hb]
        rfl
    · have hb2 : s.pushed tab = false := by simpa using hb
      refine ⟨some tab, ?_, ?_⟩
      · intro t
        rw [click_pushed, hb2]
        by_cases ht : t = tab
        · simp [ht]
        · have : ¬ tab = t := fun h => ht h.symm
          simp [ht, this]
      · rw [click_variant, hb2]
        rfl

/-- C1: in every state reachable from the initial state (Cook-Torrance pushed, variant
CookTorrance) by clicks on the six activation toggles, at most one toggle is pushed; if a
toggle is pushed GetCurrentLightingVariant returns the variant of that toggle, and if no
toggle is pushed it returns NoLighting. -/
theorem C1_toggles_mutually_exclusive (s : ControllerState) (h : Reachable s) :
    (∀ t u, s.pushed t = true → s.pushed u = true → t = u) ∧
    (∀ t, s.pushed t = true → s.myModel.GetCurrentLightingVariant = t.variant) ∧
    ((∀ t, s.pushed t = false) → s.myModel.GetCurrentLightingVariant = LightingVariant.NoLighting) := by
  obtain ⟨o, hp, hv⟩ := toggles_exclusive_reachable s h
  refine ⟨?_, ?_, ?_⟩
  · intro t u ht hu
    rw [hp t] at ht
    rw [hp u] at hu
    have h1 : o = some t := by simpa using ht
    have h2 : o = some u := by simpa using hu
    rw [h1] at h2
    exact Option.some.inj h2
  · intro t ht
    rw [hp t] at ht
    have h1 : o = some t := by simpa using ht
    rw [hv, h1]
    rfl
  · intro hnone
    cases o with
    | none => rw [hv]; rfl
    | some t =>
      have := hnone t
      rw [hp t] at this
      simp at this

/-- C1 at a concrete state: after a click on Blinn-Phong and a click on Disney, only the
Disney toggle is pushed and the variant is Disney. -/
theorem C1_toggles_mutually_exclusive_witness :
    Reachable (click Tab.DisneyTab (click Tab.BlinnPhongTab {})) ∧
    (click Tab.DisneyTab (click Tab.BlinnPhongTab {})).pushed Tab.DisneyTab = true ∧
    (click Tab.DisneyTab (click Tab.BlinnPhongTab {})).pushed Tab.BlinnPhongTab = false ∧
    (click Tab.DisneyTab (click Tab.BlinnPhongTab {})).myModel.GetCurrentLightingVariant
      = LightingVariant.Disney :=
  ⟨Reachable.step _ _ (Reachable.step _ _ Reachable.initial), by decide, by decide,
    (C1_toggles_mutually_exclusive _
      (Reachable.step _ _ (Reachable.step _ _ Reachable.initial))).2.1 Tab.DisneyTab (by decide)⟩

/-! ## Lighting variant to program -/

/-- The fragment file of the program selected for the variant v, for each of the seven
variants of the enumeration. -/
theorem selectedProgram_fragmentPath (m : PBRViewerModel) :
    (PBRViewerModel.selectedProgram m LightingVariant.NoLighting).map (·.fragmentPath) = some "NoLighting.frag" ∧
    (PBRViewerModel.selectedProgram m LightingVariant.BlinnPhong).map (·.fragmentPath) = some "BlinnPhong.frag" ∧
    (PBRViewerModel.selectedProgram m LightingVariant.CookTorrance).map (·.fragmentPath) = some "CookTorrance.frag" ∧
    (PBRViewerModel.selectedProgram m LightingVariant.OrenNayar).map (·.fragmentPath) = some "OrenNayar.frag" ∧
    (PBRViewerModel.selectedProgram m LightingVariant.AshikhminShirley).map (·.fragmentPath) = some "AshikhminShirley.frag" ∧
    (PBRViewerModel.selectedProgram m LightingVariant.Debug).map (·.fragmentPath) = some "Debug.frag" ∧
    (PBRViewerModel.selectedProgram m LightingVariant.Disney).map (·.fragmentPath) = some "DisneyBRDF.frag" := by
  refine ⟨rfl, rfl, rfl, rfl, rfl, rfl, rfl⟩

/-- C2: with the shaders of CreateShader, SetLightingShader binds for each of the seven
lighting variants the program of the mapping table (named by its fragment file), distinct
variants get distinct programs, every enumeration value outside the seven gets the program
of NoLighting, and SetLightingShader changes no member of the model other than the current
program. -/
theorem C2_SetLightingShader_mapping (m : PBRViewerModel) :
    ((PBRViewerModel.selectedProgram m LightingVariant.NoLighting).map (·.fragmentPath) = some "NoLighting.frag" ∧
     (PBRViewerModel.selectedProgram m LightingVariant.BlinnPhong).map (·.fragmentPath) = some "BlinnPhong.frag" ∧
     (PBRViewerModel.selectedProgram m LightingVariant.CookTorrance).map (·.fragmentPath) = some "CookTorrance.frag" ∧
     (PBRViewerModel.selectedProgram m LightingVariant.OrenNayar).map (·.fragmentPath) = some "OrenNayar.frag" ∧
     (PBRViewerModel.selectedProgram m LightingVariant.AshikhminShirley).map (·.fragmentPath) = some "AshikhminShirley.frag" ∧
     (PBRViewerModel.selectedProgram m LightingVariant.Debug).map (·.fragmentPath) = some "Debug.frag" ∧
     (PBRViewerModel.selectedProgram m LightingVariant.Disney).map (·.fragmentPath) = some "DisneyBRDF.frag") ∧
    (∀ v w : Int, 0 ≤ v → v ≤ 6 → 0 ≤ w → w ≤ 6 → v ≠ w →
      PBRViewerModel.selectedProgram m v ≠ PBRViewerModel.selectedProgram m w) ∧
    (∀ v : Int, v < 0 ∨ 6 < v →
      PBRViewerModel.selectedProgram m v = PBRViewerModel.selectedProgram m LightingVariant.NoLighting) ∧
    (∀ s : PBRViewerModel, PBRViewerModel.SetLightingShader s =
      { s with myCurrentLightShader := (PBRViewerModel.SetLightingShader s).myCurrentLightShader }) := by
  refine ⟨selectedProgram_fragmentPath m, ?_, ?_, ?_⟩
  · intro v w hv0 hv6 hw0 hw6 hne
    have hp := selectedProgram_fragmentPath m
    obtain ⟨h0, h1, h2, h3, h4, h5, h6⟩ := hp
    intro heq
    have key : ∀ u : Int, 0 ≤ u → u ≤ 6 →
        (PBRViewerModel.selectedProgram m u).map (·.fragmentPath) =
          some (if u = 0 then "NoLighting.frag" else if u = 1 then "BlinnPhong.frag"
            else if u = 2 then "CookTorrance.frag" else if u = 3 then "OrenNayar.frag"
            else if u = 4 then "AshikhminShirley.frag" else if u = 5 then "Debug.frag"
            else "DisneyBRDF.frag") := by
      intro u hu0 hu6
      interval_cases u
      · exact h0
      · exact h1
      · exact h2
      · exact h3
      · exact h4
      · exact h5
      · exact h6
    have kv := key v hv0 hv6
    have kw := key w hw0 hw6
    rw [heq, kw] at kv
    have kv2 := Option.some.inj kv
    revert kv2
    interval_cases v <;> interval_cases w <;> first | (exact absurd rfl hne) | decide
  · intro v hv
    unfold PBRViewerModel.selectedProgram PBRViewerModel.SetLightingShader PBRViewerModel.ChangeLighting
    simp only [LightingVariant.NoLighting, LightingVariant.BlinnPhong, LightingVariant.CookTorrance,
      LightingVariant.OrenNayar, LightingVariant.AshikhminShirley, LightingVariant.Debug,
      LightingVariant.Disney]
    have h0 : v ≠ 0 := by omega
    have h1 : v ≠ 1 := by omega
    have h2 : v ≠ 2 := by omega
    have h3 : v ≠ 3 := by omega
    have h4 : v ≠ 4 := by omega
    have h5 : v ≠ 5 := by omega
    have h6 : v ≠ 6 := by omega
    simp [h0, h1, h2, h3, h4, h5, h6]
  · intro s
    unfold PBRViewerModel.SetLightingShader
    split_ifs <;> rfl

/-- C2 at concrete variants: Debug and Disney get different programs, and the value 7,
which is outside the enumeration, gets the program of NoLighting. -/
theorem C2_SetLightingShader_mapping_witness :
    PBRViewerModel.selectedProgram {} LightingVariant.Debug ≠
      PBRViewerModel.selectedProgram {} LightingVariant.Disney ∧
    PBRViewerModel.selectedProgram {} 7 = PBRViewerModel.selectedProgram {} LightingVariant.NoLighting :=
  ⟨(C2_SetLightingShader_mapping {}).2.1 5 6 (by decide) (by decide) (by decide) (by decide) (by decide),
   (C2_SetLightingShader_mapping {}).2.2.1 7 (by decide)⟩

/-! ## Skybox initialisation -/

/-- LoadEquirectangularTexture returns GL_TRUE exactly when the decoder returns an image. -/
theorem LoadEquirectangularTexture_result (host : Host) (filepath : String)
    (textureResult : PBRViewerTexture) (d : Driver) :
    (PBRViewerSkybox.LoadEquirectangularTexture host filepath textureResult d).result.1 =
      (host.stbi_loadf filepath).isSome := by
  unfold PBRViewerSkybox.LoadEquirectangularTexture
  cases host.stbi_loadf filepath <;> rfl

/-- The result of Init is the result of LoadEnvironmentTexture. -/
theorem Init_result (host : Host) (sky : PBRViewerSkybox) (d : Driver) :
    (PBRViewerSkybox.Init host sky d).result.1 =
      (host.stbi_loadf sky.myFilepathEnvironmentTexture).isSome := by
  unfold PBRViewerSkybox.Init PBRViewerSkybox.LoadEnvironmentTexture
  have h := LoadEquirectangularTexture_result host sky.myFilepathEnvironmentTexture {} d
  cases hl : host.stbi_loadf sky.myFilepathEnvironmentTexture <;>
    simp [hl, h, PBRViewerSkybox.CreateIrradianceTexture,
      PBRViewerSkybox.CreatePreFilteredEnvironmentMap, PBRViewerSkybox.CreateBRDFLookupTexture]

/-- The textures generated by two records of calls, one after the other. -/
theorem generatedTextures_append (a b : List Call) :
    generatedTextures (a ++ b) = generatedTextures a ++ generatedTextures b := by
  simp [generatedTextures, List.filterMap_append]

/-- CreateIrradianceTexture generates exactly one texture. -/
theorem generatedTextures_CreateIrradianceTexture (sky : PBRViewerSkybox) (d : Driver) :
    generatedTextures (PBRViewerSkybox.CreateIrradianceTexture sky d).calls = [d.textures + 1] := by
  rfl

/-- CreatePreFilteredEnvironmentMap generates exactly one texture. -/
theorem generatedTextures_CreatePreFilteredEnvironmentMap (sky : PBRViewerSkybox) (d : Driver) :
    generatedTextures (PBRViewerSkybox.CreatePreFilteredEnvironmentMap sky d).calls = [d.textures + 1] := by
  rfl

/-- CreateBRDFLookupTexture generates exactly one texture. -/
theorem generatedTextures_CreateBRDFLookupTexture (sky : PBRViewerSkybox) (d : Driver) :
    generatedTextures (PBRViewerSkybox.CreateBRDFLookupTexture sky d).calls = [d.textures + 1] := by
  unfold PBRViewerSkybox.CreateBRDFLookupTexture RenderFullScreenQuad
  by_cases h : d.myFullScreenQuadVAO = 0
  · simp only [h, if_true]
    rfl
  · simp only [h, if_false]
    rfl

/-- C3 as stated fails: on a path that cannot be decoded LoadEquirectangularTexture returns
GL_FALSE, yet Init generates three textures and the irradiance, pre-filtered and
BRDF-lookup texture IDs are 1, 2 and 3 instead of 0. -/
theorem C3_Init_does_not_abort_counterexample :
    (PBRViewerSkybox.LoadEquirectangularTexture missingFileHost "missing.hdr" {} {}).result.1 = false ∧
    ¬ ((PBRViewerSkybox.Init missingFileHost (PBRViewerSkybox.new "missing.hdr") {}).result.2.myIrradianceTexture.ID = 0 ∧
       (PBRViewerSkybox.Init missingFileHost (PBRViewerSkybox.new "missing.hdr") {}).result.2.myPreFilteredEnvironmentMap.ID = 0 ∧
       (PBRViewerSkybox.Init missingFileHost (PBRViewerSkybox.new "missing.hdr") {}).result.2.myBRDFLookupTexture.ID = 0 ∧
       generatedTextures (PBRViewerSkybox.Init missingFileHost (PBRViewerSkybox.new "missing.hdr") {}).calls = []) := by
  decide

/-- C3, amended: when the equirectangular image of a skybox fails to load, Init returns
GL_FALSE and leaves the environment texture as it was, but it does not abort: its calls
are those of the failed load followed by all the calls of CreateIrradianceTexture,
CreatePreFilteredEnvironmentMap and CreateBRDFLookupTexture, each of which generates one
texture, and the irradiance, pre-filtered and BRDF-lookup texture IDs are these three
non-zero names. -/
theorem C3_Init_runs_later_steps_after_failed_load (host : Host) (sky : PBRViewerSkybox) (d : Driver)
    (hfail : (PBRViewerSkybox.LoadEquirectangularTexture host sky.myFilepathEnvironmentTexture {} d).result.1 = false) :
    (PBRViewerSkybox.Init host sky d).result.1 = false ∧
    (PBRViewerSkybox.Init host sky d).result.2.myEnvironmentTexture = sky.myEnvironmentTexture ∧
    (PBRViewerSkybox.Init host sky d).calls =
      (PBRViewerSkybox.LoadEquirectangularTexture host sky.myFilepathEnvironmentTexture {} d).calls ++
      (PBRViewerSkybox.CreateIrradianceTexture sky d).calls ++
      (PBRViewerSkybox.CreatePreFilteredEnvironmentMap
        (PBRViewerSkybox.CreateIrradianceTexture sky d).result.2
        (PBRViewerSkybox.CreateIrradianceTexture sky d).driver).calls ++
      (PBRViewerSkybox.CreateBRDFLookupTexture
        (PBRViewerSkybox.CreatePreFilteredEnvironmentMap
          (PBRViewerSkybox.CreateIrradianceTexture sky d).result.2
          (PBRViewerSkybox.CreateIrradianceTexture sky d).driver).result.2
        (PBRViewerSkybox.CreatePreFilteredEnvironmentMap
          (PBRViewerSkybox.CreateIrradianceTexture sky d).result.2
          (PBRViewerSkybox.CreateIrradianceTexture sky d).driver).driver).calls ∧
    generatedTextures (PBRViewerSkybox.Init host sky d).calls =
      [d.textures + 1, d.textures + 2, d.textures + 3] ∧
    (PBRViewerSkybox.Init host sky d).result.2.myIrradianceTexture.ID = d.textures + 1 ∧
    (PBRViewerSkybox.Init host sky d).result.2.myPreFilteredEnvironmentMap.ID = d.textures + 2 ∧
    (PBRViewerSkybox.Init host sky d).result.2.myBRDFLookupTexture.ID = d.textures + 3 := by
  have hl : host.stbi_loadf sky.myFilepathEnvironmentTexture = none := by
    have h := LoadEquirectangularTexture_result host sky.myFilepathEnvironmentTexture {} d
    rw [hfail] at h
    cases hs : host.stbi_loadf sky.myFilepathEnvironmentTexture with
    | none => rfl
    | some img => rw [hs] at h; simp at h
  have henv : PBRViewerSkybox.LoadEnvironmentTexture host sky d =
      { result := (false, sky), driver := d,
        calls := (PBRViewerSkybox.LoadEquirectangularTexture host sky.myFilepathEnvironmentTexture {} d).calls } := by
    unfold PBRViewerSkybox.LoadEnvironmentTexture PBRViewerSkybox.LoadEquirectangularTexture
    simp [hl]
  refine ⟨?_, ?_, ?_, ?_, ?_, ?_, ?_⟩
  · rw [Init_result, hl]; rfl
  · simp [PBRViewerSkybox.Init, henv, PBRViewerSkybox.CreateIrradianceTexture,
      PBRViewerSkybox.CreatePreFilteredEnvironmentMap, PBRViewerSkybox.CreateBRDFLookupTexture]
  · simp [PBRViewerSkybox.Init, henv]
  · simp only [PBRViewerSkybox.Init, henv, generatedTextures_append]
    rw [generatedTextures_CreateIrradianceTexture, generatedTextures_CreatePreFilteredEnvironmentMap,
      generatedTextures_CreateBRDFLookupTexture]
    simp [PBRViewerSkybox.LoadEquirectangularTexture, hl, generatedTextures,
      PBRViewerSkybox.CreateIrradianceTexture, PBRViewerSkybox.CreatePreFilteredEnvironmentMap]
  · simp [PBRViewerSkybox.Init, henv, PBRViewerSkybox.CreateIrradianceTexture,
      PBRViewerSkybox.CreatePreFilteredEnvironmentMap, PBRViewerSkybox.CreateBRDFLookupTexture]
  · simp [PBRViewerSkybox.Init, henv, PBRViewerSkybox.CreateIrradianceTexture,
      PBRViewerSkybox.CreatePreFilteredEnvironmentMap, PBRViewerSkybox.CreateBRDFLookupTexture]
  · simp [PBRViewerSkybox.Init, henv, PBRViewerSkybox.CreateIrradianceTexture,
      PBRViewerSkybox.CreatePreFilteredEnvironmentMap, PBRViewerSkybox.CreateBRDFLookupTexture]

/-- C4: Init returns GL_TRUE if and only if loading the equirectangular image succeeds,
which is the case exactly when the decoder returns an image for the path of the skybox. -/
theorem C4_Init_returns_load_result (host : Host) (sky : PBRViewerSkybox) (d : Driver) :
    ((PBRViewerSkybox.Init host sky d).result.1 = true ↔
      (PBRViewerSkybox.LoadEquirectangularTexture host sky.myFilepathEnvironmentTexture {} d).result.1 = true) ∧
    ((PBRViewerSkybox.Init host sky d).result.1 = false ↔
      (PBRViewerSkybox.LoadEquirectangularTexture host sky.myFilepathEnvironmentTexture {} d).result.1 = false) ∧
    ((PBRViewerSkybox.LoadEquirectangularTexture host sky.myFilepathEnvironmentTexture {} d).result.1 = true ↔
      ∃ image, host.stbi_loadf sky.myFilepathEnvironmentTexture = some image) := by
  rw [Init_result, LoadEquirectangularTexture_result]
  refine ⟨Iff.rfl, Iff.rfl, ?_⟩
  exact Option.isSome_iff_exists

/-- C3 (amended) at a concrete input: on a host where nothing decodes, Init of a fresh
skybox returns GL_FALSE and still generates the textures 1, 2 and 3. -/
theorem C3_Init_runs_later_steps_after_failed_load_witness :
    (PBRViewerSkybox.Init missingFileHost (PBRViewerSkybox.new "missing.hdr") {}).result.1 = false ∧
    generatedTextures (PBRViewerSkybox.Init missingFileHost (PBRViewerSkybox.new "missing.hdr") {}).calls =
      [1, 2, 3] :=
  ⟨(C3_Init_runs_later_steps_after_failed_load missingFileHost (PBRViewerSkybox.new "missing.hdr") {}
      (by decide)).1,
   (C3_Init_runs_later_steps_after_failed_load missingFileHost (PBRViewerSkybox.new "missing.hdr") {}
      (by decide)).2.2.2.1⟩


/-! ## Capture views -/

/-- C5: GetCaptureViewsForCubeMap returns exactly six view matrices, in the order +X, -X,
+Y, -Y, +Z, -Z, each the lookAt matrix from the origin with the look and up vectors of the
capture-view table; in every row look.look = 1, up.up = 1 and look.up = 0, and the cross
product of the viewing direction and up, which lookAt normalises, is not the zero vector. -/
theorem C5_capture_views :
    GetCaptureViewsForCubeMap.length = 6 ∧
    GetCaptureViewsForCubeMap.map Mat4.lookAtArguments =
      [ some (⟨0, 0, 0⟩, ⟨1, 0, 0⟩, ⟨0, -1, 0⟩),
        some (⟨0, 0, 0⟩, ⟨-1, 0, 0⟩, ⟨0, -1, 0⟩),
        some (⟨0, 0, 0⟩, ⟨0, 1, 0⟩, ⟨0, 0, 1⟩),
        some (⟨0, 0, 0⟩, ⟨0, -1, 0⟩, ⟨0, 0, -1⟩),
        some (⟨0, 0, 0⟩, ⟨0, 0, 1⟩, ⟨0, -1, 0⟩),
        some (⟨0, 0, 0⟩, ⟨0, 0, -1⟩, ⟨0, -1, 0⟩) ] ∧
    (∀ view ∈ GetCaptureViewsForCubeMap, ∃ look up : Vec3,
      view = Mat4.lookAt ⟨0, 0, 0⟩ look up ∧
      look.dot look = 1 ∧ up.dot up = 1 ∧ look.dot up = 0 ∧
      (look.sub ⟨0, 0, 0⟩).cross up ≠ ⟨0, 0, 0⟩) := by
  refine ⟨rfl, rfl, ?_⟩
  intro view hview
  simp only [GetCaptureViewsForCubeMap, List.mem_cons, List.mem_singleton, List.mem_nil_iff,
    or_false] at hview
  rcases hview with h | h | h | h | h | h <;> subst h
  · exact ⟨⟨1, 0, 0⟩, ⟨0, -1, 0⟩, rfl, by norm_num [Vec3.dot], by norm_num [Vec3.dot], by norm_num [Vec3.dot],
      by norm_num [Vec3.cross, Vec3.sub]⟩
  · exact ⟨⟨-1, 0, 0⟩, ⟨0, -1, 0⟩, rfl, by norm_num [Vec3.dot], by norm_num [Vec3.dot], by norm_num [Vec3.dot],
      by norm_num [Vec3.cross, Vec3.sub]⟩
  · exact ⟨⟨0, 1, 0⟩, ⟨0, 0, 1⟩, rfl, by norm_num [Vec3.dot], by norm_num [Vec3.dot], by norm_num [Vec3.dot],
      by norm_num [Vec3.cross, Vec3.sub]⟩
  · exact ⟨⟨0, -1, 0⟩, ⟨0, 0, -1⟩, rfl, by norm_num [Vec3.dot], by norm_num [Vec3.dot], by norm_num [Vec3.dot],
      by norm_num [Vec3.cross, Vec3.sub]⟩
  · exact ⟨⟨0, 0, 1⟩, ⟨0, -1, 0⟩, rfl, by norm_num [Vec3.dot], by norm_num [Vec3.dot], by norm_num [Vec3.dot],
      by norm_num [Vec3.cross, Vec3.sub]⟩
  · exact ⟨⟨0, 0, -1⟩, ⟨0, -1, 0⟩, rfl, by norm_num [Vec3.dot], by norm_num [Vec3.dot], by norm_num [Vec3.dot],
      by norm_num [Vec3.cross, Vec3.sub]⟩



/-! ## Pre-filtered environment map -/

/-- The side of mip level 0 to 4 of a 512 texel wide face. -/
theorem mipSize_512 :
    PBRViewerSkybox.mipSize 512 0 = 512 ∧ PBRViewerSkybox.mipSize 512 1 = 256 ∧
    PBRViewerSkybox.mipSize 512 2 = 128 ∧ PBRViewerSkybox.mipSize 512 3 = 64 ∧
    PBRViewerSkybox.mipSize 512 4 = 32 := by
  refine ⟨?_, ?_, ?_, ?_, ?_⟩ <;> norm_num [PBRViewerSkybox.mipSize] <;> rfl

set_option maxRecDepth 100000 in
/-- C6: the draw calls of CreatePreFilteredEnvironmentMap are exactly 30 render passes:
for the mip levels 0 to 4, with the roughness uniform 0, 1/4, 1/2, 3/4, 1 and the viewport
and the depth renderbuffer a square of side 512, 256, 128, 64, 32, one pass for each of the
six cube faces, rendered into that mip level of that face of the texture that becomes the
pre-filtered environment map. -/
theorem C6_prefilter_passes (sky : PBRViewerSkybox) (d : Driver) :
    renderPasses {} (PBRViewerSkybox.CreatePreFilteredEnvironmentMap sky d).calls =
      ([(0, 0, 512), (1, 1 / 4, 256), (2, 1 / 2, 128), (3, 3 / 4, 64), (4, 1, 32)] :
          List (GLint × GLfloat × GLint)).flatMap
        (fun level => (List.range 6).map (fun i =>
          ({ program := some PBRViewerSkybox.prefilterShader
             roughness := some level.2.1
             viewport := some (0, 0, level.2.2, level.2.2)
             depthStorage := some (level.2.2, level.2.2)
             colorTarget :=
               some (GLenum.GL_TEXTURE_CUBE_MAP_POSITIVE_X_plus i,
                 (PBRViewerSkybox.CreatePreFilteredEnvironmentMap sky d).result.2.myPreFilteredEnvironmentMap.ID,
                 level.1) } : RenderPass))) ∧
    (renderPasses {} (PBRViewerSkybox.CreatePreFilteredEnvironmentMap sky d).calls).length = 30 := by
  obtain ⟨h0, h1, h2, h3, h4⟩ := mipSize_512
  have key : renderPasses {} (PBRViewerSkybox.CreatePreFilteredEnvironmentMap sky d).calls =
      ([(0, 0, 512), (1, 1 / 4, 256), (2, 1 / 2, 128), (3, 3 / 4, 64), (4, 1, 32)] :
          List (GLint × GLfloat × GLint)).flatMap
        (fun level => (List.range 6).map (fun i =>
          ({ program := some PBRViewerSkybox.prefilterShader
             roughness := some level.2.1
             viewport := some (0, 0, level.2.2, level.2.2)
             depthStorage := some (level.2.2, level.2.2)
             colorTarget :=
               some (GLenum.GL_TEXTURE_CUBE_MAP_POSITIVE_X_plus i,
                 (PBRViewerSkybox.CreatePreFilteredEnvironmentMap sky d).result.2.myPreFilteredEnvironmentMap.ID,
                 level.1) } : RenderPass))) := by
    simp [PBRViewerSkybox.CreatePreFilteredEnvironmentMap, PBRViewerSkybox.PrefilterMipLevel,
      PBRViewerSkybox.PrefilterFacePass, PBRViewerSkybox.RenderCube, List.range_succ, List.flatMap,
      renderPasses, RenderPass.after, h0, h1, h2, h3, h4, GLuint.toGLint]
    norm_num
  refine ⟨key, ?_⟩
  rw [key]
  rfl


/-! ## Reading records: general facts -/

/-- The values written under a key by two records, one after the other. -/
theorem writesOf_append (key : String) (a b : List Call) :
    writesOf key (a ++ b) = writesOf key a ++ writesOf key b := by
  simp [writesOf, List.filterMap_append]

/-- The uniform writes of two records, one after the other. -/
theorem uniformWrites_append (a b : List Call) :
    uniformWrites (a ++ b) = uniformWrites a ++ uniformWrites b := by
  simp [uniformWrites, List.filterMap_append]

/-- A record none of whose uniform writes has the name key writes nothing under key. -/
theorem writesOf_eq_nil (key : String) (calls : List Call)
    (h : ∀ c ∈ calls, ∀ name value, c.uniform = some (name, value) → name ≠ key) :
    writesOf key calls = [] := by
  unfold writesOf
  rw [List.filterMap_eq_nil_iff]
  intro c hc
  cases hu : c.uniform with
  | none => rfl
  | some p =>
    obtain ⟨name, value⟩ := p
    have := h c hc name value hu
    simp [this]

/-- The name of an indexed uniform starts like its base name. -/
theorem indexedName_head (name : String) (nr : Nat) (ch : Char) (h : name.data.head? = some ch) :
    (indexedName name nr).data.head? = some ch := by
  unfold indexedName
  cases hd : name.data with
  | nil => rw [hd] at h; simp at h
  | cons a rest =>
    rw [hd] at h
    simp [String.data_append, hd] at h ⊢
    exact h

/-! ## Reading records: the scene draw -/

/-- The four calls of one branch of the texture loop are mesh calls that write texture
names. -/
theorem textureBranch_calls (shader : PBRViewerShader) (i : GLuint) (target : GLenum) (texture : GLuint)
    (available typeName : String) (nr : GLuint)
    (ha : available.data.head? = some 't') (ht : typeName.data.head? = some 't') :
    ∀ call ∈ [Call.glActiveTexture i, Call.glBindTexture target texture,
        Call.setBool shader available true,
        Call.setInt shader (indexedName typeName nr) i.toGLint],
      call.isMeshCall = true ∧
        ∀ name value, call.uniform = some (name, value) → isTextureUniformName name = true := by
  intro call hcall
  simp only [List.mem_cons, List.mem_singleton, List.mem_nil_iff, or_false] at hcall
  rcases hcall with h | h | h | h <;> subst h <;> refine ⟨rfl, ?_⟩ <;> intro name value hu <;>
    simp only [Call.uniform, Option.some.injEq, Prod.mk.injEq, reduceCtorEq] at hu
  · obtain ⟨hn, -⟩ := hu
    subst hn
    simp [isTextureUniformName, ha]
  · obtain ⟨hn, -⟩ := hu
    subst hn
    simp [isTextureUniformName, indexedName_head typeName nr 't' ht]

/-- Every call of one iteration of the texture loop is a mesh call, and the uniform names
it writes are texture names. -/
theorem DrawTexture_calls (shader : PBRViewerShader) (i : GLuint) (t : PBRViewerTexture)
    (c : TextureCounters) :
    ∀ call ∈ (PBRViewerMesh.DrawTexture shader i t c).1, call.isMeshCall = true ∧
      ∀ name value, call.uniform = some (name, value) → isTextureUniformName name = true := by
  unfold PBRViewerMesh.DrawTexture
  simp only
  split_ifs with h1 h2 h3 h4 h5 h6 h7 h8
  · exact textureBranch_calls _ _ _ _ _ _ _ rfl (by rw [h1]; rfl)
  · exact textureBranch_calls _ _ _ _ _ _ _ rfl (by rw [h2]; rfl)
  · exact textureBranch_calls _ _ _ _ _ _ _ rfl (by rw [h3]; rfl)
  · exact textureBranch_calls _ _ _ _ _ _ _ rfl (by rw [h4]; rfl)
  · exact textureBranch_calls _ _ _ _ _ _ _ rfl (by rw [h5]; rfl)
  · exact textureBranch_calls _ _ _ _ _ _ _ rfl (by rw [h6]; rfl)
  · exact textureBranch_calls _ _ _ _ _ _ _ rfl (by rw [h7]; rfl)
  · exact textureBranch_calls _ _ _ _ _ _ _ rfl (by rw [h8]; rfl)
  · intro call hcall
    simp only [List.mem_cons, List.mem_singleton, List.mem_nil_iff, or_false] at hcall
    rcases hcall with h | h <;> subst h <;> refine ⟨rfl, ?_⟩ <;> intro name value hu <;>
      simp only [Call.uniform, Option.some.injEq, Prod.mk.injEq, reduceCtorEq] at hu
    obtain ⟨hn, -⟩ := hu
    subst hn
    rfl

/-- Every call of the texture loop is a mesh call that writes texture names only. -/
theorem DrawTextures_calls (shader : PBRViewerShader) (textures : List PBRViewerTexture) :
    ∀ (i : GLuint) (c : TextureCounters), ∀ call ∈ PBRViewerMesh.DrawTextures shader i textures c,
      call.isMeshCall = true ∧
        ∀ name value, call.uniform = some (name, value) → isTextureUniformName name = true := by
  induction textures with
  | nil => intro i c call hcall; simp [PBRViewerMesh.DrawTextures] at hcall
  | cons t rest ih =>
    intro i c call hcall
    simp only [PBRViewerMesh.DrawTextures, List.mem_append] at hcall
    rcases hcall with h | h
    · exact DrawTexture_calls shader i t c call h
    · exact ih _ _ call h

/-- Every call of PBRViewerMesh::Draw is a mesh call that writes texture names only. -/
theorem MeshDraw_calls (mesh : PBRViewerMesh) (shader : PBRViewerShader) :
    ∀ call ∈ mesh.Draw shader, call.isMeshCall = true ∧
      ∀ name value, call.uniform = some (name, value) → isTextureUniformName name = true := by
  intro call hcall
  simp only [PBRViewerMesh.Draw, List.mem_append] at hcall
  rcases hcall with h | h
  · exact DrawTextures_calls shader _ _ _ call h
  · simp only [List.mem_cons, List.mem_singleton, List.mem_nil_iff, or_false] at h
    rcases h with h | h | h | h | h | h | h | h | h | h | h | h <;> subst h <;>
      refine ⟨rfl, ?_⟩ <;> intro name value hu <;>
      simp only [Call.uniform, Option.some.injEq, Prod.mk.injEq, reduceCtorEq] at hu <;>
      (obtain ⟨hn, -⟩ := hu; subst hn; rfl)

/-- Every call of PBRViewerScene::Draw is a mesh call that writes texture names only. -/
theorem SceneDraw_calls (scene : PBRViewerScene) (shader : PBRViewerShader) :
    ∀ call ∈ scene.Draw shader, call.isMeshCall = true ∧
      ∀ name value, call.uniform = some (name, value) → isTextureUniformName name = true := by
  intro call hcall
  simp only [PBRViewerScene.Draw, List.mem_cons, List.mem_flatMap] at hcall
  rcases hcall with h | ⟨mesh, -, h⟩
  · subst h
    refine ⟨rfl, ?_⟩
    intro name value hu
    simp [Call.uniform] at hu
  · exact MeshDraw_calls mesh shader call h

/-- PBRViewerScene::Draw writes nothing under a name that is not a texture name. -/
theorem writesOf_SceneDraw (key : String) (hkey : isTextureUniformName key = false)
    (scene : PBRViewerScene) (shader : PBRViewerShader) :
    writesOf key (scene.Draw shader) = [] := by
  apply writesOf_eq_nil
  intro c hc name value hu hn
  have := (SceneDraw_calls scene shader c hc).2 name value hu
  rw [hn, hkey] at this
  exact absurd this (by simp)


/-! ## Reading records: DrawModel -/

/-- The shape of the record of a DrawModel call that returns. -/
theorem DrawModel_eq_some (m : PBRViewerModel) (view projection : Mat4) (calls : List Call)
    (h : m.DrawModel view projection = some calls) :
    ∃ shader scene camera lights,
      m.myCurrentLightShader = some shader ∧ m.myLoadedModel = some scene ∧
      m.myCamera = some camera ∧
      PBRViewerModel.DrawModelLights shader m.myShadows 0 m.myLightSources = some lights ∧
      calls =
        [Call.Use shader,
         Call.setMat4 shader "model" scene.GetModelMatrix,
         Call.setMat4 shader "view" view,
         Call.setMat4 shader "projection" projection,
         Call.setVec3 shader "camPos" camera.GetCameraPosition] ++
        lights ++ PBRViewerModel.DrawModelParameters m shader ++ scene.Draw shader := by
  unfold PBRViewerModel.DrawModel at h
  cases hs : m.myCurrentLightShader with
  | none => simp [hs] at h
  | some shader =>
    cases hsc : m.myLoadedModel with
    | none => simp [hs, hsc] at h
    | some scene =>
      cases hc : m.myCamera with
      | none => simp [hs, hsc, hc] at h
      | some camera =>
        cases hl : PBRViewerModel.DrawModelLights shader m.myShadows 0 m.myLightSources with
        | none => simp [hs, hsc, hc, hl] at h
        | some lights =>
          simp only [hs, hsc, hc, hl, Option.some.injEq] at h
          exact ⟨shader, scene, camera, lights, rfl, rfl, rfl, hl, h.symm⟩

/-- The uniform names one iteration of the light loop writes are light names. -/
theorem DrawModelLight_names (shader : PBRViewerShader) (myShadows : Option PBRViewerShadows)
    (i : GLuint) (light : PBRViewerPointLight) (slot : List Call)
    (h : PBRViewerModel.DrawModelLight shader myShadows i light = some slot) :
    ∀ c ∈ slot, ∀ name value, c.uniform = some (name, value) → isLightUniformName name = true := by
  have hp := indexedName_head "lightPositions" i 'l' rfl
  have hc := indexedName_head "lightColors" i 'l' rfl
  have ha := indexedName_head "isLightActive" i 'i' rfl
  have hm := indexedName_head "lightSpaceMatrices" i 'l' rfl
  unfold PBRViewerModel.DrawModelLight at h
  intro c hcm name value hu
  split_ifs at h with hact
  · cases hsh : myShadows with
    | none => simp [hsh] at h
    | some shadows =>
      simp only [hsh, Option.some.injEq] at h
      subst h
      simp only [List.mem_cons, List.mem_singleton, List.mem_nil_iff, or_false] at hcm
      rcases hcm with h | h | h | h <;> subst h <;>
        simp only [Call.uniform, Option.some.injEq, Prod.mk.injEq] at hu <;>
        (obtain ⟨hn, -⟩ := hu; subst hn; simp [isLightUniformName, hp, hc, ha, hm])
  · simp only [Option.some.injEq] at h
    subst h
    simp only [List.mem_cons, List.mem_singleton, List.mem_nil_iff, or_false] at hcm
    rcases hcm with h | h | h <;> subst h <;>
      simp only [Call.uniform, Option.some.injEq, Prod.mk.injEq] at hu <;>
      (obtain ⟨hn, -⟩ := hu; subst hn; simp [isLightUniformName, hp, hc, ha])

/-- The shape of the record of the light loop: the record of the first slot followed by
the record of the other slots. -/
theorem DrawModelLights_cons (shader : PBRViewerShader) (myShadows : Option PBRViewerShadows)
    (i : GLuint) (light : PBRViewerPointLight) (rest : List PBRViewerPointLight) (calls : List Call)
    (h : PBRViewerModel.DrawModelLights shader myShadows i (light :: rest) = some calls) :
    ∃ slot slots, PBRViewerModel.DrawModelLight shader myShadows i light = some slot ∧
      PBRViewerModel.DrawModelLights shader myShadows (i + 1) rest = some slots ∧
      calls = slot ++ slots := by
  simp only [PBRViewerModel.DrawModelLights] at h
  cases h1 : PBRViewerModel.DrawModelLight shader myShadows i light with
  | none => simp [h1] at h
  | some slot =>
    cases h2 : PBRViewerModel.DrawModelLights shader myShadows (i + 1) rest with
    | none => simp [h1, h2] at h
    | some slots =>
      simp only [h1, h2, Option.some.injEq] at h
      exact ⟨slot, slots, rfl, rfl, h.symm⟩

/-- The uniform names the light loop writes are light names. -/
theorem DrawModelLights_names (shader : PBRViewerShader) (myShadows : Option PBRViewerShadows)
    (lights : List PBRViewerPointLight) :
    ∀ (i : GLuint) (calls : List Call),
      PBRViewerModel.DrawModelLights shader myShadows i lights = some calls →
      ∀ c ∈ calls, ∀ name value, c.uniform = some (name, value) → isLightUniformName name = true := by
  induction lights with
  | nil =>
    intro i calls h c hc
    simp only [PBRViewerModel.DrawModelLights, Option.some.injEq] at h
    subst h
    simp at hc
  | cons light rest ih =>
    intro i calls h c hc
    obtain ⟨slot, slots, h1, h2, rfl⟩ := DrawModelLights_cons shader myShadows i light rest calls h
    rcases List.mem_append.mp hc with hm | hm
    · exact DrawModelLight_names shader myShadows i light slot h1 c hm
    · exact ih (i + 1) slots h2 c hm

/-- Under a name that is neither a texture name, nor a light name, nor one of model, view,
projection and camPos, DrawModel writes what its parameter block writes. -/
theorem writesOf_DrawModel_parameter (key : String)
    (hkt : isTextureUniformName key = false) (hkl : isLightUniformName key = false)
    (hk : key ≠ "model" ∧ key ≠ "view" ∧ key ≠ "projection" ∧ key ≠ "camPos")
    (m : PBRViewerModel) (view projection : Mat4) (calls : List Call)
    (h : m.DrawModel view projection = some calls) :
    ∃ shader, m.myCurrentLightShader = some shader ∧
      writesOf key calls = writesOf key (PBRViewerModel.DrawModelParameters m shader) := by
  obtain ⟨shader, scene, camera, lights, hs, -, -, hl, rfl⟩ := DrawModel_eq_some m view projection calls h
  refine ⟨shader, hs, ?_⟩
  obtain ⟨k1, k2, k3, k4⟩ := hk
  have hlights : writesOf key lights = [] := by
    apply writesOf_eq_nil
    intro c hc name value hu hn
    have := DrawModelLights_names shader m.myShadows m.myLightSources 0 lights hl c hc name value hu
    rw [hn, hkl] at this
    exact absurd this (by simp)
  rw [writesOf_append, writesOf_append, writesOf_append, hlights, writesOf_SceneDraw key hkt]
  simp [writesOf, Call.uniform, Ne.symm k1, Ne.symm k2, Ne.symm k3, Ne.symm k4]


/-! ## Cook-Torrance, Disney and integer parameters -/

/-- C10: DrawModel always writes the four Cook-Torrance term selectors with the stored
values and the flag customMaterialValuesEnabled with the stored enable flag; it writes
customMetalness and customRoughness, with the stored values, exactly when that flag is
enabled. -/
theorem C10_cook_torrance_uniforms (m : PBRViewerModel) (view projection : Mat4) (calls : List Call)
    (h : m.DrawModel view projection = some calls) :
    writesOf "diffuseTerm" calls = [.int m.myCookTorranceDiffuseTerm] ∧
    writesOf "fresnelTerm" calls = [.int m.myCookTorranceFresnelTerm] ∧
    writesOf "normalDistributionTerm" calls = [.int m.myCookTorranceNormalDistributionTerm] ∧
    writesOf "geometryTerm" calls = [.int m.myCookTorranceGeometryTerm] ∧
    writesOf "customMaterialValuesEnabled" calls =
      [.bool m.myCookTorranceAreCustomMaterialValuesEnabled] ∧
    writesOf "customMetalness" calls =
      (if m.myCookTorranceAreCustomMaterialValuesEnabled then [.float m.myCookTorranceMetalness] else []) ∧
    writesOf "customRoughness" calls =
      (if m.myCookTorranceAreCustomMaterialValuesEnabled then [.float m.myCookTorranceRoughness] else []) := by
  refine ⟨?_, ?_, ?_, ?_, ?_, ?_, ?_⟩
  · obtain ⟨shader, -, hw⟩ :=
      writesOf_DrawModel_parameter "diffuseTerm" rfl rfl (by decide) m view projection calls h
    rw [hw]
    cases hflag : m.myCookTorranceAreCustomMaterialValuesEnabled <;>
      simp [PBRViewerModel.DrawModelParameters, writesOf, Call.uniform, hflag]
  · obtain ⟨shader, -, hw⟩ :=
      writesOf_DrawModel_parameter "fresnelTerm" rfl rfl (by decide) m view projection calls h
    rw [hw]
    cases hflag : m.myCookTorranceAreCustomMaterialValuesEnabled <;>
      simp [PBRViewerModel.DrawModelParameters, writesOf, Call.uniform, hflag]
  · obtain ⟨shader, -, hw⟩ :=
      writesOf_DrawModel_parameter "normalDistributionTerm" rfl rfl (by decide) m view projection calls h
    rw [hw]
    cases hflag : m.myCookTorranceAreCustomMaterialValuesEnabled <;>
      simp [PBRViewerModel.DrawModelParameters, writesOf, Call.uniform, hflag]
  · obtain ⟨shader, -, hw⟩ :=
      writesOf_DrawModel_parameter "geometryTerm" rfl rfl (by decide) m view projection calls h
    rw [hw]
    cases hflag : m.myCookTorranceAreCustomMaterialValuesEnabled <;>
      simp [PBRViewerModel.DrawModelParameters, writesOf, Call.uniform, hflag]
  · obtain ⟨shader, -, hw⟩ :=
      writesOf_DrawModel_parameter "customMaterialValuesEnabled" rfl rfl (by decide) m view projection calls h
    rw [hw]
    cases hflag : m.myCookTorranceAreCustomMaterialValuesEnabled <;>
      simp [PBRViewerModel.DrawModelParameters, writesOf, Call.uniform, hflag]
  · obtain ⟨shader, -, hw⟩ :=
      writesOf_DrawModel_parameter "customMetalness" rfl rfl (by decide) m view projection calls h
    rw [hw]
    cases hflag : m.myCookTorranceAreCustomMaterialValuesEnabled <;>
      simp [PBRViewerModel.DrawModelParameters, writesOf, Call.uniform, hflag]
  · obtain ⟨shader, -, hw⟩ :=
      writesOf_DrawModel_parameter "customRoughness" rfl rfl (by decide) m view projection calls h
    rw [hw]
    cases hflag : m.myCookTorranceAreCustomMaterialValuesEnabled <;>
      simp [PBRViewerModel.DrawModelParameters, writesOf, Call.uniform, hflag]

/-- C10 at a concrete model: with custom material values enabled and the metalness set to
3/4, DrawModel writes the flag as true and the metalness 3/4. -/
theorem C10_cook_torrance_uniforms_witness :
    writesOf "customMaterialValuesEnabled" (drawModelRecord customMetalModel) = [.bool true] ∧
    writesOf "customMetalness" (drawModelRecord customMetalModel) = [.float (3 / 4)] :=
  ⟨(C10_cook_torrance_uniforms customMetalModel Mat4.identity Mat4.identity
      (drawModelRecord customMetalModel) rfl).2.2.2.2.1,
   (C10_cook_torrance_uniforms customMetalModel Mat4.identity Mat4.identity
      (drawModelRecord customMetalModel) rfl).2.2.2.2.2.1⟩


/-- Under the key of each Disney scalar DrawModel writes exactly the stored value. -/
theorem disney_writes (q : DisneyParameter) (m : PBRViewerModel) (view projection : Mat4)
    (calls : List Call) (h : m.DrawModel view projection = some calls) :
    writesOf q.key calls = [.float (q.stored m)] := by
  cases q
  all_goals
    simp only [DisneyParameter.key, DisneyParameter.stored]
  · obtain ⟨shader, -, hw⟩ :=
      writesOf_DrawModel_parameter "subsurface" rfl rfl (by decide) m view projection calls h
    rw [hw]
    cases hflag : m.myCookTorranceAreCustomMaterialValuesEnabled <;>
      simp [PBRViewerModel.DrawModelParameters, writesOf, Call.uniform, hflag]
  · obtain ⟨shader, -, hw⟩ :=
      writesOf_DrawModel_parameter "metallic" rfl rfl (by decide) m view projection calls h
    rw [hw]
    cases hflag : m.myCookTorranceAreCustomMaterialValuesEnabled <;>
      simp [PBRViewerModel.DrawModelParameters, writesOf, Call.uniform, hflag]
  · obtain ⟨shader, -, hw⟩ :=
      writesOf_DrawModel_parameter "specular" rfl rfl (by decide) m view projection calls h
    rw [hw]
    cases hflag : m.myCookTorranceAreCustomMaterialValuesEnabled <;>
      simp [PBRViewerModel.DrawModelParameters, writesOf, Call.uniform, hflag]
  · obtain ⟨shader, -, hw⟩ :=
      writesOf_DrawModel_parameter "specularTint" rfl rfl (by decide) m view projection calls h
    rw [hw]
    cases hflag : m.myCookTorranceAreCustomMaterialValuesEnabled <;>
      simp [PBRViewerModel.DrawModelParameters, writesOf, Call.uniform, hflag]
  · obtain ⟨shader, -, hw⟩ :=
      writesOf_DrawModel_parameter "roughness" rfl rfl (by decide) m view projection calls h
    rw [hw]
    cases hflag : m.myCookTorranceAreCustomMaterialValuesEnabled <;>
      simp [PBRViewerModel.DrawModelParameters, writesOf, Call.uniform, hflag]
  · obtain ⟨shader, -, hw⟩ :=
      writesOf_DrawModel_parameter "anisotropic" rfl rfl (by decide) m view projection calls h
    rw [hw]
    cases hflag : m.myCookTorranceAreCustomMaterialValuesEnabled <;>
      simp [PBRViewerModel.DrawModelParameters, writesOf, Call.uniform, hflag]
  · obtain ⟨shader, -, hw⟩ :=
      writesOf_DrawModel_parameter "sheen" rfl rfl (by decide) m view projection calls h
    rw [hw]
    cases hflag : m.myCookTorranceAreCustomMaterialValuesEnabled <;>
      simp [PBRViewerModel.DrawModelParameters, writesOf, Call.uniform, hflag]
  · obtain ⟨shader, -, hw⟩ :=
      writesOf_DrawModel_parameter "sheenTint" rfl rfl (by decide) m view projection calls h
    rw [hw]
    cases hflag : m.myCookTorranceAreCustomMaterialValuesEnabled <;>
      simp [PBRViewerModel.DrawModelParameters, writesOf, Call.uniform, hflag]
  · obtain ⟨shader, -, hw⟩ :=
      writesOf_DrawModel_parameter "clearcoat" rfl rfl (by decide) m view projection calls h
    rw [hw]
    cases hflag : m.myCookTorranceAreCustomMaterialValuesEnabled <;>
      simp [PBRViewerModel.DrawModelParameters, writesOf, Call.uniform, hflag]
  · obtain ⟨shader, -, hw⟩ :=
      writesOf_DrawModel_parameter "clearcoatGloss" rfl rfl (by decide) m view projection calls h
    rw [hw]
    cases hflag : m.myCookTorranceAreCustomMaterialValuesEnabled <;>
      simp [PBRViewerModel.DrawModelParameters, writesOf, Call.uniform, hflag]

/-- C12: for each of the ten Disney setters and every value v, the setter followed by
DrawModel writes exactly v under the key of the setter and writes each of the other nine
Disney keys with the value it had before the call. -/
theorem C12_disney_round_trip (p : DisneyParameter) (v : GLfloat) (m : PBRViewerModel)
    (view projection : Mat4) (calls : List Call)
    (h : (p.set m v).DrawModel view projection = some calls) :
    writesOf p.key calls = [.float v] ∧
    ∀ q : DisneyParameter, q ≠ p → writesOf q.key calls = [.float (q.stored m)] := by
  constructor
  · rw [disney_writes p (p.set m v) view projection calls h]
    cases p <;> rfl
  · intro q hq
    rw [disney_writes q (p.set m v) view projection calls h]
    cases p <;> cases q <;> first | rfl | exact absurd rfl hq

/-- C12 at a concrete call: SetDisneyRoughness(0.3) followed by DrawModel writes exactly
0.3 under the key roughness, and the sheen keeps its initial value 0.5. -/
theorem C12_disney_round_trip_witness :
    writesOf "roughness" (drawModelRecord (PBRViewerModel.SetDisneyRoughness sampleModel (3 / 10))) =
      [.float (3 / 10)] ∧
    writesOf "sheen" (drawModelRecord (PBRViewerModel.SetDisneyRoughness sampleModel (3 / 10))) =
      [.float (1 / 2)] :=
  ⟨(C12_disney_round_trip DisneyParameter.roughness (3 / 10) sampleModel Mat4.identity Mat4.identity
      (drawModelRecord (PBRViewerModel.SetDisneyRoughness sampleModel (3 / 10))) rfl).1,
   (C12_disney_round_trip DisneyParameter.roughness (3 / 10) sampleModel Mat4.identity Mat4.identity
      (drawModelRecord (PBRViewerModel.SetDisneyRoughness sampleModel (3 / 10))) rfl).2
      DisneyParameter.sheen (by decide)⟩

/-- Under the keys blinnPhongExponent, n_u and n_v DrawModel writes the stored unsigned
values converted to GLint. -/
theorem integer_parameter_writes (m : PBRViewerModel) (view projection : Mat4)
    (calls : List Call) (h : m.DrawModel view projection = some calls) :
    writesOf "blinnPhongExponent" calls = [.int m.myBlinnPhongExponent.toGLint] ∧
    writesOf "n_u" calls = [.int m.myAshikhminShirleyNu.toGLint] ∧
    writesOf "n_v" calls = [.int m.myAshikhminShirleyNv.toGLint] := by
  refine ⟨?_, ?_, ?_⟩
  · obtain ⟨shader, -, hw⟩ :=
      writesOf_DrawModel_parameter "blinnPhongExponent" rfl rfl (by decide) m view projection calls h
    rw [hw]
    cases hflag : m.myCookTorranceAreCustomMaterialValuesEnabled <;>
      simp [PBRViewerModel.DrawModelParameters, writesOf, Call.uniform, hflag]
  · obtain ⟨shader, -, hw⟩ :=
      writesOf_DrawModel_parameter "n_u" rfl rfl (by decide) m view projection calls h
    rw [hw]
    cases hflag : m.myCookTorranceAreCustomMaterialValuesEnabled <;>
      simp [PBRViewerModel.DrawModelParameters, writesOf, Call.uniform, hflag]
  · obtain ⟨shader, -, hw⟩ :=
      writesOf_DrawModel_parameter "n_v" rfl rfl (by decide) m view projection calls h
    rw [hw]
    cases hflag : m.myCookTorranceAreCustomMaterialValuesEnabled <;>
      simp [PBRViewerModel.DrawModelParameters, writesOf, Call.uniform, hflag]

/-- The conversion of an unsigned 32-bit value to GLint keeps values below 2^31 and
subtracts 2^32 from the others. -/
theorem toGLint_of_lt (v : GLuint) (h : v < 2 ^ 32) :
    v.toGLint = if v < 2 ^ 31 then (v : Int) else (v : Int) - 2 ^ 32 := by
  unfold GLuint.toGLint
  rw [Nat.mod_eq_of_lt h]

/-- C13 as stated fails: SetBlinnPhongExponent(4294967295) followed by DrawModel writes
the integer -1 under blinnPhongExponent, not 4294967295. -/
theorem C13_unsigned_exponent_counterexample :
    writesOf "blinnPhongExponent"
        (drawModelRecord (PBRViewerModel.SetBlinnPhongExponent sampleModel 4294967295)) = [.int (-1)] ∧
    ¬ writesOf "blinnPhongExponent"
        (drawModelRecord (PBRViewerModel.SetBlinnPhongExponent sampleModel 4294967295)) =
      [.int 4294967295] := by
  have hw := (integer_parameter_writes (PBRViewerModel.SetBlinnPhongExponent sampleModel 4294967295)
    Mat4.identity Mat4.identity
    (drawModelRecord (PBRViewerModel.SetBlinnPhongExponent sampleModel 4294967295)) rfl).1
  have hv : (PBRViewerModel.SetBlinnPhongExponent sampleModel 4294967295).myBlinnPhongExponent.toGLint
      = -1 := by decide
  rw [hv] at hw
  refine ⟨hw, ?_⟩
  rw [hw]
  decide

/-- C13, amended: for every unsigned 32-bit value v, SetBlinnPhongExponent(v),
SetAshikhminShirleyNu(v) and SetAshikhminShirleyNv(v) followed by DrawModel write exactly
one integer under blinnPhongExponent, n_u and n_v respectively, without clamping: the
integer v when v is below 2^31, and v - 2^32, the same 32 bits read as the signed GLint
parameter of setInt, otherwise. -/
theorem C13_integer_parameters_pass_through (v : GLuint) (hv : v < 2 ^ 32) (m : PBRViewerModel)
    (view projection : Mat4) :
    (∀ calls, (m.SetBlinnPhongExponent v).DrawModel view projection = some calls →
      writesOf "blinnPhongExponent" calls = [.int (if v < 2 ^ 31 then (v : Int) else (v : Int) - 2 ^ 32)]) ∧
    (∀ calls, (m.SetAshikhminShirleyNu v).DrawModel view projection = some calls →
      writesOf "n_u" calls = [.int (if v < 2 ^ 31 then (v : Int) else (v : Int) - 2 ^ 32)]) ∧
    (∀ calls, (m.SetAshikhminShirleyNv v).DrawModel view projection = some calls →
      writesOf "n_v" calls = [.int (if v < 2 ^ 31 then (v : Int) else (v : Int) - 2 ^ 32)]) := by
  refine ⟨?_, ?_, ?_⟩
  · intro calls h
    rw [(integer_parameter_writes _ view projection calls h).1, ← toGLint_of_lt v hv]
    rfl
  · intro calls h
    rw [(integer_parameter_writes _ view projection calls h).2.1, ← toGLint_of_lt v hv]
    rfl
  · intro calls h
    rw [(integer_parameter_writes _ view projection calls h).2.2, ← toGLint_of_lt v hv]
    rfl

/-- C13 (amended) at concrete values: the exponent 128 is written as 128. -/
theorem C13_integer_parameters_pass_through_witness :
    writesOf "blinnPhongExponent" (drawModelRecord (PBRViewerModel.SetBlinnPhongExponent sampleModel 128)) =
      [.int 128] :=
  (C13_integer_parameters_pass_through 128 (by decide) sampleModel Mat4.identity Mat4.identity).1
    (drawModelRecord (PBRViewerModel.SetBlinnPhongExponent sampleModel 128)) rfl


/-! ## Uniform writes do not depend on the program -/

/-- One iteration of the texture loop writes the same uniforms and keeps the same counters
whatever the program. -/
theorem DrawTexture_program (p q : PBRViewerShader) (i : GLuint) (t : PBRViewerTexture)
    (c : TextureCounters) :
    uniformWrites (PBRViewerMesh.DrawTexture p i t c).1 = uniformWrites (PBRViewerMesh.DrawTexture q i t c).1 ∧
    (PBRViewerMesh.DrawTexture p i t c).2 = (PBRViewerMesh.DrawTexture q i t c).2 := by
  unfold PBRViewerMesh.DrawTexture
  simp only
  split_ifs <;> exact ⟨rfl, rfl⟩

/-- The texture loop writes the same uniforms whatever the program. -/
theorem DrawTextures_program (p q : PBRViewerShader) (textures : List PBRViewerTexture) :
    ∀ (i : GLuint) (c : TextureCounters),
      uniformWrites (PBRViewerMesh.DrawTextures p i textures c) =
        uniformWrites (PBRViewerMesh.DrawTextures q i textures c) := by
  induction textures with
  | nil => intro i c; rfl
  | cons t rest ih =>
    intro i c
    simp only [PBRViewerMesh.DrawTextures, uniformWrites_append]
    rw [(DrawTexture_program p q i t c).1, (DrawTexture_program p q i t c).2, ih]

/-- PBRViewerScene::Draw writes the same uniforms whatever the program. -/
theorem SceneDraw_program (p q : PBRViewerShader) (scene : PBRViewerScene) :
    uniformWrites (scene.Draw p) = uniformWrites (scene.Draw q) := by
  unfold PBRViewerScene.Draw
  have hmesh : ∀ meshes : List PBRViewerMesh,
      uniformWrites (meshes.flatMap (fun mesh => mesh.Draw p)) =
        uniformWrites (meshes.flatMap (fun mesh => mesh.Draw q)) := by
    intro meshes
    induction meshes with
    | nil => rfl
    | cons mesh rest ih =>
      simp only [List.flatMap_cons, uniformWrites_append, ih]
      congr 1
      simp only [PBRViewerMesh.Draw, uniformWrites_append, DrawTextures_program p q]
      rfl
  have := hmesh scene.myMeshes
  simp only [uniformWrites, List.filterMap_cons, Call.uniform] at this ⊢
  exact this

/-- The light loop of DrawModel writes the same uniforms whatever the program. -/
theorem DrawModelLights_program (p q : PBRViewerShader) (myShadows : Option PBRViewerShadows)
    (lights : List PBRViewerPointLight) :
    ∀ i : GLuint, (PBRViewerModel.DrawModelLights p myShadows i lights).map uniformWrites =
      (PBRViewerModel.DrawModelLights q myShadows i lights).map uniformWrites := by
  induction lights with
  | nil => intro i; rfl
  | cons light rest ih =>
    intro i
    have hslot : (PBRViewerModel.DrawModelLight p myShadows i light).map uniformWrites =
        (PBRViewerModel.DrawModelLight q myShadows i light).map uniformWrites := by
      unfold PBRViewerModel.DrawModelLight
      split_ifs
      · cases myShadows <;> rfl
      · rfl
    have ih2 := ih (i + 1)
    simp only [PBRViewerModel.DrawModelLights]
    cases h1 : PBRViewerModel.DrawModelLight p myShadows i light <;>
      cases h2 : PBRViewerModel.DrawModelLight q myShadows i light <;>
      cases h3 : PBRViewerModel.DrawModelLights p myShadows (i + 1) rest <;>
      cases h4 : PBRViewerModel.DrawModelLights q myShadows (i + 1) rest <;>
      simp_all [uniformWrites_append]

/-- DrawModel writes the same uniform names and values whatever program is bound and
whatever the lighting variant is. -/
theorem DrawModel_program (m : PBRViewerModel) (p q : PBRViewerShader) (v w : LightingVariant)
    (view projection : Mat4) :
    (PBRViewerModel.DrawModel { m with myLightingVariant := v, myCurrentLightShader := some p }
        view projection).map uniformWrites =
      (PBRViewerModel.DrawModel { m with myLightingVariant := w, myCurrentLightShader := some q }
        view projection).map uniformWrites := by
  unfold PBRViewerModel.DrawModel
  simp only
  cases hsc : m.myLoadedModel with
  | none => rfl
  | some scene =>
    cases hc : m.myCamera with
    | none => rfl
    | some camera =>
      have hl := DrawModelLights_program p q m.myShadows m.myLightSources 0
      have hs := SceneDraw_program p q scene
      cases h1 : PBRViewerModel.DrawModelLights p m.myShadows 0 m.myLightSources with
      | none =>
        cases h2 : PBRViewerModel.DrawModelLights q m.myShadows 0 m.myLightSources with
        | none => simp only [h1, h2]
        | some b => rw [h1, h2] at hl; simp at hl
      | some a =>
        cases h2 : PBRViewerModel.DrawModelLights q m.myShadows 0 m.myLightSources with
        | none => rw [h1, h2] at hl; simp at hl
        | some b =>
          rw [h1, h2] at hl
          simp only [Option.map_some', Option.some.injEq] at hl
          simp only [h1, h2, Option.map_some', Option.some.injEq, uniformWrites_append, hl, hs]
          simp only [PBRViewerModel.DrawModelParameters, uniformWrites, List.filterMap_append,
            List.filterMap_cons, List.filterMap_nil, Call.uniform]
          split_ifs <;> rfl

/-- SetLightingShader after CreateShader binds some program and changes nothing else. -/
theorem SetLightingShader_after_CreateShader (m : PBRViewerModel) (v : LightingVariant) :
    ∃ p, PBRViewerModel.SetLightingShader (PBRViewerModel.ChangeLighting (PBRViewerModel.CreateShader m) v) =
      { PBRViewerModel.CreateShader m with myLightingVariant := v, myCurrentLightShader := some p } := by
  unfold PBRViewerModel.SetLightingShader PBRViewerModel.ChangeLighting
  simp only
  split_ifs <;> exact ⟨_, rfl⟩

/-- The light loop of DrawModel returns when there is a shadow set. -/
theorem DrawModelLights_returns (shader : PBRViewerShader) (shadows : PBRViewerShadows)
    (lights : List PBRViewerPointLight) :
    ∀ i : GLuint, ∃ calls, PBRViewerModel.DrawModelLights shader (some shadows) i lights = some calls := by
  induction lights with
  | nil => intro i; exact ⟨[], rfl⟩
  | cons light rest ih =>
    intro i
    obtain ⟨slots, hslots⟩ := ih (i + 1)
    have hslot : ∃ slot, PBRViewerModel.DrawModelLight shader (some shadows) i light = some slot := by
      unfold PBRViewerModel.DrawModelLight
      split_ifs
      · exact ⟨_, rfl⟩
      · exact ⟨_, rfl⟩
    obtain ⟨slot, hslot⟩ := hslot
    exact ⟨slot ++ slots, by simp only [PBRViewerModel.DrawModelLights, hslot, hslots]⟩

/-- DrawModel returns when a program is bound, a scene is loaded, the camera exists and
there is a shadow set. -/
theorem DrawModel_returns (m : PBRViewerModel) (view projection : Mat4) (shader : PBRViewerShader)
    (scene : PBRViewerScene) (camera : PBRViewerArcballCamera) (shadows : PBRViewerShadows)
    (hp : m.myCurrentLightShader = some shader) (hs : m.myLoadedModel = some scene)
    (hc : m.myCamera = some camera) (hsh : m.myShadows = some shadows) :
    ∃ calls, m.DrawModel view projection = some calls := by
  obtain ⟨lights, hl⟩ := DrawModelLights_returns shader shadows m.myLightSources 0
  unfold PBRViewerModel.DrawModel
  simp only [hp, hs, hc, hsh, hl]
  exact ⟨_, rfl⟩

/-- The general uniforms DrawModel writes after the light loop, each once, with the stored
value. -/
theorem general_writes (m : PBRViewerModel) (view projection : Mat4) (calls : List Call)
    (h : m.DrawModel view projection = some calls) :
    writesOf "shadowsEnabled" calls = [.bool m.myAreShadowsEnabled] ∧
    writesOf "renderOutput" calls = [.int m.myRenderOutput] ∧
    writesOf "debugOutput" calls = [.int m.myDebugOutput] ∧
    writesOf "gamma" calls = [.float m.myGamma] ∧
    writesOf "exposure" calls = [.float m.myExposure] := by
  refine ⟨?_, ?_, ?_, ?_, ?_⟩
  · obtain ⟨shader, -, hw⟩ :=
      writesOf_DrawModel_parameter "shadowsEnabled" rfl rfl (by decide) m view projection calls h
    rw [hw]
    cases hflag : m.myCookTorranceAreCustomMaterialValuesEnabled <;>
      simp [PBRViewerModel.DrawModelParameters, writesOf, Call.uniform, hflag]
  · obtain ⟨shader, -, hw⟩ :=
      writesOf_DrawModel_parameter "renderOutput" rfl rfl (by decide) m view projection calls h
    rw [hw]
    cases hflag : m.myCookTorranceAreCustomMaterialValuesEnabled <;>
      simp [PBRViewerModel.DrawModelParameters, writesOf, Call.uniform, hflag]
  · obtain ⟨shader, -, hw⟩ :=
      writesOf_DrawModel_parameter "debugOutput" rfl rfl (by decide) m view projection calls h
    rw [hw]
    cases hflag : m.myCookTorranceAreCustomMaterialValuesEnabled <;>
      simp [PBRViewerModel.DrawModelParameters, writesOf, Call.uniform, hflag]
  · obtain ⟨shader, -, hw⟩ :=
      writesOf_DrawModel_parameter "gamma" rfl rfl (by decide) m view projection calls h
    rw [hw]
    cases hflag : m.myCookTorranceAreCustomMaterialValuesEnabled <;>
      simp [PBRViewerModel.DrawModelParameters, writesOf, Call.uniform, hflag]
  · obtain ⟨shader, -, hw⟩ :=
      writesOf_DrawModel_parameter "exposure" rfl rfl (by decide) m view projection calls h
    rw [hw]
    cases hflag : m.myCookTorranceAreCustomMaterialValuesEnabled <;>
      simp [PBRViewerModel.DrawModelParameters, writesOf, Call.uniform, hflag]

/-- The Cook-Torrance uniforms DrawModel writes after the light loop. -/
theorem cook_torrance_writes (m : PBRViewerModel) (view projection : Mat4) (calls : List Call)
    (h : m.DrawModel view projection = some calls) :
    writesOf "diffuseTerm" calls = [.int m.myCookTorranceDiffuseTerm] ∧
    writesOf "fresnelTerm" calls = [.int m.myCookTorranceFresnelTerm] ∧
    writesOf "normalDistributionTerm" calls = [.int m.myCookTorranceNormalDistributionTerm] ∧
    writesOf "geometryTerm" calls = [.int m.myCookTorranceGeometryTerm] ∧
    writesOf "customMaterialValuesEnabled" calls =
      [.bool m.myCookTorranceAreCustomMaterialValuesEnabled] ∧
    writesOf "customMetalness" calls =
      (if m.myCookTorranceAreCustomMaterialValuesEnabled then [.float m.myCookTorranceMetalness] else []) ∧
    writesOf "customRoughness" calls =
      (if m.myCookTorranceAreCustomMaterialValuesEnabled then [.float m.myCookTorranceRoughness] else []) := by
  refine ⟨?_, ?_, ?_, ?_, ?_, ?_, ?_⟩
  · obtain ⟨shader, -, hw⟩ :=
      writesOf_DrawModel_parameter "diffuseTerm" rfl rfl (by decide) m view projection calls h
    rw [hw]
    cases hflag : m.myCookTorranceAreCustomMaterialValuesEnabled <;>
      simp [PBRViewerModel.DrawModelParameters, writesOf, Call.uniform, hflag]
  · obtain ⟨shader, -, hw⟩ :=
      writesOf_DrawModel_parameter "fresnelTerm" rfl rfl (by decide) m view projection calls h
    rw [hw]
    cases hflag : m.myCookTorranceAreCustomMaterialValuesEnabled <;>
      simp [PBRViewerModel.DrawModelParameters, writesOf, Call.uniform, hflag]
  · obtain ⟨shader, -, hw⟩ :=
      writesOf_DrawModel_parameter "normalDistributionTerm" rfl rfl (by decide) m view projection calls h
    rw [hw]
    cases hflag : m.myCookTorranceAreCustomMaterialValuesEnabled <;>
      simp [PBRViewerModel.DrawModelParameters, writesOf, Call.uniform, hflag]
  · obtain ⟨shader, -, hw⟩ :=
      writesOf_DrawModel_parameter "geometryTerm" rfl rfl (by decide) m view projection calls h
    rw [hw]
    cases hflag : m.myCookTorranceAreCustomMaterialValuesEnabled <;>
      simp [PBRViewerModel.DrawModelParameters, writesOf, Call.uniform, hflag]
  · obtain ⟨shader, -, hw⟩ :=
      writesOf_DrawModel_parameter "customMaterialValuesEnabled" rfl rfl (by decide) m view projection calls h
    rw [hw]
    cases hflag : m.myCookTorranceAreCustomMaterialValuesEnabled <;>
      simp [PBRViewerModel.DrawModelParameters, writesOf, Call.uniform, hflag]
  · obtain ⟨shader, -, hw⟩ :=
      writesOf_DrawModel_parameter "customMetalness" rfl rfl (by decide) m view projection calls h
    rw [hw]
    cases hflag : m.myCookTorranceAreCustomMaterialValuesEnabled <;>
      simp [PBRViewerModel.DrawModelParameters, writesOf, Call.uniform, hflag]
  · obtain ⟨shader, -, hw⟩ :=
      writesOf_DrawModel_parameter "customRoughness" rfl rfl (by decide) m view projection calls h
    rw [hw]
    cases hflag : m.myCookTorranceAreCustomMaterialValuesEnabled <;>
      simp [PBRViewerModel.DrawModelParameters, writesOf, Call.uniform, hflag]

/-- C11: for two model states that differ only in the current lighting variant, each with
the program SetLightingShader selects for it among the shaders of CreateShader, DrawModel
issues the same sequence of uniform names and values; only the program that receives
them differs. For every variant, NoLighting and Debug included, DrawModel returns when a
scene is loaded, the camera exists and there is a shadow set, and whenever it returns it
has written the Blinn-Phong exponent, the two Ashikhmin-Shirley exponents, the
Cook-Torrance selectors and custom material values, the ten Disney scalars and the general
uniforms (shadowsEnabled, renderOutput, debugOutput, gamma, exposure), each once under its
name and with the value stored in the model. -/
theorem C11_uniforms_independent_of_variant (m : PBRViewerModel) (v w : LightingVariant)
    (view projection : Mat4) :
    (((PBRViewerModel.SetLightingShader
        (PBRViewerModel.ChangeLighting (PBRViewerModel.CreateShader m) v)).DrawModel view projection).map
        uniformWrites =
      ((PBRViewerModel.SetLightingShader
        (PBRViewerModel.ChangeLighting (PBRViewerModel.CreateShader m) w)).DrawModel view projection).map
        uniformWrites) ∧
    (∀ (scene : PBRViewerScene) (camera : PBRViewerArcballCamera) (shadows : PBRViewerShadows),
      m.myLoadedModel = some scene → m.myCamera = some camera → m.myShadows = some shadows →
      ∃ calls, (PBRViewerModel.SetLightingShader
        (PBRViewerModel.ChangeLighting (PBRViewerModel.CreateShader m) v)).DrawModel view projection =
          some calls) ∧
    ∀ calls, (PBRViewerModel.SetLightingShader
        (PBRViewerModel.ChangeLighting (PBRViewerModel.CreateShader m) v)).DrawModel view projection =
          some calls →
      writesOf "blinnPhongExponent" calls = [.int m.myBlinnPhongExponent.toGLint] ∧
      writesOf "n_u" calls = [.int m.myAshikhminShirleyNu.toGLint] ∧
      writesOf "n_v" calls = [.int m.myAshikhminShirleyNv.toGLint] ∧
      writesOf "diffuseTerm" calls = [.int m.myCookTorranceDiffuseTerm] ∧
      writesOf "fresnelTerm" calls = [.int m.myCookTorranceFresnelTerm] ∧
      writesOf "normalDistributionTerm" calls = [.int m.myCookTorranceNormalDistributionTerm] ∧
      writesOf "geometryTerm" calls = [.int m.myCookTorranceGeometryTerm] ∧
      writesOf "customMaterialValuesEnabled" calls =
        [.bool m.myCookTorranceAreCustomMaterialValuesEnabled] ∧
      writesOf "customMetalness" calls =
        (if m.myCookTorranceAreCustomMaterialValuesEnabled then [.float m.myCookTorranceMetalness]
         else []) ∧
      writesOf "customRoughness" calls =
        (if m.myCookTorranceAreCustomMaterialValuesEnabled then [.float m.myCookTorranceRoughness]
         else []) ∧
      (∀ q : DisneyParameter, writesOf q.key calls = [.float (q.stored m)]) ∧
      writesOf "shadowsEnabled" calls = [.bool m.myAreShadowsEnabled] ∧
      writesOf "renderOutput" calls = [.int m.myRenderOutput] ∧
      writesOf "debugOutput" calls = [.int m.myDebugOutput] ∧
      writesOf "gamma" calls = [.float m.myGamma] ∧
      writesOf "exposure" calls = [.float m.myExposure] := by
  obtain ⟨p, hp⟩ := SetLightingShader_after_CreateShader m v
  obtain ⟨q, hq⟩ := SetLightingShader_after_CreateShader m w
  refine ⟨?_, ?_, ?_⟩
  · rw [hp, hq]
    exact DrawModel_program (PBRViewerModel.CreateShader m) p q v w view projection
  · intro scene camera shadows hs hc hsh
    rw [hp]
    exact DrawModel_returns _ view projection p scene camera shadows rfl hs hc hsh
  · intro calls h
    rw [hp] at h
    obtain ⟨i1, i2, i3⟩ := integer_parameter_writes _ view projection calls h
    obtain ⟨c1, c2, c3, c4, c5, c6, c7⟩ := cook_torrance_writes _ view projection calls h
    obtain ⟨g1, g2, g3, g4, g5⟩ := general_writes _ view projection calls h
    refine ⟨i1, i2, i3, c1, c2, c3, c4, c5, c6, c7, ?_, g1, g2, g3, g4, g5⟩
    intro d
    have hd := disney_writes d _ view projection calls h
    cases d <;> exact hd

/-- C11 at concrete variants: with sampleModel, DrawModel returns for NoLighting, writes the
same uniform names and values as for Debug, and among them the gamma, the Blinn-Phong
exponent and the Disney roughness of the model. -/
theorem C11_uniforms_independent_of_variant_witness :
    ((PBRViewerModel.SetLightingShader
      (PBRViewerModel.ChangeLighting (PBRViewerModel.CreateShader sampleModel) LightingVariant.NoLighting)).DrawModel
        Mat4.identity Mat4.identity).isSome = true ∧
    ((PBRViewerModel.SetLightingShader
      (PBRViewerModel.ChangeLighting (PBRViewerModel.CreateShader sampleModel) LightingVariant.NoLighting)).DrawModel
        Mat4.identity Mat4.identity).map uniformWrites =
    ((PBRViewerModel.SetLightingShader
      (PBRViewerModel.ChangeLighting (PBRViewerModel.CreateShader sampleModel) LightingVariant.Debug)).DrawModel
        Mat4.identity Mat4.identity).map uniformWrites ∧
    writesOf "gamma" (drawModelRecord (PBRViewerModel.SetLightingShader
      (PBRViewerModel.ChangeLighting (PBRViewerModel.CreateShader sampleModel) LightingVariant.NoLighting))) =
      [.float sampleModel.myGamma] ∧
    writesOf "blinnPhongExponent" (drawModelRecord (PBRViewerModel.SetLightingShader
      (PBRViewerModel.ChangeLighting (PBRViewerModel.CreateShader sampleModel) LightingVariant.NoLighting))) =
      [.int sampleModel.myBlinnPhongExponent.toGLint] ∧
    writesOf "roughness" (drawModelRecord (PBRViewerModel.SetLightingShader
      (PBRViewerModel.ChangeLighting (PBRViewerModel.CreateShader sampleModel) LightingVariant.NoLighting))) =
      [.float sampleModel.myDisneyRoughness] :=
  ⟨rfl,
   (C11_uniforms_independent_of_variant sampleModel LightingVariant.NoLighting LightingVariant.Debug
    Mat4.identity Mat4.identity).1,
   ((C11_uniforms_independent_of_variant sampleModel LightingVariant.NoLighting LightingVariant.Debug
    Mat4.identity Mat4.identity).2.2 _ rfl).2.2.2.2.2.2.2.2.2.2.2.2.2.2.1,
   ((C11_uniforms_independent_of_variant sampleModel LightingVariant.NoLighting LightingVariant.Debug
    Mat4.identity Mat4.identity).2.2 _ rfl).1,
   ((C11_uniforms_independent_of_variant sampleModel LightingVariant.NoLighting LightingVariant.Debug
    Mat4.identity Mat4.identity).2.2 _ rfl).2.2.2.2.2.2.2.2.2.2.1 DisneyParameter.roughness⟩


/-! ## Light uniforms -/

/-- The names of the light uniforms of the slots 0 to 3, written out. -/
theorem indexedName_light_slots :
    (indexedName "lightPositions" 0 = "lightPositions[0]" ∧ indexedName "lightPositions" 1 = "lightPositions[1]" ∧
     indexedName "lightPositions" 2 = "lightPositions[2]" ∧ indexedName "lightPositions" 3 = "lightPositions[3]") ∧
    (indexedName "lightColors" 0 = "lightColors[0]" ∧ indexedName "lightColors" 1 = "lightColors[1]" ∧
     indexedName "lightColors" 2 = "lightColors[2]" ∧ indexedName "lightColors" 3 = "lightColors[3]") ∧
    (indexedName "isLightActive" 0 = "isLightActive[0]" ∧ indexedName "isLightActive" 1 = "isLightActive[1]" ∧
     indexedName "isLightActive" 2 = "isLightActive[2]" ∧ indexedName "isLightActive" 3 = "isLightActive[3]") ∧
    (indexedName "lightSpaceMatrices" 0 = "lightSpaceMatrices[0]" ∧
     indexedName "lightSpaceMatrices" 1 = "lightSpaceMatrices[1]" ∧
     indexedName "lightSpaceMatrices" 2 = "lightSpaceMatrices[2]" ∧
     indexedName "lightSpaceMatrices" 3 = "lightSpaceMatrices[3]") := by
  decide

/-- What one iteration of the light loop, for slot j, writes under the light uniform names
of slot i, for slots below 4. -/
theorem DrawModelLight_writes (shader : PBRViewerShader) (myShadows : Option PBRViewerShadows)
    (i j : Nat) (hi : i < 4) (hj : j < 4) (light : PBRViewerPointLight) (slot : List Call)
    (h : PBRViewerModel.DrawModelLight shader myShadows j light = some slot) :
    writesOf (indexedName "lightPositions" i) slot = (if i = j then [.vec3 light.GetPosition] else []) ∧
    writesOf (indexedName "lightColors" i) slot = (if i = j then [.vec3 light.GetLightColor] else []) ∧
    writesOf (indexedName "isLightActive" i) slot = (if i = j then [.bool light.GetIsActive] else []) ∧
    (i ≠ j → writesOf (indexedName "lightSpaceMatrices" i) slot = []) ∧
    (light.GetIsActive = false → writesOf (indexedName "lightSpaceMatrices" i) slot = []) ∧
    (light.GetIsActive = true → ∃ shadows, myShadows = some shadows ∧
      writesOf (indexedName "lightSpaceMatrices" i) slot =
        (if i = j then
          [.mat4 (Mat4.mul shadows.GetShadowProjectionMatrix
            (Mat4.lookAt light.GetPosition (Vec3.splat 0) ⟨0, 1, 0⟩))]
        else [])) := by
  obtain ⟨⟨p0, p1, p2, p3⟩, ⟨c0, c1, c2, c3⟩, ⟨a0, a1, a2, a3⟩, ⟨m0, m1, m2, m3⟩⟩ :=
    indexedName_light_slots
  unfold PBRViewerModel.DrawModelLight at h
  cases hact : light.GetIsActive with
  | false =>
    simp only [hact, Bool.false_eq_true, if_false, Option.some.injEq] at h
    subst h
    interval_cases i <;> interval_cases j <;>
      simp [writesOf, Call.uniform, p0, p1, p2, p3, c0, c1, c2, c3, a0, a1, a2, a3, m0, m1, m2, m3]
  | true =>
    simp only [hact, if_true] at h
    cases hsh : myShadows with
    | none => simp [hsh] at h
    | some shadows =>
      simp only [hsh, Option.some.injEq] at h
      subst h
      interval_cases i <;> interval_cases j <;>
        simp [writesOf, Call.uniform, p0, p1, p2, p3, c0, c1, c2, c3, a0, a1, a2, a3, m0, m1, m2, m3]

/-- What the light loop over four lights writes under the light uniform names of slot i. -/
theorem DrawModelLights_writes (shader : PBRViewerShader) (myShadows : Option PBRViewerShadows)
    (l0 l1 l2 l3 : PBRViewerPointLight) (lights : List Call)
    (h : PBRViewerModel.DrawModelLights shader myShadows 0 [l0, l1, l2, l3] = some lights)
    (i : Nat) (hi : i < 4) (light : PBRViewerPointLight) (hl : [l0, l1, l2, l3][i]? = some light) :
    writesOf (indexedName "lightPositions" i) lights = [.vec3 light.GetPosition] ∧
    writesOf (indexedName "lightColors" i) lights = [.vec3 light.GetLightColor] ∧
    writesOf (indexedName "isLightActive" i) lights = [.bool light.GetIsActive] ∧
    (light.GetIsActive = false → writesOf (indexedName "lightSpaceMatrices" i) lights = []) ∧
    (light.GetIsActive = true → ∃ shadows, myShadows = some shadows ∧
      writesOf (indexedName "lightSpaceMatrices" i) lights =
        [.mat4 (Mat4.mul shadows.GetShadowProjectionMatrix
          (Mat4.lookAt light.GetPosition (Vec3.splat 0) ⟨0, 1, 0⟩))]) := by
  obtain ⟨s0, r0, h0, hr0, rfl⟩ := DrawModelLights_cons shader myShadows 0 l0 _ lights h
  obtain ⟨s1, r1, h1, hr1, rfl⟩ := DrawModelLights_cons shader myShadows 1 l1 _ r0 hr0
  obtain ⟨s2, r2, h2, hr2, rfl⟩ := DrawModelLights_cons shader myShadows 2 l2 _ r1 hr1
  obtain ⟨s3, r3, h3, hr3, rfl⟩ := DrawModelLights_cons shader myShadows 3 l3 _ r2 hr2
  simp only [PBRViewerModel.DrawModelLights, Option.some.injEq] at hr3
  subst hr3
  have w0 := DrawModelLight_writes shader myShadows i 0 hi (by norm_num) l0 s0 h0
  have w1 := DrawModelLight_writes shader myShadows i 1 hi (by norm_num) l1 s1 h1
  have w2 := DrawModelLight_writes shader myShadows i 2 hi (by norm_num) l2 s2 h2
  have w3 := DrawModelLight_writes shader myShadows i 3 hi (by norm_num) l3 s3 h3
  have hnil : ∀ key, writesOf key ([] : List Call) = [] := fun _ => rfl
  simp only [writesOf_append, hnil, List.append_nil]
  have activeOrNot : ∀ l : PBRViewerPointLight, l.GetIsActive = false ∨ l.GetIsActive = true := by
    intro l; cases l.GetIsActive <;> simp
  interval_cases i
  · simp only [List.getElem?_cons_zero, Option.some.injEq] at hl
    subst hl
    simp only [w0.1, w1.1, w2.1, w3.1, w0.2.1, w1.2.1, w2.2.1, w3.2.1, w0.2.2.1, w1.2.2.1, w2.2.2.1,
      w3.2.2.1, w1.2.2.2.1 (by decide), w2.2.2.2.1 (by decide), w3.2.2.2.1 (by decide)]
    refine ⟨by simp, by simp, by simp, ?_, ?_⟩
    · intro hact
      simp [w0.2.2.2.2.1 hact]
    · intro hact
      obtain ⟨shadows, hs, hw⟩ := w0.2.2.2.2.2 hact
      exact ⟨shadows, hs, by simp [hw]⟩
  · simp only [List.getElem?_cons_succ, List.getElem?_cons_zero, Option.some.injEq] at hl
    subst hl
    simp only [w0.1, w1.1, w2.1, w3.1, w0.2.1, w1.2.1, w2.2.1, w3.2.1, w0.2.2.1, w1.2.2.1, w2.2.2.1,
      w3.2.2.1, w0.2.2.2.1 (by decide), w2.2.2.2.1 (by decide), w3.2.2.2.1 (by decide)]
    refine ⟨by simp, by simp, by simp, ?_, ?_⟩
    · intro hact
      simp [w1.2.2.2.2.1 hact]
    · intro hact
      obtain ⟨shadows, hs, hw⟩ := w1.2.2.2.2.2 hact
      exact ⟨shadows, hs, by simp [hw]⟩
  · simp only [List.getElem?_cons_succ, List.getElem?_cons_zero, Option.some.injEq] at hl
    subst hl
    simp only [w0.1, w1.1, w2.1, w3.1, w0.2.1, w1.2.1, w2.2.1, w3.2.1, w0.2.2.1, w1.2.2.1, w2.2.2.1,
      w3.2.2.1, w0.2.2.2.1 (by decide), w1.2.2.2.1 (by decide), w3.2.2.2.1 (by decide)]
    refine ⟨by simp, by simp, by simp, ?_, ?_⟩
    · intro hact
      simp [w2.2.2.2.2.1 hact]
    · intro hact
      obtain ⟨shadows, hs, hw⟩ := w2.2.2.2.2.2 hact
      exact ⟨shadows, hs, by simp [hw]⟩
  · simp only [List.getElem?_cons_succ, List.getElem?_cons_zero, Option.some.injEq] at hl
    subst hl
    simp only [w0.1, w1.1, w2.1, w3.1, w0.2.1, w1.2.1, w2.2.1, w3.2.1, w0.2.2.1, w1.2.2.1, w2.2.2.1,
      w3.2.2.1, w0.2.2.2.1 (by decide), w1.2.2.2.1 (by decide), w2.2.2.2.1 (by decide)]
    refine ⟨by simp, by simp, by simp, ?_, ?_⟩
    · intro hact
      simp [w3.2.2.2.2.1 hact]
    · intro hact
      obtain ⟨shadows, hs, hw⟩ := w3.2.2.2.2.2 hact
      exact ⟨shadows, hs, by simp [hw]⟩

/-- A name whose first letter is not t is not a texture name. -/
theorem isTextureUniformName_of_head (name : String) (ch : Char) (h : name.data.head? = some ch)
    (hch : ch ≠ 't') : isTextureUniformName name = false := by
  unfold isTextureUniformName
  have h1 : (name == "") = false := by
    rw [beq_eq_false_iff_ne]
    intro hn
    rw [hn] at h
    simp at h
  rw [h1, h]
  simp [hch]

/-- A record whose uniform names are no light names writes nothing under a light name. -/
theorem writesOf_eq_nil_of_no_light_name (key : String) (calls : List Call)
    (hkey : isLightUniformName key = true)
    (hall : calls.all (fun c =>
      match c.uniform with
      | some (name, _) => !isLightUniformName name
      | none => true) = true) :
    writesOf key calls = [] := by
  apply writesOf_eq_nil
  intro c hc name value hu hn
  have := List.all_eq_true.mp hall c hc
  rw [hu] at this
  simp only [Bool.not_eq_true'] at this
  rw [hn, hkey] at this
  exact absurd this (by simp)

/-- Under a light name, DrawModel writes what its light loop writes. -/
theorem writesOf_DrawModel_light (key : String) (hkl : isLightUniformName key = true)
    (hkt : isTextureUniformName key = false)
    (m : PBRViewerModel) (view projection : Mat4) (calls : List Call)
    (h : m.DrawModel view projection = some calls) :
    ∃ shader lights, m.myCurrentLightShader = some shader ∧
      PBRViewerModel.DrawModelLights shader m.myShadows 0 m.myLightSources = some lights ∧
      writesOf key calls = writesOf key lights := by
  obtain ⟨shader, scene, camera, lights, hs, -, -, hl, rfl⟩ := DrawModel_eq_some m view projection calls h
  refine ⟨shader, lights, hs, hl, ?_⟩
  have hhead : writesOf key
      [Call.Use shader,
       Call.setMat4 shader "model" scene.GetModelMatrix,
       Call.setMat4 shader "view" view,
       Call.setMat4 shader "projection" projection,
       Call.setVec3 shader "camPos" camera.GetCameraPosition] = [] :=
    writesOf_eq_nil_of_no_light_name key _ hkl rfl
  have hparams : writesOf key (PBRViewerModel.DrawModelParameters m shader) = [] :=
    writesOf_eq_nil_of_no_light_name key _ hkl
      (by unfold PBRViewerModel.DrawModelParameters
          cases m.myCookTorranceAreCustomMaterialValuesEnabled <;> rfl)
  rw [writesOf_append, writesOf_append, writesOf_append, writesOf_SceneDraw key hkt, hhead, hparams]
  simp

/-- C8: with four light sources, for every light slot i in 0..3 DrawModel writes the
uniforms lightPositions[i], lightColors[i] and isLightActive[i] exactly once, with the
position, the colour and the active flag of light i, and it writes lightSpaceMatrices[i],
once, if light i is active and not at all if it is inactive. -/
theorem C8_light_uniforms (m : PBRViewerModel) (view projection : Mat4) (calls : List Call)
    (hlen : m.myLightSources.length = 4)
    (h : m.DrawModel view projection = some calls)
    (i : Nat) (hi : i < 4) (light : PBRViewerPointLight) (hl : m.myLightSources[i]? = some light) :
    writesOf (indexedName "lightPositions" i) calls = [.vec3 light.GetPosition] ∧
    writesOf (indexedName "lightColors" i) calls = [.vec3 light.GetLightColor] ∧
    writesOf (indexedName "isLightActive" i) calls = [.bool light.GetIsActive] ∧
    (light.GetIsActive = true → ∃ M, writesOf (indexedName "lightSpaceMatrices" i) calls = [.mat4 M]) ∧
    (light.GetIsActive = false → writesOf (indexedName "lightSpaceMatrices" i) calls = []) := by
  obtain ⟨l0, l1, l2, l3, hls⟩ : ∃ l0 l1 l2 l3, m.myLightSources = [l0, l1, l2, l3] := by
    match hm : m.myLightSources, hlen with
    | [l0, l1, l2, l3], _ => exact ⟨l0, l1, l2, l3, rfl⟩
  rw [hls] at hl
  have key : ∀ base : String, ∀ ch : Char, base.data.head? = some ch → ch ≠ 't' →
      (ch = 'l' ∨ ch = 'i') →
      ∃ shader lights, PBRViewerModel.DrawModelLights shader m.myShadows 0 [l0, l1, l2, l3] = some lights ∧
        writesOf (indexedName base i) calls = writesOf (indexedName base i) lights := by
    intro base ch hb hch hli
    have hhead := indexedName_head base i ch hb
    have hkl : isLightUniformName (indexedName base i) = true := by
      unfold isLightUniformName
      rw [hhead]
      rcases hli with rfl | rfl <;> rfl
    obtain ⟨shader, lights, -, hlights, hw⟩ := writesOf_DrawModel_light (indexedName base i) hkl
      (isTextureUniformName_of_head _ ch hhead hch) m view projection calls h
    rw [hls] at hlights
    exact ⟨shader, lights, hlights, hw⟩
  obtain ⟨s1, lights1, hl1, hw1⟩ := key "lightPositions" 'l' rfl (by decide) (Or.inl rfl)
  obtain ⟨s2, lights2, hl2, hw2⟩ := key "lightColors" 'l' rfl (by decide) (Or.inl rfl)
  obtain ⟨s3, lights3, hl3, hw3⟩ := key "isLightActive" 'i' rfl (by decide) (Or.inr rfl)
  obtain ⟨s4, lights4, hl4, hw4⟩ := key "lightSpaceMatrices" 'l' rfl (by decide) (Or.inl rfl)
  rw [hw1, hw2, hw3, hw4]
  have f1 := DrawModelLights_writes s1 m.myShadows l0 l1 l2 l3 lights1 hl1 i hi light hl
  have f2 := DrawModelLights_writes s2 m.myShadows l0 l1 l2 l3 lights2 hl2 i hi light hl
  have f3 := DrawModelLights_writes s3 m.myShadows l0 l1 l2 l3 lights3 hl3 i hi light hl
  have f4 := DrawModelLights_writes s4 m.myShadows l0 l1 l2 l3 lights4 hl4 i hi light hl
  refine ⟨f1.1, f2.2.1, f3.2.2.1, ?_, f4.2.2.2.1⟩
  intro hact
  obtain ⟨shadows, -, hw⟩ := f4.2.2.2.2 hact
  exact ⟨_, hw⟩

/-- C8 at a concrete model: with the light of slot 1 active, DrawModel writes
isLightActive[1] as true and writes lightSpaceMatrices[1] once. -/
theorem C8_light_uniforms_witness :
    writesOf (indexedName "isLightActive" 1) (drawModelRecord litModel) = [.bool true] ∧
    ∃ M, writesOf (indexedName "lightSpaceMatrices" 1) (drawModelRecord litModel) = [.mat4 M] :=
  ⟨(C8_light_uniforms litModel Mat4.identity Mat4.identity (drawModelRecord litModel) rfl rfl 1 (by decide)
      { myPosition := ⟨1, 1, 1⟩, myIsActive := true, myLightColor := Vec3.splat 5 } rfl).2.2.1,
   (C8_light_uniforms litModel Mat4.identity Mat4.identity (drawModelRecord litModel) rfl rfl 1 (by decide)
      { myPosition := ⟨1, 1, 1⟩, myIsActive := true, myLightColor := Vec3.splat 5 } rfl).2.2.2.1 rfl⟩


/-! ## The shadow pass -/

/-- The shape of the record of one shadow pass that returns. -/
theorem ShadowPass_eq_some (sh : PBRViewerShadows) (scene : PBRViewerScene)
    (lightSources : List PBRViewerPointLight) (i : Nat) (framebuffer : GLuint) (pass : List Call)
    (h : sh.ShadowPass scene lightSources i framebuffer = some pass) :
    ∃ light, lightSources[i]? = some light ∧
      pass = [Call.glBindFramebuffer .GL_FRAMEBUFFER framebuffer, Call.glClear [.GL_DEPTH_BUFFER_BIT]] ++
        (if light.GetIsActive = false then []
         else
          [Call.setMat4 sh.myShadowShader "lightSpaceMatrix"
            (Mat4.mul sh.GetShadowProjectionMatrix
              (Mat4.lookAt light.GetPosition (Vec3.splat 0) ⟨0, 1, 0⟩)),
           Call.setMat4 sh.myShadowShader "model" scene.GetModelMatrix] ++
          scene.Draw sh.myShadowShader) := by
  unfold PBRViewerShadows.ShadowPass at h
  cases hl : lightSources[i]? with
  | none => simp [hl] at h
  | some light =>
    refine ⟨light, rfl, ?_⟩
    simp only [hl] at h
    split_ifs at h with hact
    · simp only [Option.some.injEq] at h
      simp [← h, hact]
    · simp only [Option.some.injEq] at h
      simp [← h, hact]

/-- The shape of the record of the pass loop: the record of the first pass followed by the
record of the other passes. -/
theorem ShadowPasses_cons (sh : PBRViewerShadows) (scene : PBRViewerScene)
    (lightSources : List PBRViewerPointLight) (i : Nat) (framebuffer : GLuint) (rest : List GLuint)
    (calls : List Call)
    (h : sh.ShadowPasses scene lightSources i (framebuffer :: rest) = some calls) :
    ∃ pass passes, sh.ShadowPass scene lightSources i framebuffer = some pass ∧
      sh.ShadowPasses scene lightSources (i + 1) rest = some passes ∧ calls = pass ++ passes := by
  simp only [PBRViewerShadows.ShadowPasses] at h
  cases h1 : sh.ShadowPass scene lightSources i framebuffer with
  | none => simp [h1] at h
  | some pass =>
    cases h2 : sh.ShadowPasses scene lightSources (i + 1) rest with
    | none => simp [h1, h2] at h
    | some passes =>
      simp only [h1, h2, Option.some.injEq] at h
      exact ⟨pass, passes, rfl, rfl, h.symm⟩

/-- Every pass of the pass loop is part of the record of the loop. -/
theorem ShadowPasses_pass (sh : PBRViewerShadows) (scene : PBRViewerScene)
    (lightSources : List PBRViewerPointLight) (framebuffers : List GLuint) :
    ∀ (start k : Nat) (framebuffer : GLuint) (calls : List Call),
      sh.ShadowPasses scene lightSources start framebuffers = some calls →
      framebuffers[k]? = some framebuffer →
      ∃ pass, sh.ShadowPass scene lightSources (start + k) framebuffer = some pass ∧
        ∀ c ∈ pass, c ∈ calls := by
  induction framebuffers with
  | nil => intro start k framebuffer calls _ hk; simp at hk
  | cons f rest ih =>
    intro start k framebuffer calls h hk
    obtain ⟨pass, passes, h1, h2, rfl⟩ := ShadowPasses_cons sh scene lightSources start f rest calls h
    cases k with
    | zero =>
      simp only [List.getElem?_cons_zero, Option.some.injEq] at hk
      subst hk
      exact ⟨pass, h1, fun c hc => List.mem_append_left _ hc⟩
    | succ k =>
      simp only [List.getElem?_cons_succ] at hk
      obtain ⟨p, hp, hmem⟩ := ih (start + 1) k framebuffer passes h2 hk
      refine ⟨p, ?_, fun c hc => List.mem_append_right _ (hmem c hc)⟩
      rw [← hp]
      congr 1
      omega

/-- The shape of the record of a CalculateSelfShadowing call that returns with allocated
framebuffers. -/
theorem CalculateSelfShadowing_eq_some (sh : PBRViewerShadows) (scene : PBRViewerScene)
    (vw vh : GLuint) (lightSources : List PBRViewerPointLight) (calls : List Call)
    (hne : sh.myFramebufferObjects ≠ [])
    (h : sh.CalculateSelfShadowing scene vw vh lightSources = some calls) :
    ∃ passes, sh.ShadowPasses scene lightSources 0 sh.myFramebufferObjects = some passes ∧
      calls =
        [Call.glCullFace .GL_FRONT,
         Call.glViewport 0 0 sh.myTextureWidth.toGLint sh.myTextureHeight.toGLint,
         Call.Use sh.myShadowShader] ++
        passes ++
        [Call.glBindFramebuffer .GL_FRAMEBUFFER 0,
         Call.glViewport 0 0 vw.toGLint vh.toGLint,
         Call.glCullFace .GL_BACK] := by
  unfold PBRViewerShadows.CalculateSelfShadowing at h
  have he : sh.myFramebufferObjects.isEmpty = false := by
    cases hf : sh.myFramebufferObjects with
    | nil => exact absurd hf hne
    | cons a b => rfl
  simp only [he, Bool.false_eq_true, if_false] at h
  cases hp : sh.ShadowPasses scene lightSources 0 sh.myFramebufferObjects with
  | none => simp [hp] at h
  | some passes =>
    simp only [hp, Option.some.injEq] at h
    exact ⟨passes, rfl, h.symm⟩

/-- The light loop of DrawModel uploads, for every active light, the product of the shadow
projection and the view from the light towards the origin. -/
theorem DrawModelLights_matrix (shader : PBRViewerShader) (myShadows : Option PBRViewerShadows)
    (lights : List PBRViewerPointLight) :
    ∀ (start k : Nat) (light : PBRViewerPointLight) (calls : List Call),
      PBRViewerModel.DrawModelLights shader myShadows start lights = some calls →
      lights[k]? = some light → light.GetIsActive = true →
      ∃ shadows, myShadows = some shadows ∧
        Call.setMat4 shader (indexedName "lightSpaceMatrices" (start + k))
          (Mat4.mul shadows.GetShadowProjectionMatrix
            (Mat4.lookAt light.GetPosition (Vec3.splat 0) ⟨0, 1, 0⟩)) ∈ calls := by
  induction lights with
  | nil => intro start k light calls _ hk; simp at hk
  | cons l rest ih =>
    intro start k light calls h hk hact
    obtain ⟨slot, slots, h1, h2, rfl⟩ := DrawModelLights_cons shader myShadows start l rest calls h
    cases k with
    | zero =>
      simp only [List.getElem?_cons_zero, Option.some.injEq] at hk
      subst hk
      unfold PBRViewerModel.DrawModelLight at h1
      simp only [hact, if_true] at h1
      cases hs : myShadows with
      | none => simp [hs] at h1
      | some shadows =>
        simp only [hs, Option.some.injEq] at h1
        subst h1
        exact ⟨shadows, rfl, by simp⟩
    | succ k =>
      simp only [List.getElem?_cons_succ] at hk
      obtain ⟨shadows, hs, hmem⟩ := ih (start + 1) k light slots h2 hk hact
      refine ⟨shadows, hs, List.mem_append_right _ ?_⟩
      have : start + 1 + k = start + (k + 1) := by omega
      rw [this] at hmem
      exact hmem

/-- C9: for every active light with position p and every shadow-set configuration, the
shadow pass of CalculateSelfShadowing for the slot of that light uploads, as its only
lightSpaceMatrix, the matrix GetShadowProjectionMatrix() * lookAt(p, (0,0,0), (0,1,0)),
and DrawModel in the same frame uploads the same matrix as lightSpaceMatrices[i]. -/
theorem C9_light_space_matrix_agrees (m : PBRViewerModel) (view projection : Mat4)
    (shadows : PBRViewerShadows) (scene : PBRViewerScene) (hs : m.myShadows = some shadows)
    (i : Nat) (light : PBRViewerPointLight) (framebuffer : GLuint)
    (hl : m.myLightSources[i]? = some light) (hact : light.GetIsActive = true)
    (hf : shadows.myFramebufferObjects[i]? = some framebuffer)
    (vw vh : GLuint) (shadowCalls drawCalls : List Call)
    (hsc : shadows.CalculateSelfShadowing scene vw vh m.myLightSources = some shadowCalls)
    (hd : (PBRViewerModel.SetLightingShader m).DrawModel view projection = some drawCalls) :
    ∃ pass shader,
      shadows.ShadowPass scene m.myLightSources i framebuffer = some pass ∧
      (∀ c ∈ pass, c ∈ shadowCalls) ∧
      writesOf "lightSpaceMatrix" pass =
        [.mat4 (Mat4.mul shadows.GetShadowProjectionMatrix
          (Mat4.lookAt light.GetPosition (Vec3.splat 0) ⟨0, 1, 0⟩))] ∧
      Call.setMat4 shader (indexedName "lightSpaceMatrices" i)
        (Mat4.mul shadows.GetShadowProjectionMatrix
          (Mat4.lookAt light.GetPosition (Vec3.splat 0) ⟨0, 1, 0⟩)) ∈ drawCalls := by
  have hne : shadows.myFramebufferObjects ≠ [] := by
    intro he
    rw [he] at hf
    simp at hf
  obtain ⟨passes, hp, rfl⟩ :=
    CalculateSelfShadowing_eq_some shadows scene vw vh m.myLightSources shadowCalls hne hsc
  obtain ⟨pass, hpass, hmem⟩ :=
    ShadowPasses_pass shadows scene m.myLightSources shadows.myFramebufferObjects 0 i framebuffer passes hp hf
  rw [Nat.zero_add] at hpass
  obtain ⟨light2, hl2, hshape⟩ := ShadowPass_eq_some shadows scene m.myLightSources i framebuffer pass hpass
  rw [hl] at hl2
  cases Option.some.inj hl2
  obtain ⟨shader, scene2, camera, lights, -, -, -, hlights, rfl⟩ :=
    DrawModel_eq_some (PBRViewerModel.SetLightingShader m) view projection drawCalls hd
  have hsame : (PBRViewerModel.SetLightingShader m).myShadows = m.myShadows ∧
      (PBRViewerModel.SetLightingShader m).myLightSources = m.myLightSources := by
    unfold PBRViewerModel.SetLightingShader
    split_ifs <;> exact ⟨rfl, rfl⟩
  rw [hsame.1, hsame.2] at hlights
  obtain ⟨shadows2, hs2, hmat⟩ :=
    DrawModelLights_matrix shader m.myShadows m.myLightSources 0 i light lights hlights hl hact
  rw [hs] at hs2
  cases Option.some.inj hs2
  rw [Nat.zero_add] at hmat
  refine ⟨pass, shader, hpass, ?_, ?_, ?_⟩
  · intro c hc
    exact List.mem_append_left _ (List.mem_append_right _ (hmem c hc))
  · rw [hshape]
    simp only [hact, Bool.true_eq_false, if_false, writesOf_append,
      writesOf_SceneDraw "lightSpaceMatrix" rfl]
    simp [writesOf, Call.uniform]
  · exact List.mem_append_left _ (List.mem_append_left _ (List.mem_append_right _ hmat))

/-- C9 at a concrete frame: for the active light of slot 1 of litModel, at (1, 1, 1), the
shadow pass and DrawModel both upload the product of the shadow projection and
lookAt((1,1,1), (0,0,0), (0,1,0)). -/
theorem C9_light_space_matrix_agrees_witness :
    ∃ pass shader,
      (PBRViewerShadows.CreateSelfShadowingTextures (PBRViewerShadows.new) 4 64 64 {}).result.2.ShadowPass
        sampleScene litModel.myLightSources 1 2 = some pass ∧
      (∀ c ∈ pass, c ∈
        ((PBRViewerShadows.CreateSelfShadowingTextures (PBRViewerShadows.new) 4 64 64 {}).result.2.CalculateSelfShadowing
          sampleScene 1536 864 litModel.myLightSources).getD []) ∧
      writesOf "lightSpaceMatrix" pass =
        [.mat4 (Mat4.mul
          (PBRViewerShadows.CreateSelfShadowingTextures (PBRViewerShadows.new) 4 64 64 {}).result.2.GetShadowProjectionMatrix
          (Mat4.lookAt ⟨1, 1, 1⟩ (Vec3.splat 0) ⟨0, 1, 0⟩))] ∧
      Call.setMat4 shader (indexedName "lightSpaceMatrices" 1)
        (Mat4.mul
          (PBRViewerShadows.CreateSelfShadowingTextures (PBRViewerShadows.new) 4 64 64 {}).result.2.GetShadowProjectionMatrix
          (Mat4.lookAt ⟨1, 1, 1⟩ (Vec3.splat 0) ⟨0, 1, 0⟩)) ∈
        drawModelRecord (PBRViewerModel.SetLightingShader litModel) :=
  C9_light_space_matrix_agrees litModel Mat4.identity Mat4.identity
    (PBRViewerShadows.CreateSelfShadowingTextures (PBRViewerShadows.new) 4 64 64 {}).result.2 sampleScene rfl
    1 { myPosition := ⟨1, 1, 1⟩, myIsActive := true, myLightColor := Vec3.splat 5 } 2 rfl rfl rfl
    1536 864 _ (drawModelRecord (PBRViewerModel.SetLightingShader litModel)) rfl rfl


/-! ## The shadow set -/

/-- C18: the divisor GetShadowProjectionMatrix uses for the aspect ratio is never zero: it
is 1 when the texture height is 0, so that the aspect ratio is w/1, and the height h
itself otherwise, so that the aspect ratio is w/h. -/
theorem C18_shadow_projection_aspect (sh : PBRViewerShadows) :
    sh.aspectHeight ≠ 0 ∧
    sh.GetShadowProjectionMatrix =
      Mat4.perspective (radians 90) ((sh.myTextureWidth : GLfloat) / (sh.aspectHeight : GLfloat))
        sh.myNearPlane sh.myFarPlane ∧
    (sh.myTextureHeight = 0 →
      sh.aspectHeight = 1 ∧
      sh.GetShadowProjectionMatrix =
        Mat4.perspective (radians 90) ((sh.myTextureWidth : GLfloat) / 1) sh.myNearPlane sh.myFarPlane) ∧
    (sh.myTextureHeight ≠ 0 →
      sh.aspectHeight = sh.myTextureHeight ∧
      sh.GetShadowProjectionMatrix =
        Mat4.perspective (radians 90) ((sh.myTextureWidth : GLfloat) / (sh.myTextureHeight : GLfloat))
          sh.myNearPlane sh.myFarPlane) := by
  refine ⟨?_, rfl, ?_, ?_⟩
  · unfold PBRViewerShadows.aspectHeight
    split_ifs with h
    · exact one_ne_zero
    · exact fun h0 => h h0.symm
  · intro h0
    have ha : sh.aspectHeight = 1 := by
      unfold PBRViewerShadows.aspectHeight
      rw [if_pos h0.symm]
    refine ⟨ha, ?_⟩
    unfold PBRViewerShadows.GetShadowProjectionMatrix
    rw [ha]
    simp
  · intro h0
    have ha : sh.aspectHeight = sh.myTextureHeight := by
      unfold PBRViewerShadows.aspectHeight
      rw [if_neg (fun h => h0 h.symm)]
    refine ⟨ha, ?_⟩
    unfold PBRViewerShadows.GetShadowProjectionMatrix
    rw [ha]

/-- C18 at concrete sizes: a shadow set 4096 wide and 0 high gets the aspect ratio 4096,
and one 4096 wide and 2048 high gets the aspect ratio 2. -/
theorem C18_shadow_projection_aspect_witness :
    ({ myTextureWidth := 4096, myTextureHeight := 0 } : PBRViewerShadows).aspectHeight = 1 ∧
    ({ myTextureWidth := 4096, myTextureHeight := 2048 } : PBRViewerShadows).aspectHeight = 2048 :=
  ⟨((C18_shadow_projection_aspect { myTextureWidth := 4096, myTextureHeight := 0 }).2.2.1 rfl).1,
   ((C18_shadow_projection_aspect { myTextureWidth := 4096, myTextureHeight := 2048 }).2.2.2
      (by decide)).1⟩

/-- C19: when the shadow set has no framebuffers, as after its construction or after
CreateSelfShadowingTextures with n = 0, CalculateSelfShadowing only logs an error: its
record holds no draw call and no clear, and leaves the viewport, the cull-face mode, the
program in use and the bound framebuffer as they were, for every viewport size and light
vector. -/
theorem C19_no_framebuffers_no_rendering (sh : PBRViewerShadows) (scene : PBRViewerScene)
    (vw vh : GLuint) (lightSources : List PBRViewerPointLight)
    (hempty : sh.myFramebufferObjects = []) :
    sh.CalculateSelfShadowing scene vw vh lightSources =
      some [Call.PrintErrorMessage
        "It is not possible to calculate self-shading without having created the appropriate texture beforehand."] ∧
    (∀ calls, sh.CalculateSelfShadowing scene vw vh lightSources = some calls →
      (∀ s : FrameState, frameStateAfter s calls = s) ∧
      (∀ s : FrameState, drawStates s calls = []) ∧
      (∀ c ∈ calls, c.writesDepth = false) ∧
      (∀ mask, Call.glClear mask ∉ calls)) ∧
    (∀ near far : GLfloat, (PBRViewerShadows.new near far).myFramebufferObjects = []) ∧
    (∀ (w h : GLuint) (d : Driver),
      (sh.CreateSelfShadowingTextures 0 w h d).result.2.myFramebufferObjects = []) := by
  have hres : sh.CalculateSelfShadowing scene vw vh lightSources =
      some [Call.PrintErrorMessage
        "It is not possible to calculate self-shading without having created the appropriate texture beforehand."] := by
    unfold PBRViewerShadows.CalculateSelfShadowing
    rw [hempty]
    rfl
  refine ⟨hres, ?_, fun _ _ => rfl, fun _ _ _ => rfl⟩
  intro calls hc
  rw [hres] at hc
  cases Option.some.inj hc
  refine ⟨fun _ => rfl, fun _ => rfl, ?_, ?_⟩
  · intro c hcm
    simp only [List.mem_singleton] at hcm
    subst hcm
    rfl
  · intro mask hcm
    simp at hcm

/-- C19 at a concrete shadow set: a freshly constructed shadow set only logs the error. -/
theorem C19_no_framebuffers_no_rendering_witness :
    (PBRViewerShadows.new).CalculateSelfShadowing sampleScene 1536 864 litModel.myLightSources =
      some [Call.PrintErrorMessage
        "It is not possible to calculate self-shading without having created the appropriate texture beforehand."] :=
  (C19_no_framebuffers_no_rendering (PBRViewerShadows.new) sampleScene 1536 864 litModel.myLightSources rfl).1


/-! ## Shadow textures and framebuffers -/

/-- The calls that create the depth textures attach nothing to a framebuffer. -/
theorem depthAttachments_DepthTextures (w h : GLuint) (names : List GLuint) (bound : GLuint)
    (rest : List Call) :
    depthAttachments bound (names.flatMap (PBRViewerShadows.DepthTexture w h) ++ rest) =
      depthAttachments bound rest := by
  induction names with
  | nil => rfl
  | cons name names ih =>
    simp only [List.flatMap_cons, List.append_assoc]
    simpa [PBRViewerShadows.DepthTexture, depthAttachments] using ih

/-- The loop of CreateShadowFrameBuffers attaches the textures, in order, to the
framebuffers it generates. -/
theorem depthAttachments_ShadowFrameBuffers (textures : List PBRViewerTexture) :
    ∀ start bound : GLuint,
      depthAttachments bound (PBRViewerShadows.ShadowFrameBuffers start textures ++
          [Call.glBindFramebuffer .GL_FRAMEBUFFER 0]) =
        List.zip (List.range' start textures.length) (textures.map fun t => t.ID) := by
  induction textures with
  | nil => intro start bound; rfl
  | cons t rest ih =>
    intro start bound
    have hstep : depthAttachments bound (PBRViewerShadows.ShadowFrameBuffers start (t :: rest) ++
          [Call.glBindFramebuffer .GL_FRAMEBUFFER 0]) =
        (start, t.ID) :: depthAttachments start (PBRViewerShadows.ShadowFrameBuffers (start + 1) rest ++
          [Call.glBindFramebuffer .GL_FRAMEBUFFER 0]) := rfl
    rw [hstep, ih (start + 1) start]
    simp only [List.length_cons, List.map_cons, List.range'_succ, List.zip_cons_cons]

/-- C17: CreateSelfShadowingTextures(n, w, h) returns n textures of the type
"textureShadows" and leaves the shadow set with n framebuffers, the depth attachments
made being framebuffer i with texture i for every i below n, and with the width w and the
height h. -/
theorem C17_shadow_textures_and_framebuffers (sh : PBRViewerShadows) (n w h : GLuint) (d : Driver) :
    (sh.CreateSelfShadowingTextures n w h d).result.1.length = n ∧
    (∀ t ∈ (sh.CreateSelfShadowingTextures n w h d).result.1, t.TextureType = "textureShadows") ∧
    (sh.CreateSelfShadowingTextures n w h d).result.2.myFramebufferObjects.length = n ∧
    (sh.CreateSelfShadowingTextures n w h d).result.2.myTextures =
      (sh.CreateSelfShadowingTextures n w h d).result.1 ∧
    (∀ bound, depthAttachments bound (sh.CreateSelfShadowingTextures n w h d).calls =
      List.zip (sh.CreateSelfShadowingTextures n w h d).result.2.myFramebufferObjects
        ((sh.CreateSelfShadowingTextures n w h d).result.1.map fun t => t.ID)) ∧
    (∀ i, i < n → ∃ framebuffer texture,
      (sh.CreateSelfShadowingTextures n w h d).result.2.myFramebufferObjects[i]? = some framebuffer ∧
      (sh.CreateSelfShadowingTextures n w h d).result.1[i]? = some texture ∧
      (depthAttachments 0 (sh.CreateSelfShadowingTextures n w h d).calls)[i]? =
        some (framebuffer, texture.ID)) ∧
    (sh.CreateSelfShadowingTextures n w h d).result.2.myFramebufferObjects.Nodup ∧
    ((sh.CreateSelfShadowingTextures n w h d).result.1.map fun t => t.ID).Nodup ∧
    (sh.CreateSelfShadowingTextures n w h d).result.2.GetTextureWidth = w ∧
    (sh.CreateSelfShadowingTextures n w h d).result.2.GetTextureHeight = h := by
  have hlen : (sh.CreateSelfShadowingTextures n w h d).result.1.length = n := by
    simp [PBRViewerShadows.CreateSelfShadowingTextures, PBRViewerShadows.CreateDepthTextures]
  have hfl : (sh.CreateSelfShadowingTextures n w h d).result.2.myFramebufferObjects.length = n := by
    simp [PBRViewerShadows.CreateSelfShadowingTextures, PBRViewerShadows.CreateDepthTextures,
      PBRViewerShadows.CreateShadowFrameBuffers]
  have hatt : ∀ bound, depthAttachments bound (sh.CreateSelfShadowingTextures n w h d).calls =
      List.zip (sh.CreateSelfShadowingTextures n w h d).result.2.myFramebufferObjects
        ((sh.CreateSelfShadowingTextures n w h d).result.1.map fun t => t.ID) := by
    intro bound
    simp only [PBRViewerShadows.CreateSelfShadowingTextures, PBRViewerShadows.CreateDepthTextures,
      PBRViewerShadows.CreateShadowFrameBuffers, List.append_assoc]
    rw [depthAttachments_DepthTextures]
    simp only [List.singleton_append, depthAttachments]
    exact depthAttachments_ShadowFrameBuffers _ _ _
  refine ⟨hlen, ?_, hfl, rfl, hatt, ?_, ?_, ?_, rfl, rfl⟩
  · intro t ht
    simp only [PBRViewerShadows.CreateSelfShadowingTextures, PBRViewerShadows.CreateDepthTextures,
      List.mem_map] at ht
    obtain ⟨name, -, rfl⟩ := ht
    rfl
  · intro i hi
    have h1 : i < (sh.CreateSelfShadowingTextures n w h d).result.2.myFramebufferObjects.length := by
      rw [hfl]; exact hi
    have h2 : i < (sh.CreateSelfShadowingTextures n w h d).result.1.length := by
      rw [hlen]; exact hi
    refine ⟨(sh.CreateSelfShadowingTextures n w h d).result.2.myFramebufferObjects[i],
      (sh.CreateSelfShadowingTextures n w h d).result.1[i],
      List.getElem?_eq_getElem h1, List.getElem?_eq_getElem h2, ?_⟩
    rw [hatt 0, List.getElem?_eq_getElem (by simp [h1, h2])]
    simp
  · simp only [PBRViewerShadows.CreateSelfShadowingTextures, PBRViewerShadows.CreateShadowFrameBuffers]
    exact List.nodup_range' _ _
  · simp only [PBRViewerShadows.CreateSelfShadowingTextures, PBRViewerShadows.CreateDepthTextures,
      List.map_map]
    have : ((fun t : PBRViewerTexture => t.ID) ∘ fun depthMap : GLuint =>
        ({ ID := depthMap, TextureType := "textureShadows" } : PBRViewerTexture)) = id := rfl
    rw [this, List.map_id]
    exact List.nodup_range' _ _


/-! ## The shadow pass: frame settings -/

/-- The frame settings after two records in a row. -/
theorem frameStateAfter_append (s : FrameState) (a b : List Call) :
    frameStateAfter s (a ++ b) = frameStateAfter (frameStateAfter s a) b :=
  List.foldl_append _ _ _ _

/-- A draw call of a record runs under the settings in effect as the record begins, or it
is a draw call of the record after its first call. -/
theorem drawStates_cons_mem (s st : FrameState) (c : Call) (rest : List Call)
    (h : st ∈ drawStates s (c :: rest)) : st = s ∨ st ∈ drawStates (s.after c) rest := by
  cases c <;> simp only [drawStates, List.mem_cons] at h <;>
    first
    | exact Or.inr h
    | exact h

/-- The draw calls of two records in a row. -/
theorem drawStates_append (a b : List Call) :
    ∀ s : FrameState, drawStates s (a ++ b) = drawStates s a ++ drawStates (frameStateAfter s a) b := by
  induction a with
  | nil => intro s; rfl
  | cons c a ih =>
    intro s
    cases c <;>
      simp only [List.cons_append, drawStates, frameStateAfter, List.foldl_cons, FrameState.after,
        List.cons.injEq, true_and] <;>
      exact ih _

/-- A record whose calls leave the viewport and the cull-face mode alone ends with the
viewport and the cull-face mode it began with, and all its draw calls run under them. -/
theorem frame_kept (calls : List Call) :
    (∀ c ∈ calls, ∀ s : FrameState,
      (s.after c).viewport = s.viewport ∧ (s.after c).cullFace = s.cullFace) →
    ∀ s : FrameState,
      ((frameStateAfter s calls).viewport = s.viewport ∧
        (frameStateAfter s calls).cullFace = s.cullFace) ∧
      ∀ st ∈ drawStates s calls, st.viewport = s.viewport ∧ st.cullFace = s.cullFace := by
  induction calls with
  | nil => intro _ s; exact ⟨⟨rfl, rfl⟩, fun st hst => by simp [drawStates] at hst⟩
  | cons c rest ih =>
    intro hall s
    have hc := hall c (List.mem_cons_self _ _) s
    have hrest := ih (fun c hc => hall c (List.mem_cons_of_mem _ hc)) (s.after c)
    refine ⟨⟨hrest.1.1.trans hc.1, hrest.1.2.trans hc.2⟩, ?_⟩
    intro st hst
    rcases drawStates_cons_mem s st c rest hst with h | h
    · subst h; exact ⟨rfl, rfl⟩
    · exact ⟨(hrest.2 st h).1.trans hc.1, (hrest.2 st h).2.trans hc.2⟩

/-- A mesh call leaves the viewport and the cull-face mode alone. -/
theorem meshCall_frame (c : Call) (hc : c.isMeshCall = true) (s : FrameState) :
    (s.after c).viewport = s.viewport ∧ (s.after c).cullFace = s.cullFace := by
  cases c <;> first | exact ⟨rfl, rfl⟩ | exact absurd hc (by simp [Call.isMeshCall])

/-- One shadow pass leaves the viewport and the cull-face mode alone. -/
theorem ShadowPass_frame (sh : PBRViewerShadows) (scene : PBRViewerScene)
    (lightSources : List PBRViewerPointLight) (i : Nat) (framebuffer : GLuint) (pass : List Call)
    (h : sh.ShadowPass scene lightSources i framebuffer = some pass) :
    ∀ c ∈ pass, ∀ s : FrameState,
      (s.after c).viewport = s.viewport ∧ (s.after c).cullFace = s.cullFace := by
  obtain ⟨light, -, rfl⟩ := ShadowPass_eq_some sh scene lightSources i framebuffer pass h
  intro c hc s
  simp only [List.mem_append, List.mem_cons, List.mem_singleton, List.mem_nil_iff, or_false] at hc
  rcases hc with (h1 | h1) | h2
  · subst h1; exact ⟨rfl, rfl⟩
  · subst h1; exact ⟨rfl, rfl⟩
  · split_ifs at h2 with hact
    · simp at h2
    · simp only [List.mem_append, List.mem_cons, List.mem_singleton, List.mem_nil_iff,
        or_false] at h2
      rcases h2 with (h3 | h3) | h3
      · subst h3; exact ⟨rfl, rfl⟩
      · subst h3; exact ⟨rfl, rfl⟩
      · exact meshCall_frame c (SceneDraw_calls scene sh.myShadowShader c h3).1 s

/-- The pass loop leaves the viewport and the cull-face mode alone. -/
theorem ShadowPasses_frame (sh : PBRViewerShadows) (scene : PBRViewerScene)
    (lightSources : List PBRViewerPointLight) (framebuffers : List GLuint) :
    ∀ (start : Nat) (passes : List Call),
      sh.ShadowPasses scene lightSources start framebuffers = some passes →
      ∀ c ∈ passes, ∀ s : FrameState,
        (s.after c).viewport = s.viewport ∧ (s.after c).cullFace = s.cullFace := by
  induction framebuffers with
  | nil =>
    intro start passes h c hc
    simp only [PBRViewerShadows.ShadowPasses, Option.some.injEq] at h
    subst h
    simp at hc
  | cons f rest ih =>
    intro start calls h c hc
    obtain ⟨pass, passes, h1, h2, rfl⟩ := ShadowPasses_cons sh scene lightSources start f rest calls h
    rcases List.mem_append.mp hc with hp | hp
    · exact ShadowPass_frame sh scene lightSources start f pass h1 c hp
    · exact ih (start + 1) passes h2 c hp

/-- The pass loop returns when the light vector has an entry for every framebuffer. -/
theorem ShadowPasses_returns (sh : PBRViewerShadows) (scene : PBRViewerScene)
    (lightSources : List PBRViewerPointLight) (framebuffers : List GLuint) :
    ∀ start : Nat, start + framebuffers.length ≤ lightSources.length →
      ∃ passes, sh.ShadowPasses scene lightSources start framebuffers = some passes := by
  induction framebuffers with
  | nil => intro start _; exact ⟨[], rfl⟩
  | cons f rest ih =>
    intro start hlen
    simp only [List.length_cons] at hlen
    obtain ⟨passes, hp⟩ := ih (start + 1) (by omega)
    have hlt : start < lightSources.length := by omega
    have hpass : ∃ pass, sh.ShadowPass scene lightSources start f = some pass := by
      unfold PBRViewerShadows.ShadowPass
      rw [List.getElem?_eq_getElem hlt]
      simp only
      split_ifs
      · exact ⟨_, rfl⟩
      · exact ⟨_, rfl⟩
    obtain ⟨pass, hpass⟩ := hpass
    exact ⟨pass ++ passes, by simp only [PBRViewerShadows.ShadowPasses, hpass, hp]⟩

/-- CalculateSelfShadowing returns when the light vector has an entry for every
framebuffer. -/
theorem CalculateSelfShadowing_returns (sh : PBRViewerShadows) (scene : PBRViewerScene)
    (vw vh : GLuint) (lightSources : List PBRViewerPointLight)
    (hlen : sh.myFramebufferObjects.length ≤ lightSources.length) :
    ∃ calls, sh.CalculateSelfShadowing scene vw vh lightSources = some calls := by
  obtain ⟨passes, hp⟩ := ShadowPasses_returns sh scene lightSources sh.myFramebufferObjects 0
    (by omega)
  unfold PBRViewerShadows.CalculateSelfShadowing
  split_ifs
  · exact ⟨_, rfl⟩
  · rw [hp]
    exact ⟨_, rfl⟩

/-- C20: a CalculateSelfShadowing call with allocated framebuffers, made while the
cull-face mode is back-face culling, returns when the light vector has an entry for every
framebuffer; each of its draw calls runs with the viewport glViewport receives for
(0, 0, textureWidth, textureHeight) and with front-face culling; on return the viewport is
the one glViewport receives for (0, 0, vw, vh), the cull-face mode is the one in effect
before the call and framebuffer 0 is bound. A size below 2^31 is received as it is. -/
theorem C20_shadow_pass_frame_settings (sh : PBRViewerShadows) (scene : PBRViewerScene)
    (vw vh : GLuint) (lightSources : List PBRViewerPointLight) (before : FrameState)
    (hne : sh.myFramebufferObjects ≠ [])
    (hlen : sh.myFramebufferObjects.length ≤ lightSources.length)
    (hcull : before.cullFace = some GLenum.GL_BACK) :
    ∃ calls, sh.CalculateSelfShadowing scene vw vh lightSources = some calls ∧
      (∀ st ∈ drawStates before calls,
        st.viewport = some (0, 0, sh.GetTextureWidth.toGLint, sh.GetTextureHeight.toGLint) ∧
        st.cullFace = some GLenum.GL_FRONT) ∧
      (frameStateAfter before calls).viewport = some (0, 0, vw.toGLint, vh.toGLint) ∧
      (frameStateAfter before calls).cullFace = before.cullFace ∧
      (frameStateAfter before calls).framebuffer = some 0 ∧
      (∀ size : GLuint, size < 2 ^ 31 → size.toGLint = (size : Int)) := by
  obtain ⟨calls, hcalls⟩ := CalculateSelfShadowing_returns sh scene vw vh lightSources hlen
  obtain ⟨passes, hp, rfl⟩ :=
    CalculateSelfShadowing_eq_some sh scene vw vh lightSources calls hne hcalls
  have hkept := frame_kept passes (ShadowPasses_frame sh scene lightSources _ 0 passes hp)
  refine ⟨_, hcalls, ?_, ?_, ?_, ?_, ?_⟩
  · intro st hst
    rw [List.append_assoc, drawStates_append, drawStates_append] at hst
    rcases List.mem_append.mp hst with h | h
    · simp [drawStates] at h
    · rcases List.mem_append.mp h with h | h
      · exact (hkept _).2 st h
      · simp [drawStates] at h
  · rw [frameStateAfter_append]; rfl
  · rw [frameStateAfter_append, hcull]; rfl
  · rw [frameStateAfter_append]; rfl
  · intro size hsize
    have h32 : size < 2 ^ 32 := lt_trans hsize (by norm_num)
    rw [toGLint_of_lt size h32, if_pos hsize]

/-- C20 at a concrete frame: the shadow set of four 64 by 64 depth maps, the lights 0, 1
and 3 switched on, a window of 1536 by 864 and back-face culling in effect. -/
theorem C20_shadow_pass_frame_settings_witness :
    ∃ calls, sampleShadows.CalculateSelfShadowing sampleScene 1536 864 scenarioLights = some calls ∧
      (∀ st ∈ drawStates { cullFace := some GLenum.GL_BACK } calls,
        st.viewport = some (0, 0, sampleShadows.GetTextureWidth.toGLint,
          sampleShadows.GetTextureHeight.toGLint) ∧
        st.cullFace = some GLenum.GL_FRONT) ∧
      (frameStateAfter { cullFace := some GLenum.GL_BACK } calls).viewport =
        some (0, 0, GLuint.toGLint 1536, GLuint.toGLint 864) ∧
      (frameStateAfter { cullFace := some GLenum.GL_BACK } calls).cullFace = some GLenum.GL_BACK ∧
      (frameStateAfter { cullFace := some GLenum.GL_BACK } calls).framebuffer = some 0 ∧
      (∀ size : GLuint, size < 2 ^ 31 → size.toGLint = (size : Int)) :=
  C20_shadow_pass_frame_settings sampleShadows sampleScene 1536 864 scenarioLights
    { cullFace := some GLenum.GL_BACK } (by decide) (by decide) rfl


/-! ## The shadow pass: what is written to a framebuffer -/

/-- Binding a framebuffer replaces the bound one. -/
theorem depthWrites_bind (f bound : GLuint) (target : GLenum) (framebuffer : GLuint) (rest : List Call) :
    depthWrites f bound (Call.glBindFramebuffer target framebuffer :: rest) =
      depthWrites f framebuffer rest := by
  simp only [depthWrites]

/-- A record that binds no framebuffer writes nothing to a framebuffer that is not bound. -/
theorem depthWrites_other (f bound : GLuint) (hb : bound ≠ f) (calls rest : List Call)
    (hcalls : ∀ c ∈ calls, ∀ target framebuffer, c ≠ Call.glBindFramebuffer target framebuffer) :
    depthWrites f bound (calls ++ rest) = depthWrites f bound rest := by
  induction calls with
  | nil => rfl
  | cons c calls ih =>
    have hc := hcalls c (List.mem_cons_self _ _)
    have ih1 := ih (fun c hc => hcalls c (List.mem_cons_of_mem _ hc))
    cases c <;>
      first
      | exact absurd rfl (hc _ _)
      | (simp only [List.cons_append, depthWrites, hb, false_and, if_false]; exact ih1)

/-- A mesh call binds no framebuffer. -/
theorem meshCall_ne_bind (c : Call) (hc : c.isMeshCall = true) (target : GLenum) (framebuffer : GLuint) :
    c ≠ Call.glBindFramebuffer target framebuffer := by
  intro h
  subst h
  simp [Call.isMeshCall] at hc

/-- A shadow pass into a framebuffer other than f writes nothing to f and leaves that
other framebuffer bound. -/
theorem depthWrites_ShadowPass_other (sh : PBRViewerShadows) (scene : PBRViewerScene)
    (lightSources : List PBRViewerPointLight) (i : Nat) (framebuffer f : GLuint) (pass : List Call)
    (h : sh.ShadowPass scene lightSources i framebuffer = some pass) (hf : framebuffer ≠ f)
    (bound : GLuint) (rest : List Call) :
    depthWrites f bound (pass ++ rest) = depthWrites f framebuffer rest := by
  obtain ⟨light, -, rfl⟩ := ShadowPass_eq_some sh scene lightSources i framebuffer pass h
  simp only [List.cons_append, List.nil_append, List.append_assoc, depthWrites_bind]
  simp only [depthWrites, hf, false_and, if_false]
  split_ifs with hact
  · rfl
  · apply depthWrites_other f framebuffer hf
    intro c hc target fb
    simp only [List.mem_append, List.mem_cons, List.mem_singleton, List.mem_nil_iff,
      or_false] at hc
    rcases hc with h1 | h1 | h1
    · subst h1; exact fun h => Call.noConfusion h
    · subst h1; exact fun h => Call.noConfusion h
    · exact meshCall_ne_bind c (SceneDraw_calls scene sh.myShadowShader c h1).1 target fb

/-- The pass loop over framebuffers other than f, followed by the binding of the default
framebuffer, writes nothing to f. -/
theorem depthWrites_ShadowPasses_other (sh : PBRViewerShadows) (scene : PBRViewerScene)
    (lightSources : List PBRViewerPointLight) (f : GLuint) (framebuffers : List GLuint) :
    ∀ (start : Nat) (passes : List Call),
      sh.ShadowPasses scene lightSources start framebuffers = some passes → f ∉ framebuffers →
      ∀ (bound : GLuint) (rest : List Call),
        depthWrites f bound (passes ++ Call.glBindFramebuffer .GL_FRAMEBUFFER 0 :: rest) =
          depthWrites f 0 rest := by
  induction framebuffers with
  | nil =>
    intro start passes h _ bound rest
    simp only [PBRViewerShadows.ShadowPasses, Option.some.injEq] at h
    subst h
    exact depthWrites_bind f bound _ 0 rest
  | cons fb others ih =>
    intro start calls h hf bound rest
    obtain ⟨pass, passes, h1, h2, rfl⟩ := ShadowPasses_cons sh scene lightSources start fb others calls h
    have hne : fb ≠ f := fun he => hf (he ▸ List.mem_cons_self _ _)
    rw [List.append_assoc, depthWrites_ShadowPass_other sh scene lightSources start fb f pass h1 hne]
    exact ih (start + 1) passes h2 (fun hm => hf (List.mem_cons_of_mem _ hm)) fb rest

/-- The pass loop over distinct framebuffers, followed by the binding of the default
framebuffer, writes the framebuffer of a slot whose light is switched off exactly once:
the depth clear. -/
theorem depthWrites_ShadowPasses_inactive (sh : PBRViewerShadows) (scene : PBRViewerScene)
    (lightSources : List PBRViewerPointLight) (f : GLuint) (framebuffers : List GLuint) :
    ∀ (start k : Nat) (light : PBRViewerPointLight) (passes : List Call),
      sh.ShadowPasses scene lightSources start framebuffers = some passes → framebuffers.Nodup →
      framebuffers[k]? = some f → lightSources[start + k]? = some light →
      light.GetIsActive = false →
      ∀ (bound : GLuint) (rest : List Call),
        depthWrites f bound (passes ++ Call.glBindFramebuffer .GL_FRAMEBUFFER 0 :: rest) =
          Call.glClear [.GL_DEPTH_BUFFER_BIT] :: depthWrites f 0 rest := by
  induction framebuffers with
  | nil => intro start k light passes _ _ hk; simp at hk
  | cons fb others ih =>
    intro start k light calls h hnodup hk hl hact bound rest
    obtain ⟨pass, passes, h1, h2, rfl⟩ := ShadowPasses_cons sh scene lightSources start fb others calls h
    rw [List.nodup_cons] at hnodup
    cases k with
    | zero =>
      simp only [List.getElem?_cons_zero, Option.some.injEq] at hk
      subst hk
      obtain ⟨light1, hl1, rfl⟩ := ShadowPass_eq_some sh scene lightSources start fb pass h1
      rw [Nat.add_zero, hl1] at hl
      cases Option.some.inj hl
      simp only [hact, if_true, List.append_nil, List.cons_append, List.nil_append, depthWrites_bind]
      have hstep : ∀ tail, depthWrites fb fb (Call.glClear [.GL_DEPTH_BUFFER_BIT] :: tail) =
          Call.glClear [.GL_DEPTH_BUFFER_BIT] :: depthWrites fb fb tail := by
        intro tail
        simp [depthWrites, Call.writesDepth]
      rw [hstep, depthWrites_ShadowPasses_other sh scene lightSources fb others (start + 1) passes h2
        hnodup.1 fb rest]
    | succ k =>
      simp only [List.getElem?_cons_succ] at hk
      have hmem : f ∈ others := by
        obtain ⟨hlt, heq⟩ := List.getElem?_eq_some.mp hk
        exact heq ▸ List.getElem_mem hlt
      have hne : fb ≠ f := fun he => hnodup.1 (he ▸ hmem)
      rw [List.append_assoc, depthWrites_ShadowPass_other sh scene lightSources start fb f pass h1 hne]
      have hl2 : lightSources[start + 1 + k]? = some light := by
        rw [← hl]; congr 1; omega
      exact ih (start + 1) k light passes h2 hnodup.2 hk hl2 hact fb rest

/-- C7 as stated fails: with four 64 by 64 depth maps and the light of slot 2 switched
off, CalculateSelfShadowing issues a depth clear while framebuffer 3, the one of slot 2,
is bound, and a depth image rendered into that framebuffer earlier is gone afterwards. -/
theorem C7_inactive_slot_written_counterexample :
    (scenarioLights[2]?.map fun light => light.GetIsActive) = some false ∧
    sampleShadows.myFramebufferObjects[2]? = some 3 ∧
    Call.glClear [.GL_DEPTH_BUFFER_BIT] ∈
      depthWrites 3 0
        ((sampleShadows.CalculateSelfShadowing sampleScene 1536 864 scenarioLights).getD []) ∧
    depthContentAfter 3 0 { cleared := true, draws := [Call.glDrawElements .GL_TRIANGLES 3 .GL_UNSIGNED_INT] }
        ((sampleShadows.CalculateSelfShadowing sampleScene 1536 864 scenarioLights).getD []) ≠
      { cleared := true, draws := [Call.glDrawElements .GL_TRIANGLES 3 .GL_UNSIGNED_INT] } := by
  refine ⟨rfl, rfl, ?_, ?_⟩
  · have h : depthWrites 3 0
        ((sampleShadows.CalculateSelfShadowing sampleScene 1536 864 scenarioLights).getD []) =
        [Call.glClear [.GL_DEPTH_BUFFER_BIT]] := by
      simp [sampleShadows, scenarioLights, sampleScene, PBRViewerShadows.CalculateSelfShadowing,
        PBRViewerShadows.CreateSelfShadowingTextures, PBRViewerShadows.CreateShadowFrameBuffers,
        PBRViewerShadows.CreateDepthTextures, PBRViewerShadows.ShadowPasses,
        PBRViewerShadows.ShadowPass, PBRViewerPointLight.GetIsActive, PBRViewerScene.Draw,
        PBRViewerMesh.Draw, PBRViewerMesh.DrawTextures, depthWrites, Call.writesDepth,
        List.range']
    rw [h]
    exact List.mem_singleton.mpr rfl
  · have h : depthWrites 3 0
        ((sampleShadows.CalculateSelfShadowing sampleScene 1536 864 scenarioLights).getD []) =
        [Call.glClear [.GL_DEPTH_BUFFER_BIT]] := by
      simp [sampleShadows, scenarioLights, sampleScene, PBRViewerShadows.CalculateSelfShadowing,
        PBRViewerShadows.CreateSelfShadowingTextures, PBRViewerShadows.CreateShadowFrameBuffers,
        PBRViewerShadows.CreateDepthTextures, PBRViewerShadows.ShadowPasses,
        PBRViewerShadows.ShadowPass, PBRViewerPointLight.GetIsActive, PBRViewerScene.Draw,
        PBRViewerMesh.Draw, PBRViewerMesh.DrawTextures, depthWrites, Call.writesDepth,
        List.range']
    unfold depthContentAfter
    rw [h]
    simp [DepthContent.write]

/-- C7, amended: for a shadow set with distinct framebuffers and a light vector with an
entry for every framebuffer, CalculateSelfShadowing returns, and for every slot i whose
light is switched off the only write to framebuffer i is one depth clear: no draw call
is issued while framebuffer i is bound, and its depth image afterwards is the cleared
one, whatever it was before. -/
theorem C7_inactive_slot_is_cleared_not_drawn (sh : PBRViewerShadows) (scene : PBRViewerScene)
    (vw vh : GLuint) (lightSources : List PBRViewerPointLight) (i : Nat)
    (light : PBRViewerPointLight) (f : GLuint)
    (hnodup : sh.myFramebufferObjects.Nodup)
    (hlen : sh.myFramebufferObjects.length ≤ lightSources.length)
    (hf : sh.myFramebufferObjects[i]? = some f) (hl : lightSources[i]? = some light)
    (hact : light.GetIsActive = false) :
    ∃ calls, sh.CalculateSelfShadowing scene vw vh lightSources = some calls ∧
      (∀ bound, depthWrites f bound calls = [Call.glClear [.GL_DEPTH_BUFFER_BIT]]) ∧
      (∀ bound content, depthContentAfter f bound content calls = { cleared := true, draws := [] }) := by
  obtain ⟨calls, hcalls⟩ := CalculateSelfShadowing_returns sh scene vw vh lightSources hlen
  have hne : sh.myFramebufferObjects ≠ [] := by
    intro he
    rw [he] at hf
    simp at hf
  obtain ⟨passes, hp, rfl⟩ :=
    CalculateSelfShadowing_eq_some sh scene vw vh lightSources calls hne hcalls
  have hw : ∀ bound, depthWrites f bound
      ([Call.glCullFace .GL_FRONT,
         Call.glViewport 0 0 sh.myTextureWidth.toGLint sh.myTextureHeight.toGLint,
         Call.Use sh.myShadowShader] ++
        passes ++
        [Call.glBindFramebuffer .GL_FRAMEBUFFER 0,
         Call.glViewport 0 0 vw.toGLint vh.toGLint,
         Call.glCullFace .GL_BACK]) = [Call.glClear [.GL_DEPTH_BUFFER_BIT]] := by
    intro bound
    have hl0 : lightSources[0 + i]? = some light := by rw [Nat.zero_add]; exact hl
    have hmid := depthWrites_ShadowPasses_inactive sh scene lightSources f sh.myFramebufferObjects
      0 i light passes hp hnodup hf hl0 hact bound
      [Call.glViewport 0 0 vw.toGLint vh.toGLint, Call.glCullFace .GL_BACK]
    have hhead : ∀ tail, depthWrites f bound
        ([Call.glCullFace .GL_FRONT,
          Call.glViewport 0 0 sh.myTextureWidth.toGLint sh.myTextureHeight.toGLint,
          Call.Use sh.myShadowShader] ++ tail) = depthWrites f bound tail := by
      intro tail
      simp [depthWrites, Call.writesDepth]
    rw [List.append_assoc, hhead]
    simp only [List.singleton_append] at hmid ⊢
    rw [hmid]
    simp [depthWrites, Call.writesDepth]
  refine ⟨_, hcalls, hw, ?_⟩
  intro bound content
  unfold depthContentAfter
  rw [hw bound]
  rfl

/-- C7, amended, at a concrete frame: four 64 by 64 depth maps, the light of slot 2
switched off; framebuffer 3 is the one of slot 2. -/
theorem C7_inactive_slot_is_cleared_not_drawn_witness :
    ∃ calls, sampleShadows.CalculateSelfShadowing sampleScene 1536 864 scenarioLights = some calls ∧
      (∀ bound, depthWrites 3 bound calls = [Call.glClear [.GL_DEPTH_BUFFER_BIT]]) ∧
      (∀ bound content, depthContentAfter 3 bound content calls = { cleared := true, draws := [] }) :=
  C7_inactive_slot_is_cleared_not_drawn sampleShadows sampleScene 1536 864 scenarioLights 2
    { myPosition := ⟨-1, 1, -1⟩, myIsActive := false, myLightColor := Vec3.splat 5 } 3
    (by decide) (by decide) rfl rfl rfl


/-! ## Skybox loading inside a frame -/

/-- The textures that exist after two records in a row. -/
theorem texturesAlive_append (a b : List Call) :
    ∀ alive : List GLuint, texturesAlive alive (a ++ b) = texturesAlive (texturesAlive alive a) b := by
  induction a with
  | nil => intro alive; rfl
  | cons c a ih =>
    intro alive
    cases c <;> simp only [List.cons_append, texturesAlive] <;> exact ih _

/-- None of the four textures of a skybox exists after its Cleanup. -/
theorem texturesAlive_SkyboxCleanup (sky : PBRViewerSkybox) (alive : List GLuint) (t : GLuint)
    (ht : t = sky.myEnvironmentTexture.ID ∨ t = sky.myIrradianceTexture.ID ∨
      t = sky.myBRDFLookupTexture.ID ∨ t = sky.myPreFilteredEnvironmentMap.ID) :
    t ∉ texturesAlive alive sky.Cleanup := by
  simp only [PBRViewerSkybox.Cleanup, texturesAlive, List.filter_filter, List.mem_filter,
    Bool.and_eq_true, decide_eq_true_eq, not_and]
  intro hmem
  rcases ht with h | h | h | h <;> subst h <;> simp

/-- When Init fails, the textures it generated are the irradiance, the pre-filtered and the
BRDF-lookup texture of the skybox it leaves. -/
theorem Init_failed_generatedTextures (host : Host) (sky : PBRViewerSkybox) (d : Driver)
    (hfail : (PBRViewerSkybox.Init host sky d).result.1 = false) :
    generatedTextures (PBRViewerSkybox.Init host sky d).calls =
      [d.textures + 1, d.textures + 2, d.textures + 3] ∧
    (PBRViewerSkybox.Init host sky d).result.2.myIrradianceTexture.ID = d.textures + 1 ∧
    (PBRViewerSkybox.Init host sky d).result.2.myPreFilteredEnvironmentMap.ID = d.textures + 2 ∧
    (PBRViewerSkybox.Init host sky d).result.2.myBRDFLookupTexture.ID = d.textures + 3 := by
  have hl : host.stbi_loadf sky.myFilepathEnvironmentTexture = none := by
    rw [Init_result] at hfail
    cases hs : host.stbi_loadf sky.myFilepathEnvironmentTexture with
    | none => rfl
    | some img => rw [hs] at hfail; simp at hfail
  have henv : PBRViewerSkybox.LoadEnvironmentTexture host sky d =
      { result := (false, sky), driver := d,
        calls := (PBRViewerSkybox.LoadEquirectangularTexture host sky.myFilepathEnvironmentTexture {} d).calls } := by
    unfold PBRViewerSkybox.LoadEnvironmentTexture PBRViewerSkybox.LoadEquirectangularTexture
    simp [hl]
  refine ⟨?_, ?_, ?_, ?_⟩
  · simp only [PBRViewerSkybox.Init, henv, generatedTextures_append]
    rw [generatedTextures_CreateIrradianceTexture, generatedTextures_CreatePreFilteredEnvironmentMap,
      generatedTextures_CreateBRDFLookupTexture]
    simp [PBRViewerSkybox.LoadEquirectangularTexture, hl, generatedTextures,
      PBRViewerSkybox.CreateIrradianceTexture, PBRViewerSkybox.CreatePreFilteredEnvironmentMap]
  · simp [PBRViewerSkybox.Init, henv, PBRViewerSkybox.CreateIrradianceTexture,
      PBRViewerSkybox.CreatePreFilteredEnvironmentMap, PBRViewerSkybox.CreateBRDFLookupTexture]
  · simp [PBRViewerSkybox.Init, henv, PBRViewerSkybox.CreateIrradianceTexture,
      PBRViewerSkybox.CreatePreFilteredEnvironmentMap, PBRViewerSkybox.CreateBRDFLookupTexture]
  · simp [PBRViewerSkybox.Init, henv, PBRViewerSkybox.CreateIrradianceTexture,
      PBRViewerSkybox.CreatePreFilteredEnvironmentMap, PBRViewerSkybox.CreateBRDFLookupTexture]

/-- The block of a pending scene leaves the request for a skybox as it is. -/
theorem PendingModelStep_skybox_request (newScene : String → Driver → Ran PBRViewerScene)
    (m : PBRViewerModel) (d : Driver) :
    (PBRViewerModel.PendingModelStep newScene m d).result.myNewSkyboxShouldBeLoaded =
        m.myNewSkyboxShouldBeLoaded ∧
    (PBRViewerModel.PendingModelStep newScene m d).result.myNewSkyboxFilepath =
        m.myNewSkyboxFilepath ∧
    (PBRViewerModel.PendingModelStep newScene m d).result.mySkybox = m.mySkybox := by
  unfold PBRViewerModel.PendingModelStep
  split_ifs <;> exact ⟨rfl, rfl, rfl⟩

/-- The block of a pending skybox when Init fails. -/
theorem LoadPendingSkybox_failed (host : Host) (m : PBRViewerModel) (d : Driver)
    (hfail : (PBRViewerSkybox.Init host (PBRViewerSkybox.new m.myNewSkyboxFilepath) d).result.1 = false) :
    PBRViewerModel.LoadPendingSkybox host m d =
      { result := (true, { m with mySkybox := none, myNewSkyboxShouldBeLoaded := false })
        driver := (PBRViewerSkybox.Init host (PBRViewerSkybox.new m.myNewSkyboxFilepath) d).driver
        calls :=
          (match m.mySkybox with
            | some sky => sky.Cleanup
            | none => []) ++
          [Call.Compile (PBRViewerSkybox.new m.myNewSkyboxFilepath).myEquirectangularToCubemapShader] ++
          (PBRViewerSkybox.Init host (PBRViewerSkybox.new m.myNewSkyboxFilepath) d).calls ++
          (PBRViewerSkybox.Init host (PBRViewerSkybox.new m.myNewSkyboxFilepath) d).result.2.Cleanup } := by
  unfold PBRViewerModel.LoadPendingSkybox
  simp only [hfail, if_true]

/-- C15: when PBRViewerSkybox::Init fails during a pending skybox load, DrawOpenGL returns
with no skybox present and the pending-load flag cleared, so that the next frame does not
run the load again; the mesh texture lists are the ones the frame had before the skybox
block, so none of the textures Init generated was added to one; and none of these textures
exists any more after the calls of the frame. -/
theorem C15_failed_skybox_load_is_undone (host : Host)
    (newScene : String → Driver → Ran PBRViewerScene) (statics : PointLightStatics)
    (m : PBRViewerModel) (d : Driver)
    (hpending : m.myNewSkyboxShouldBeLoaded = true)
    (hfail : (PBRViewerSkybox.Init host (PBRViewerSkybox.new m.myNewSkyboxFilepath)
      (PBRViewerModel.PendingModelStep newScene m d).driver).result.1 = false) :
    ∃ frame, PBRViewerModel.DrawOpenGL host newScene statics m d = some frame ∧
      frame.result.mySkybox = none ∧
      frame.result.myNewSkyboxShouldBeLoaded = false ∧
      (∀ driver, PBRViewerModel.PendingSkyboxStep host frame.result driver =
        { result := (false, frame.result), driver := driver, calls := [] }) ∧
      frame.result.myLoadedModel = (PBRViewerModel.PendingModelStep newScene m d).result.myLoadedModel ∧
      generatedTextures (PBRViewerSkybox.Init host (PBRViewerSkybox.new m.myNewSkyboxFilepath)
          (PBRViewerModel.PendingModelStep newScene m d).driver).calls =
        [(PBRViewerModel.PendingModelStep newScene m d).driver.textures + 1,
         (PBRViewerModel.PendingModelStep newScene m d).driver.textures + 2,
         (PBRViewerModel.PendingModelStep newScene m d).driver.textures + 3] ∧
      ∀ alive, ∀ t ∈ generatedTextures (PBRViewerSkybox.Init host
          (PBRViewerSkybox.new m.myNewSkyboxFilepath)
          (PBRViewerModel.PendingModelStep newScene m d).driver).calls,
        t ∉ texturesAlive alive frame.calls := by
  obtain ⟨hflag, hpath, -⟩ := PendingModelStep_skybox_request newScene m d
  rw [← hpath] at hfail ⊢
  obtain ⟨hgen, hirr, hpre, hbrdf⟩ := Init_failed_generatedTextures host
    (PBRViewerSkybox.new (PBRViewerModel.PendingModelStep newScene m d).result.myNewSkyboxFilepath)
    (PBRViewerModel.PendingModelStep newScene m d).driver hfail
  have hstep := LoadPendingSkybox_failed host (PBRViewerModel.PendingModelStep newScene m d).result
    (PBRViewerModel.PendingModelStep newScene m d).driver hfail
  have hstep2 : PBRViewerModel.PendingSkyboxStep host (PBRViewerModel.PendingModelStep newScene m d).result
      (PBRViewerModel.PendingModelStep newScene m d).driver =
      PBRViewerModel.LoadPendingSkybox host (PBRViewerModel.PendingModelStep newScene m d).result
        (PBRViewerModel.PendingModelStep newScene m d).driver := by
    unfold PBRViewerModel.PendingSkyboxStep
    rw [hflag, hpending]
    rfl
  have hreturns : (PBRViewerModel.LoadPendingSkybox host
      (PBRViewerModel.PendingModelStep newScene m d).result
      (PBRViewerModel.PendingModelStep newScene m d).driver).result.1 = true := by
    rw [hstep]
  have hdraw : PBRViewerModel.DrawOpenGL host newScene statics m d =
      some { result := (PBRViewerModel.LoadPendingSkybox host
                (PBRViewerModel.PendingModelStep newScene m d).result
                (PBRViewerModel.PendingModelStep newScene m d).driver).result.2
             driver := (PBRViewerModel.LoadPendingSkybox host
                (PBRViewerModel.PendingModelStep newScene m d).result
                (PBRViewerModel.PendingModelStep newScene m d).driver).driver
             calls := (PBRViewerModel.PendingModelStep newScene m d).calls ++
               (PBRViewerModel.LoadPendingSkybox host
                (PBRViewerModel.PendingModelStep newScene m d).result
                (PBRViewerModel.PendingModelStep newScene m d).driver).calls } := by
    unfold PBRViewerModel.DrawOpenGL
    simp only [hstep2, hreturns, if_true]
  refine ⟨_, hdraw, ?_, ?_, ?_, ?_, hgen, ?_⟩
  · rw [hstep]
  · rw [hstep]
  · intro driver
    unfold PBRViewerModel.PendingSkyboxStep
    rw [hstep]
    simp
  · rw [hstep]
  · intro alive t ht
    rw [hgen] at ht
    simp only [hstep, ← List.append_assoc]
    rw [texturesAlive_append]
    apply texturesAlive_SkyboxCleanup
    simp only [List.mem_cons, List.mem_singleton, List.mem_nil_iff, or_false] at ht
    rcases ht with h | h | h
    · exact Or.inr (Or.inl (h.trans hirr.symm))
    · exact Or.inr (Or.inr (Or.inr (h.trans hpre.symm)))
    · exact Or.inr (Or.inr (Or.inl (h.trans hbrdf.symm)))

/-- C15 at a concrete frame: a scene is loaded, a skybox is requested from a file that
does not decode; Init generates the textures 5, 6 and 7 and the frame deletes them. -/
theorem C15_failed_skybox_load_is_undone_witness :
    ∃ frame, PBRViewerModel.DrawOpenGL missingFileHost sampleImport sampleStatics
        skyboxPending.1 skyboxPending.2 = some frame ∧
      frame.result.mySkybox = none ∧
      frame.result.myNewSkyboxShouldBeLoaded = false ∧
      frame.result.myLoadedModel = skyboxPending.1.myLoadedModel ∧
      ∀ t ∈ [5, 6, 7], t ∉ texturesAlive [4, 3, 2, 1] frame.calls :=
  (C15_failed_skybox_load_is_undone missingFileHost sampleImport sampleStatics
      skyboxPending.1 skyboxPending.2 rfl (by decide)).imp
    fun _ h => ⟨h.1, h.2.1, h.2.2.1, h.2.2.2.2.1,
      fun t ht => h.2.2.2.2.2.2 [4, 3, 2, 1] t (h.2.2.2.2.2.1 ▸ ht)⟩

/-! ## Replacing a skybox, clearing a scene -/

set_option maxRecDepth 100000 in
/-- C14 fails on the code where DrawOpenGL replaces a skybox while a scene is loaded: the
irradiance, pre-filtered and BRDF-lookup textures 7, 8 and 9 of the first skybox are
deleted by the frame that loads the second one, and the mesh of the scene lists them
afterwards all the same, next to the textures 12, 13 and 14 of the second skybox.
ClearSkybox in the same state takes them off the list before it deletes them. -/
theorem C14_replaced_skybox_textures_stay_listed :
    (sceneAndSkyboxLoaded.1.mySkybox.map fun sky =>
      (sky.GetIrradianceTexture.ID, sky.GetPreFilteredEnvironmentMap.ID, sky.GetBRDFLookupTexture.ID)) =
      some (7, 8, 9) ∧
    (sceneAndSkyboxLoaded.1.myLoadedModel.map fun scene => scene.listedTextures) =
      some [1, 2, 3, 4, 7, 8, 9] ∧
    (PBRViewerModel.DrawOpenGL decodingHost sampleImport sampleStatics
      skyboxReplacementPending.1 skyboxReplacementPending.2).isSome = true ∧
    ((frameAfter decodingHost skyboxReplacementPending).1.myLoadedModel.map
      fun scene => scene.listedTextures) = some [1, 2, 3, 4, 7, 8, 9, 12, 13, 14] ∧
    texturesAlive [9, 8, 7, 6, 4, 3, 2, 1] (frameRecord decodingHost skyboxReplacementPending) =
      [14, 13, 12, 11, 4, 3, 2, 1] ∧
    ((PBRViewerModel.ClearSkybox sceneAndSkyboxLoaded.1).map fun cleared =>
      (cleared.1.myLoadedModel.map fun scene => scene.listedTextures,
       texturesAlive [9, 8, 7, 6, 4, 3, 2, 1] cleared.2)) = some (some [1, 2, 3, 4], [4, 3, 2, 1]) := by
  decide

set_option maxRecDepth 100000 in
/-- C16 fails on the code for ClearModel: after a scene was loaded, with the shadow set of
the framebuffers 1 to 4 and the depth textures 1 to 4, ClearModel issues no call and leaves
that shadow set in place while no scene is loaded any more, and the next frame deletes
nothing either. The frame that replaces the scene by a newly loaded one does delete them
and creates the shadow set of the framebuffers 5 to 8. -/
theorem C16_ClearModel_keeps_shadow_set :
    (sceneLoaded.1.myShadows.map fun shadows =>
      (shadows.myFramebufferObjects, shadows.myTextures.map fun texture => texture.ID)) =
      some ([1, 2, 3, 4], [1, 2, 3, 4]) ∧
    ((PBRViewerModel.ClearModel sceneLoaded.1).map fun cleared =>
      (cleared.1.myLoadedModel.isSome,
       cleared.1.myShadows.map fun shadows => shadows.myFramebufferObjects,
       cleared.2)) = some (false, some [1, 2, 3, 4], []) ∧
    (PBRViewerModel.DrawOpenGL decodingHost sampleImport sampleStatics
      sceneCleared.1 sceneCleared.2).isSome = true ∧
    ((frameAfter decodingHost sceneCleared).1.myShadows.map
      fun shadows => shadows.myFramebufferObjects) = some [1, 2, 3, 4] ∧
    framebuffersAlive [4, 3, 2, 1] (frameRecord decodingHost sceneCleared) = [4, 3, 2, 1] ∧
    texturesAlive [4, 3, 2, 1] (frameRecord decodingHost sceneCleared) = [4, 3, 2, 1] ∧
    framebuffersAlive [4, 3, 2, 1] (frameRecord decodingHost sceneReplacementPending) = [8, 7, 6, 5] ∧
    texturesAlive [4, 3, 2, 1] (frameRecord decodingHost sceneReplacementPending) = [8, 7, 6, 5] ∧
    ((frameAfter decodingHost sceneReplacementPending).1.myShadows.map
      fun shadows => shadows.myFramebufferObjects) = some [5, 6, 7, 8] := by
  decide


/-! ## Frames: what the steps of DrawOpenGL change -/

/-- SetLightingShader changes the bound program only. -/
theorem SetLightingShader_members (m : PBRViewerModel) :
    ∃ program, PBRViewerModel.SetLightingShader m = { m with myCurrentLightShader := program } := by
  unfold PBRViewerModel.SetLightingShader
  split_ifs <;> exact ⟨_, rfl⟩

/-- The drawing part of DrawOpenGL leaves the members as they are, apart from the bound
program and, when a scene is loaded, the scene RemoveShadowTexturesFromModel leaves. -/
theorem DrawFrame_members (host : Host) (statics : PointLightStatics) (m drawn : PBRViewerModel)
    (calls : List Call) (h : PBRViewerModel.DrawFrame host statics m = some (drawn, calls)) :
    drawn = m ∨
    ∃ scene, m.myLoadedModel = some scene ∧
      drawn = { PBRViewerModel.SetLightingShader m with
        myLoadedModel := some
          ((PBRViewerModel.SetLightingShader m).RemoveShadowTexturesFromModel scene) } := by
  unfold PBRViewerModel.DrawFrame at h
  cases hs : m.myLoadedModel with
  | none =>
    left
    simp only [hs] at h
    repeat' split at h
    all_goals first
      | exact Option.noConfusion h
      | (injection h with h1; injection h1 with h2 h3; exact h2.symm)
  | some scene =>
    right
    refine ⟨scene, rfl, ?_⟩
    simp only [hs] at h
    repeat' split at h
    all_goals first
      | exact Option.noConfusion h
      | (rename_i hpart _ _
         injection h with h1
         injection h1 with h2 h3
         subst h2
         repeat' split at hpart
         all_goals first
           | exact Option.noConfusion hpart
           | (injection hpart with g1; injection g1 with g2 g3; exact g2.symm))
      | (rename_i hpart _ _ _ _ _ _
         injection h with h1
         injection h1 with h2 h3
         subst h2
         repeat' split at hpart
         all_goals first
           | exact Option.noConfusion hpart
           | (injection hpart with g1; injection g1 with g2 g3; exact g2.symm))



theorem PendingModelStep_lights (newScene : String → Driver → Ran PBRViewerScene) (m : PBRViewerModel)
    (d : Driver) :
    (PBRViewerModel.PendingModelStep newScene m d).result.myLightSources = m.myLightSources := by
  unfold PBRViewerModel.PendingModelStep
  split_ifs <;> rfl

theorem PendingModelStep_shadows (newScene : String → Driver → Ran PBRViewerScene) (m : PBRViewerModel)
    (d : Driver) :
    (PBRViewerModel.PendingModelStep newScene m d).result.myShadows = m.myShadows ∨
    ∃ shadows, (PBRViewerModel.PendingModelStep newScene m d).result.myShadows = some shadows ∧
      shadows.myFramebufferObjects.length = m.myLightSources.length % 2 ^ 32 := by
  unfold PBRViewerModel.PendingModelStep
  split_ifs
  · right
    refine ⟨_, rfl, ?_⟩
    simp [PBRViewerShadows.CreateSelfShadowingTextures, PBRViewerShadows.CreateShadowFrameBuffers,
      PBRViewerShadows.CreateDepthTextures]
  · left; rfl

theorem PendingSkyboxStep_lights (host : Host) (m : PBRViewerModel) (d : Driver) :
    (PBRViewerModel.PendingSkyboxStep host m d).result.2.myLightSources = m.myLightSources ∧
    (PBRViewerModel.PendingSkyboxStep host m d).result.2.myShadows = m.myShadows ∧
    (PBRViewerModel.PendingSkyboxStep host m d).result.2.myShadowDepthCubeMaps =
      m.myShadowDepthCubeMaps := by
  unfold PBRViewerModel.PendingSkyboxStep
  split_ifs
  · simp only [PBRViewerModel.LoadPendingSkybox]
    split_ifs <;> exact ⟨rfl, rfl, rfl⟩
  · exact ⟨rfl, rfl, rfl⟩

theorem DrawOpenGL_members (host : Host) (newScene : String → Driver → Ran PBRViewerScene)
    (statics : PointLightStatics) (m : PBRViewerModel) (d : Driver) (frame : Ran PBRViewerModel)
    (h : PBRViewerModel.DrawOpenGL host newScene statics m d = some frame) :
    frame.driver = (PBRViewerModel.beforeDrawFrame host newScene (m, d)).2 ∧
    (frame.result = (PBRViewerModel.beforeDrawFrame host newScene (m, d)).1 ∨
      ∃ calls, PBRViewerModel.DrawFrame host statics
        (PBRViewerModel.beforeDrawFrame host newScene (m, d)).1 = some (frame.result, calls)) := by
  unfold PBRViewerModel.DrawOpenGL at h
  unfold PBRViewerModel.beforeDrawFrame
  simp only at h ⊢
  split_ifs at h
  · injection h with h
    subst h
    exact ⟨rfl, Or.inl rfl⟩
  · split at h
    · exact Option.noConfusion h
    · rename_i drawn frameCalls hdraw
      injection h with h
      subst h
      exact ⟨rfl, Or.inr ⟨frameCalls, hdraw⟩⟩

theorem beforeDrawFrame_lights (host : Host) (newScene : String → Driver → Ran PBRViewerScene)
    (s : PBRViewerModel × Driver) :
    (PBRViewerModel.beforeDrawFrame host newScene s).1.myLightSources = s.1.myLightSources ∧
    ((PBRViewerModel.beforeDrawFrame host newScene s).1.myShadows = s.1.myShadows ∨
      ∃ shadows, (PBRViewerModel.beforeDrawFrame host newScene s).1.myShadows = some shadows ∧
        shadows.myFramebufferObjects.length = s.1.myLightSources.length % 2 ^ 32) := by
  unfold PBRViewerModel.beforeDrawFrame
  obtain ⟨h1, h2, _⟩ := PendingSkyboxStep_lights host
    (PBRViewerModel.PendingModelStep newScene s.1 s.2).result
    (PBRViewerModel.PendingModelStep newScene s.1 s.2).driver
  refine ⟨?_, ?_⟩
  · simp only [h1, PendingModelStep_lights]
  · simp only [h2]
    exact PendingModelStep_shadows newScene s.1 s.2

theorem DrawFrame_lights (host : Host) (statics : PointLightStatics) (m drawn : PBRViewerModel)
    (calls : List Call) (h : PBRViewerModel.DrawFrame host statics m = some (drawn, calls)) :
    drawn.myLightSources = m.myLightSources ∧ drawn.myShadows = m.myShadows := by
  rcases DrawFrame_members host statics m drawn calls h with h1 | ⟨scene, _, h1⟩
  · subst h1; exact ⟨rfl, rfl⟩
  · obtain ⟨program, hp⟩ := SetLightingShader_members m
    rw [h1, hp]
    exact ⟨rfl, rfl⟩



/-! ## Texture comparison -/

/-- C21: a == b holds exactly when the two IDs are equal; the type and the file path of
either texture do not enter the result. -/
theorem C21_texture_equality_by_ID (a b : PBRViewerTexture) :
    (a.eq b = true ↔ a.ID = b.ID) ∧
    (a.eq b = false ↔ a.ID ≠ b.ID) ∧
    (∀ type filepath : String,
      PBRViewerTexture.eq { a with TextureType := type, Filepath := filepath } b = a.eq b ∧
      a.eq { b with TextureType := type, Filepath := filepath } = a.eq b) := by
  refine ⟨?_, ?_, fun _ _ => ⟨rfl, rfl⟩⟩
  · simp [PBRViewerTexture.eq]
  · simp [PBRViewerTexture.eq]

/-- C27 fails on the code for two distinct texture objects that hold the same ID: with the
objects at the addresses 0 and 1 and the ID 7 in both, a == b is true and a != b is true
as well, so a != b is not the negation of a == b. On one object, and on objects with
different IDs, the two operators are opposite. -/
theorem C27_same_ID_reported_equal_and_unequal :
    PBRViewerTexture.eq { ID := 7, TextureType := "textureDiffuse" }
      { ID := 7, TextureType := "textureDiffuse" } = true ∧
    PBRViewerTexture.ne 0 { ID := 7, TextureType := "textureDiffuse" }
      1 { ID := 7, TextureType := "textureDiffuse" } = true ∧
    PBRViewerTexture.ne 0 { ID := 7, TextureType := "textureDiffuse" }
        1 { ID := 7, TextureType := "textureDiffuse" } ≠
      !(PBRViewerTexture.eq { ID := 7, TextureType := "textureDiffuse" }
        { ID := 7, TextureType := "textureDiffuse" }) ∧
    PBRViewerTexture.ne 0 { ID := 7 } 0 { ID := 7 } = !(PBRViewerTexture.eq { ID := 7 } { ID := 7 }) ∧
    PBRViewerTexture.ne 0 { ID := 7 } 1 { ID := 8 } = !(PBRViewerTexture.eq { ID := 7 } { ID := 8 }) := by
  decide

/-! ## Light colour -/

/-- C23 fails on the code: SetLightingColor((1, 1, 1)) on the four lights of
CreateLightSources leaves the first light with 5 times the colour, the second with 25
times, the third with 125 times and the fourth with 625 times the colour, because the
parameter is multiplied in place on every pass of the loop. -/
theorem C23_light_colours_differ :
    ((PBRViewerModel.SetLightingColor initialModel ⟨1, 1, 1⟩).myLightSources.map
      fun light => light.GetLightColor) =
      [Vec3.splat 5, Vec3.splat 25, Vec3.splat 125, Vec3.splat 625] ∧
    ((PBRViewerModel.SetLightingColor initialModel ⟨1, 1, 1⟩).myLightSources.map
      fun light => light.GetLightColor) ≠
      [Vec3.splat 5, Vec3.splat 5, Vec3.splat 5, Vec3.splat 5] := by
  have h : ((PBRViewerModel.SetLightingColor initialModel ⟨1, 1, 1⟩).myLightSources.map
      fun light => light.GetLightColor) =
      [Vec3.splat 5, Vec3.splat 25, Vec3.splat 125, Vec3.splat 625] := by
    simp only [PBRViewerModel.SetLightingColor, initialModel, PBRViewerModel.Init, PBRViewerModel.CreateShader,
      PBRViewerModel.CreateLightSources, PBRViewerModel.SetLightingColorLoop, List.nil_append,
      List.map_cons, List.map_nil, PBRViewerPointLight.SetLightColor,
      PBRViewerPointLight.GetLightColor, Vec3.scale, Vec3.splat]
    norm_num
  refine ⟨h, ?_⟩
  rw [h]
  simp only [Vec3.splat, ne_eq, List.cons.injEq, Vec3.mk.injEq, and_true, not_and]
  norm_num


/-! ## Texture lists -/

/-- Erasing at the position findIdx? reports is erasing the first entry that satisfies the
test. -/
theorem eraseIdx_findIdx (p : PBRViewerTexture → Bool) (textures : List PBRViewerTexture) :
    (match textures.findIdx? p with
      | some it => textures.eraseIdx it
      | none => textures) = textures.eraseP p := by
  induction textures with
  | nil => rfl
  | cons t rest ih =>
    by_cases h : p t = true
    · simp [List.findIdx?_cons, h, List.eraseP_cons]
    · simp only [Bool.not_eq_true] at h
      simp only [List.findIdx?_cons, h, Bool.false_eq_true, if_false, List.findIdx?_start_succ,
        List.eraseP_cons, cond_false]
      rw [← ih]
      cases List.findIdx? p rest <;> simp

/-- The list of a mesh after AddTexture. -/
theorem AddTexture_textures (mesh : PBRViewerMesh) (t : PBRViewerTexture) :
    (mesh.AddTexture t).myTextures =
      if ∃ entry ∈ mesh.myTextures, entry.ID = t.ID then mesh.myTextures
      else mesh.myTextures ++ [t] := by
  unfold PBRViewerMesh.AddTexture
  by_cases h : ∃ entry ∈ mesh.myTextures, entry.ID = t.ID
  · have hany : (mesh.myTextures.any fun texture => texture.eq t) = true := by
      simpa [PBRViewerTexture.eq] using h
    rw [if_pos hany, if_pos h]
  · have hany : ¬ (mesh.myTextures.any fun texture => texture.eq t) = true := by
      simpa [PBRViewerTexture.eq] using h
    rw [if_neg hany, if_neg h]

/-- The list of a mesh after RemoveTexture. -/
theorem RemoveTexture_textures (mesh : PBRViewerMesh) (t : PBRViewerTexture) :
    (mesh.RemoveTexture t).myTextures = mesh.myTextures.eraseP fun entry => entry.eq t := by
  rw [← eraseIdx_findIdx]
  unfold PBRViewerMesh.RemoveTexture
  cases List.findIdx? (fun texture => texture.eq t) mesh.myTextures <;> rfl

/-- One call of AddTexture or RemoveTexture keeps the IDs of a list distinct. -/
theorem after_nodup (mesh : PBRViewerMesh) (call : TextureListCall)
    (h : (mesh.myTextures.map fun t => t.ID).Nodup) :
    ((mesh.after call).myTextures.map fun t => t.ID).Nodup := by
  cases call with
  | AddTexture t =>
    simp only [PBRViewerMesh.after, AddTexture_textures]
    split_ifs with hex
    · exact h
    · rw [List.map_append, List.map_singleton]
      refine List.Nodup.append h (List.nodup_singleton _) ?_
      intro id h1 h2
      rw [List.mem_singleton] at h2
      subst h2
      obtain ⟨entry, hentry, hid⟩ := List.mem_map.mp h1
      exact hex ⟨entry, hentry, hid⟩
  | RemoveTexture t =>
    simp only [PBRViewerMesh.after, RemoveTexture_textures]
    exact h.sublist ((List.eraseP_sublist _).map _)

/-- C25: when no two entries of a mesh's texture list have the same ID, none have after
any sequence of AddTexture and RemoveTexture calls. AddTexture(t) leaves the list as it is
when some entry has the ID of t and appends t at the end otherwise; RemoveTexture(t)
removes the first entry that has the ID of t and nothing else, and leaves the list as it
is when no entry has that ID. -/
theorem C25_texture_list_keeps_IDs_distinct (mesh : PBRViewerMesh) (calls : List TextureListCall)
    (hdistinct : (mesh.myTextures.map fun t => t.ID).Nodup) :
    ((mesh.afterAll calls).myTextures.map fun t => t.ID).Nodup ∧
    (∀ (other : PBRViewerMesh) (t : PBRViewerTexture),
      ((∃ entry ∈ other.myTextures, entry.ID = t.ID) → other.AddTexture t = other) ∧
      ((¬ ∃ entry ∈ other.myTextures, entry.ID = t.ID) →
        other.AddTexture t = { other with myTextures := other.myTextures ++ [t] }) ∧
      other.RemoveTexture t =
        { other with myTextures := other.myTextures.eraseP fun entry => entry.ID == t.ID } ∧
      ((¬ ∃ entry ∈ other.myTextures, entry.ID = t.ID) → other.RemoveTexture t = other)) := by
  constructor
  · unfold PBRViewerMesh.afterAll
    induction calls generalizing mesh with
    | nil => exact hdistinct
    | cons call rest ih => exact ih (mesh.after call) (after_nodup mesh call hdistinct)
  · intro other t
    have hremove : other.RemoveTexture t =
        { other with myTextures := other.myTextures.eraseP fun entry => entry.ID == t.ID } := by
      have h := RemoveTexture_textures other t
      unfold PBRViewerMesh.RemoveTexture at h ⊢
      cases hf : List.findIdx? (fun texture => texture.eq t) other.myTextures with
      | none =>
        rw [hf] at h
        simp only at h ⊢
        cases other
        simp only [PBRViewerMesh.mk.injEq, true_and, and_true] at h ⊢
        exact h
      | some it =>
        rw [hf] at h
        simp only at h ⊢
        simp only [PBRViewerMesh.mk.injEq, true_and, and_true]
        exact h
    refine ⟨?_, ?_, hremove, ?_⟩
    · intro hex
      unfold PBRViewerMesh.AddTexture
      have hany : (other.myTextures.any fun texture => texture.eq t) = true := by
        simpa [PBRViewerTexture.eq] using hex
      rw [if_pos hany]
    · intro hex
      unfold PBRViewerMesh.AddTexture
      have hany : ¬ (other.myTextures.any fun texture => texture.eq t) = true := by
        simpa [PBRViewerTexture.eq] using hex
      rw [if_neg hany]
    · intro hex
      rw [hremove]
      have : (other.myTextures.eraseP fun entry => entry.ID == t.ID) = other.myTextures := by
        rw [List.eraseP_eq_self_iff]
        intro a ha hp
        exact hex ⟨a, ha, by simpa using hp⟩
      rw [this]

/-- C25 at a concrete mesh: the list with the IDs 1 and 2, after AddTexture of a second
texture with the ID 2, RemoveTexture of the ID 1 and AddTexture of the ID 3. -/
theorem C25_texture_list_keeps_IDs_distinct_witness :
    (List.map (fun t => t.ID)
      (PBRViewerMesh.afterAll
        { myTextures := [{ ID := 1, TextureType := "textureDiffuse" },
            { ID := 2, TextureType := "textureNormal" }] }
        [.AddTexture { ID := 2, TextureType := "textureShadows" },
         .RemoveTexture { ID := 1 },
         .AddTexture { ID := 3, TextureType := "textureShadows" }]).myTextures).Nodup :=
  (C25_texture_list_keeps_IDs_distinct
    { myTextures := [{ ID := 1, TextureType := "textureDiffuse" },
        { ID := 2, TextureType := "textureNormal" }] }
    [.AddTexture { ID := 2, TextureType := "textureShadows" },
     .RemoveTexture { ID := 1 },
     .AddTexture { ID := 3, TextureType := "textureShadows" }]
    (by decide)).1



/-! ## The gamma slider -/

/-- The text box passes on the value it received, and only a value that is not-a-number or
a number inside the range of the slider; it leaves the range as it is. -/
theorem TextboxCallback_forwards (s : PBRViewerScalarSlider) (enteredValue value : FloatValue)
    (h : (s.TextboxCallback enteredValue).1 = some value) :
    value = enteredValue ∧
      (value = .nan ∨ ∃ v, value = .number v ∧ s.mySlider.range.1 ≤ v ∧ v ≤ s.mySlider.range.2) ∧
      (s.TextboxCallback enteredValue).2.mySlider.range = s.mySlider.range := by
  unfold PBRViewerScalarSlider.TextboxCallback at h ⊢
  split_ifs at h ⊢ with h1 h2
  have hv : enteredValue = value := Option.some.inj h
  subst hv
  refine ⟨rfl, ?_, rfl⟩
  cases enteredValue with
  | nan => exact Or.inl rfl
  | infinity negative =>
    cases negative <;> simp [FloatValue.lt, FloatValue.gt] at h2
  | number v =>
    right
    simp only [FloatValue.lt, FloatValue.gt, Bool.or_eq_true, decide_eq_true_eq, not_or, not_lt] at h2
    exact ⟨v, rfl, h2.1, h2.2⟩

/-- The text box leaves the range of the slider as it is. -/
theorem TextboxCallback_range (s : PBRViewerScalarSlider) (enteredValue : FloatValue) :
    (s.TextboxCallback enteredValue).2.mySlider.range = s.mySlider.range := by
  unfold PBRViewerScalarSlider.TextboxCallback
  split_ifs <;> rfl

/-- In every reachable state of the gamma control the range of the slider is the one of
its construction, and myGamma is not-a-number or a number inside the range: it is never 0
and never an infinity. -/
theorem gamma_invariant (g : GammaControl) (h : GammaReachable g) :
    g.slider.mySlider.range = (1 / 100, 8) ∧
    (g.myGamma = .nan ∨ ∃ v, g.myGamma = .number v ∧ 1 / 100 ≤ v ∧ v ≤ 8) := by
  induction h with
  | constructed =>
    refine ⟨rfl, Or.inr ⟨22 / 10, rfl, ?_, ?_⟩⟩ <;> norm_num
  | sliderMoved g value _ hlow hhigh ih =>
    rw [ih.1] at hlow hhigh
    exact ⟨ih.1, Or.inr ⟨value, rfl, hlow, hhigh⟩⟩
  | textEntered g enteredValue _ ih =>
    simp only [GammaControl.after]
    cases hf : (g.slider.TextboxCallback enteredValue).1 with
    | none =>
      simp only
      exact ⟨(TextboxCallback_range g.slider enteredValue).trans ih.1, ih.2⟩
    | some value =>
      simp only
      obtain ⟨-, hvalue, hrange⟩ := TextboxCallback_forwards g.slider enteredValue value hf
      rw [ih.1] at hvalue
      exact ⟨hrange.trans ih.1, hvalue⟩

/-- DrawModel writes under gamma the number SetGamma stored. -/
theorem SetGamma_written (m : PBRViewerModel) (value : GLfloat) (view projection : Mat4)
    (calls : List Call) (h : (m.SetGamma value).DrawModel view projection = some calls) :
    writesOf "gamma" calls = [.float value] :=
  (general_writes (m.SetGamma value) view projection calls h).2.2.2.1

/-- C26 fails on the code: a text that strtof reads as not-a-number, such as nan, is not
held back by the text box callback, because ==, < and > are all false for not-a-number.
Entered into the text box of the gamma slider right after construction, it is passed to the
callback of the slider and SetGamma stores it, so that myGamma is not-a-number, which is
neither at least 0.01 nor at most 8. Numbers outside the range and the infinity are held
back, and a number inside the range is passed on. -/
theorem C26_not_a_number_reaches_gamma :
    GammaReachable
      (GammaControl.after
        { slider := PBRViewerGraphicSettings.myGammaSlider
          myGamma := .number (PBRViewerModel.Init {}).myGamma }
        (.textEntered .nan)) ∧
    (PBRViewerGraphicSettings.myGammaSlider.TextboxCallback .nan).1 = some .nan ∧
    (GammaControl.after
        { slider := PBRViewerGraphicSettings.myGammaSlider
          myGamma := .number (PBRViewerModel.Init {}).myGamma }
        (.textEntered .nan)).myGamma = .nan ∧
    FloatValue.le (.number (1 / 100))
      (GammaControl.after
        { slider := PBRViewerGraphicSettings.myGammaSlider
          myGamma := .number (PBRViewerModel.Init {}).myGamma }
        (.textEntered .nan)).myGamma = false ∧
    FloatValue.le
      (GammaControl.after
        { slider := PBRViewerGraphicSettings.myGammaSlider
          myGamma := .number (PBRViewerModel.Init {}).myGamma }
        (.textEntered .nan)).myGamma (.number 8) = false ∧
    (PBRViewerGraphicSettings.myGammaSlider.TextboxCallback (.number 0)).1 = none ∧
    (PBRViewerGraphicSettings.myGammaSlider.TextboxCallback (.number 9)).1 = none ∧
    (PBRViewerGraphicSettings.myGammaSlider.TextboxCallback (.infinity false)).1 = none ∧
    (PBRViewerGraphicSettings.myGammaSlider.TextboxCallback (.number 1)).1 = some (.number 1) := by
  refine ⟨GammaReachable.textEntered _ _ GammaReachable.constructed, rfl, rfl, rfl, rfl, ?_, ?_, rfl, ?_⟩
  · simp [PBRViewerScalarSlider.TextboxCallback, PBRViewerGraphicSettings.myGammaSlider,
      PBRViewerScalarSlider.new, FloatValue.eq, FloatValue.lt, FloatValue.gt]
  · simp [PBRViewerScalarSlider.TextboxCallback, PBRViewerGraphicSettings.myGammaSlider,
      PBRViewerScalarSlider.new, FloatValue.eq, FloatValue.lt, FloatValue.gt]
    norm_num
  · simp [PBRViewerScalarSlider.TextboxCallback, PBRViewerGraphicSettings.myGammaSlider,
      PBRViewerScalarSlider.new, FloatValue.eq, FloatValue.lt, FloatValue.gt]
    norm_num

/-! ## Clearing without a skybox or without a scene -/

/-- C30 fails on the code: in the state Init leaves, with no skybox and no scene,
ClearSkybox dereferences the empty mySkybox; after a skybox was loaded and with no scene,
ClearModel dereferences the empty myLoadedModel. Only ClearModel with neither a scene nor a
skybox dereferences nothing, issues no call and leaves both pointers empty. -/
theorem C30_clear_dereferences_empty_pointer :
    initialModel.mySkybox.isSome = false ∧ initialModel.myLoadedModel.isSome = false ∧
    (PBRViewerModel.ClearSkybox initialModel).isSome = false ∧
    skyboxLoaded.1.mySkybox.isSome = true ∧ skyboxLoaded.1.myLoadedModel.isSome = false ∧
    (PBRViewerModel.ClearModel skyboxLoaded.1).isSome = false ∧
    ((PBRViewerModel.ClearModel initialModel).map fun cleared =>
      (cleared.1.myLoadedModel.isSome, cleared.1.mySkybox.isSome, cleared.2)) =
      some (false, false, []) := by
  decide



/-! ## The texture loop of PBRViewerMesh::Draw -/

/-- The entry at the position right after a prefix. -/
theorem getElem?_after_seen (seen : List PBRViewerTexture) (t : PBRViewerTexture)
    (rest : List PBRViewerTexture) : (seen ++ t :: rest)[seen.length]? = some t := by
  rw [List.getElem?_append_right (le_refl _), Nat.sub_self, List.getElem?_cons_zero]

/-- The type index right after a prefix counts the prefix. -/
theorem typeIndex_after_seen (seen : List PBRViewerTexture) (rest : List PBRViewerTexture)
    (type : String) :
    typeIndex (seen ++ rest) seen.length type = seen.countP fun entry => entry.TextureType == type := by
  simp [typeIndex]

/-- One pass of the texture loop: the counters afterwards, the uniform writes and the
bindings of the pass are the expected ones. -/
theorem DrawTexture_expected (shader : PBRViewerShader) (seen : List PBRViewerTexture)
    (t : PBRViewerTexture) (rest : List PBRViewerTexture) (hlen : seen.length < 2 ^ 31) :
    (PBRViewerMesh.DrawTexture shader seen.length t (TextureCounters.after seen)).2 =
      TextureCounters.after (seen ++ [t]) ∧
    uniformWrites (PBRViewerMesh.DrawTexture shader seen.length t (TextureCounters.after seen)).1 =
      expectedWritesAt (seen ++ t :: rest) seen.length ∧
    (∀ unit tail, textureBindings unit
        ((PBRViewerMesh.DrawTexture shader seen.length t (TextureCounters.after seen)).1 ++ tail) =
      expectedBindingsAt (seen ++ t :: rest) seen.length ++ textureBindings seen.length tail) := by
  have hint : GLuint.toGLint seen.length = (seen.length : Int) := by
    have h32 : seen.length < 2 ^ 32 := lt_trans hlen (by norm_num)
    rw [toGLint_of_lt _ h32, if_pos hlen]
  unfold expectedWritesAt expectedBindingsAt
  rw [getElem?_after_seen]
  simp only [typeIndex_after_seen]
  obtain ⟨id, type, filepath⟩ := t
  by_cases h1 : type = "textureDiffuse"
  · subst h1
    simp [PBRViewerMesh.DrawTexture, TextureCounters.after, recognisedTextureTypes, List.lookup,
      uniformWrites, Call.uniform, textureBindings, hint]
  by_cases h2 : type = "textureNormal"
  · subst h2
    simp [PBRViewerMesh.DrawTexture, TextureCounters.after, recognisedTextureTypes, List.lookup,
      uniformWrites, Call.uniform, textureBindings, hint]
  by_cases h3 : type = "textureRoughness"
  · subst h3
    simp [PBRViewerMesh.DrawTexture, TextureCounters.after, recognisedTextureTypes, List.lookup,
      uniformWrites, Call.uniform, textureBindings, hint]
  by_cases h4 : type = "textureEmissive"
  · subst h4
    simp [PBRViewerMesh.DrawTexture, TextureCounters.after, recognisedTextureTypes, List.lookup,
      uniformWrites, Call.uniform, textureBindings, hint]
  by_cases h5 : type = "textureIrradiance"
  · subst h5
    simp [PBRViewerMesh.DrawTexture, TextureCounters.after, recognisedTextureTypes, List.lookup,
      uniformWrites, Call.uniform, textureBindings, hint]
  by_cases h6 : type = "texturePreFilterEnvironment"
  · subst h6
    simp [PBRViewerMesh.DrawTexture, TextureCounters.after, recognisedTextureTypes, List.lookup,
      uniformWrites, Call.uniform, textureBindings, hint]
  by_cases h7 : type = "textureBRDFLookup"
  · subst h7
    simp [PBRViewerMesh.DrawTexture, TextureCounters.after, recognisedTextureTypes, List.lookup,
      uniformWrites, Call.uniform, textureBindings, hint]
  by_cases h8 : type = "textureShadows"
  · subst h8
    simp [PBRViewerMesh.DrawTexture, TextureCounters.after, recognisedTextureTypes, List.lookup,
      uniformWrites, Call.uniform, textureBindings, hint]
  have hlookup : recognisedTextureTypes.lookup type = none := by
    simp only [recognisedTextureTypes, List.lookup, beq_eq_false_iff_ne.mpr h1,
      beq_eq_false_iff_ne.mpr h2, beq_eq_false_iff_ne.mpr h3, beq_eq_false_iff_ne.mpr h4,
      beq_eq_false_iff_ne.mpr h5, beq_eq_false_iff_ne.mpr h6, beq_eq_false_iff_ne.mpr h7,
      beq_eq_false_iff_ne.mpr h8]
  simp only [hlookup]
  simp [PBRViewerMesh.DrawTexture, TextureCounters.after, uniformWrites, Call.uniform,
    textureBindings, hint, h1, h2, h3, h4, h5, h6, h7, h8]

/-- The texture loop from the position after the textures seen on: its uniform writes and
its bindings are the expected ones of the remaining positions. -/
theorem DrawTextures_expected (shader : PBRViewerShader) (textures : List PBRViewerTexture) :
    ∀ seen : List PBRViewerTexture, seen.length + textures.length < 2 ^ 31 →
      uniformWrites (PBRViewerMesh.DrawTextures shader seen.length textures (TextureCounters.after seen)) =
        (List.range textures.length).flatMap
          (fun j => expectedWritesAt (seen ++ textures) (seen.length + j)) ∧
      ∀ unit tail, (∀ active, textureBindings active tail = []) →
        textureBindings unit
          (PBRViewerMesh.DrawTextures shader seen.length textures (TextureCounters.after seen) ++ tail) =
        (List.range textures.length).flatMap
          (fun j => expectedBindingsAt (seen ++ textures) (seen.length + j)) := by
  induction textures with
  | nil =>
    intro seen _
    refine ⟨rfl, ?_⟩
    intro unit tail htail
    simpa [PBRViewerMesh.DrawTextures] using htail unit
  | cons t rest ih =>
    intro seen hlen
    simp only [List.length_cons] at hlen
    have hseen : seen.length < 2 ^ 31 := by omega
    obtain ⟨hc, hw, hb⟩ := DrawTexture_expected shader seen t rest hseen
    have hlen2 : (seen ++ [t]).length + rest.length < 2 ^ 31 := by
      simp only [List.length_append, List.length_singleton]; omega
    obtain ⟨ihw, ihb⟩ := ih (seen ++ [t]) hlen2
    have hl : (seen ++ [t]).length = seen.length + 1 := by simp
    have happ : seen ++ [t] ++ rest = seen ++ t :: rest := by simp
    rw [hl, happ] at ihw ihb
    have hshift : ∀ j, seen.length + 1 + j = seen.length + (j + 1) := by intro j; omega
    simp only [hshift] at ihw ihb
    simp only [PBRViewerMesh.DrawTextures, hc, uniformWrites_append, List.length_cons,
      List.range_succ_eq_map, List.flatMap_cons, List.flatMap_map, Nat.add_zero]
    refine ⟨?_, ?_⟩
    · rw [hw, ihw]
    · intro unit tail htail
      rw [List.append_assoc, hb, ihb seen.length tail htail]

/-- One pass of the texture loop issues no draw call. -/
theorem DrawTexture_no_draw (shader : PBRViewerShader) (i : GLuint) (t : PBRViewerTexture)
    (c : TextureCounters) :
    ∀ call ∈ (PBRViewerMesh.DrawTexture shader i t c).1, (!call.isDrawCall) = true := by
  simp only [PBRViewerMesh.DrawTexture]
  split_ifs <;> simp [Call.isDrawCall]

/-- The texture loop issues no draw call. -/
theorem DrawTextures_no_draw (shader : PBRViewerShader) (textures : List PBRViewerTexture) :
    ∀ (i : GLuint) (c : TextureCounters),
      ∀ call ∈ PBRViewerMesh.DrawTextures shader i textures c, (!call.isDrawCall) = true := by
  induction textures with
  | nil => intro i c call hcall; simp [PBRViewerMesh.DrawTextures] at hcall
  | cons t rest ih =>
    intro i c call hcall
    simp only [PBRViewerMesh.DrawTextures, List.mem_append] at hcall
    rcases hcall with h | h
    · exact DrawTexture_no_draw shader i t c call h
    · exact ih _ _ call h

/-- The calls of PBRViewerMesh::Draw before and after its draw call. -/
theorem MeshDraw_around_draw (mesh : PBRViewerMesh) (shader : PBRViewerShader) :
    beforeDraw (mesh.Draw shader) =
      PBRViewerMesh.DrawTextures shader 0 mesh.myTextures {} ++ [Call.glBindVertexArray mesh.myVAO] ∧
    afterDraw (mesh.Draw shader) =
      [Call.glBindVertexArray 0,
       Call.glActiveTexture 0,
       Call.setBool shader "textureDiffuseAvailable" false,
       Call.setBool shader "textureNormalAvailable" false,
       Call.setBool shader "textureRoughnessAvailable" false,
       Call.setBool shader "textureEmissiveAvailable" false,
       Call.setBool shader "textureIrradianceAvailable" false,
       Call.setBool shader "textureBRDFLookupAvailable" false,
       Call.setBool shader "texturePrefilteredEnvironmentAvailable" false,
       Call.setBool shader "textureShadowsAvailable" false] := by
  have hno := DrawTextures_no_draw shader mesh.myTextures 0 {}
  unfold beforeDraw afterDraw PBRViewerMesh.Draw
  rw [List.takeWhile_append_of_pos hno, List.dropWhile_append_of_pos hno]
  exact ⟨rfl, rfl⟩

/-- C22 as stated fails: for a mesh whose list holds one texture of the type
"textureEnvironment", which is none of the eight recognised types, PBRViewerMesh::Draw
binds no texture at all, so the texture at position 0 is not bound to texture unit 0. -/
theorem C22_unrecognised_type_not_bound_counterexample :
    textureBindings 0
      (PBRViewerMesh.Draw
        { myTextures := [{ ID := 7, TextureType := "textureEnvironment" }], myIndices := [0, 1, 2],
          myVAO := 1, myVBO := 1, myEBO := 2 }
        { vertexPath := "CommonVertexShader.vert", fragmentPath := "NoLighting.frag" }) = [] ∧
    Call.glBindTexture .GL_TEXTURE_2D 7 ∉
      PBRViewerMesh.Draw
        { myTextures := [{ ID := 7, TextureType := "textureEnvironment" }], myIndices := [0, 1, 2],
          myVAO := 1, myVBO := 1, myEBO := 2 }
        { vertexPath := "CommonVertexShader.vert", fragmentPath := "NoLighting.frag" } ∧
    Call.glBindTexture .GL_TEXTURE_CUBE_MAP 7 ∉
      PBRViewerMesh.Draw
        { myTextures := [{ ID := 7, TextureType := "textureEnvironment" }], myIndices := [0, 1, 2],
          myVAO := 1, myVBO := 1, myEBO := 2 }
        { vertexPath := "CommonVertexShader.vert", fragmentPath := "NoLighting.frag" } := by
  decide

/-- C22, amended: for every mesh texture list (of fewer than 2^31 entries), before the draw
call PBRViewerMesh::Draw binds the texture at list position i to texture unit i when its
type T is one of the eight recognised types, and then sets the available flag of T to true
and the integer uniform T[k] to i, where k is the number of textures of type T at the
positions before i; for a texture of another type it binds nothing and sets the integer
uniform with the empty name to i. These are all the bindings and uniform writes before the
draw call, in list order. After the draw call all eight available flags are set to false. -/
theorem C22_mesh_draw_texture_slots (mesh : PBRViewerMesh) (shader : PBRViewerShader)
    (hlen : mesh.myTextures.length < 2 ^ 31) :
    (∀ active, textureBindings active (beforeDraw (mesh.Draw shader)) =
      (List.range mesh.myTextures.length).flatMap (expectedBindingsAt mesh.myTextures)) ∧
    uniformWrites (beforeDraw (mesh.Draw shader)) =
      (List.range mesh.myTextures.length).flatMap (expectedWritesAt mesh.myTextures) ∧
    uniformWrites (afterDraw (mesh.Draw shader)) =
      [("textureDiffuseAvailable", .bool false), ("textureNormalAvailable", .bool false),
       ("textureRoughnessAvailable", .bool false), ("textureEmissiveAvailable", .bool false),
       ("textureIrradianceAvailable", .bool false), ("textureBRDFLookupAvailable", .bool false),
       ("texturePrefilteredEnvironmentAvailable", .bool false),
       ("textureShadowsAvailable", .bool false)] ∧
    (∀ (i : Nat) (t : PBRViewerTexture), mesh.myTextures[i]? = some t →
      (∀ target flag, recognisedTextureTypes.lookup t.TextureType = some (target, flag) →
        (i, target, t.ID) ∈ textureBindings 0 (beforeDraw (mesh.Draw shader)) ∧
        (flag, UniformValue.bool true) ∈ uniformWrites (beforeDraw (mesh.Draw shader)) ∧
        (indexedName t.TextureType (typeIndex mesh.myTextures i t.TextureType), UniformValue.int i) ∈
          uniformWrites (beforeDraw (mesh.Draw shader))) ∧
      (recognisedTextureTypes.lookup t.TextureType = none →
        (∀ target texture, (i, target, texture) ∉ textureBindings 0 (beforeDraw (mesh.Draw shader))) ∧
        ("", UniformValue.int i) ∈ uniformWrites (beforeDraw (mesh.Draw shader)))) := by
  obtain ⟨hbefore, hafter⟩ := MeshDraw_around_draw mesh shader
  have hloop := DrawTextures_expected shader mesh.myTextures []
    (by simpa using hlen)
  simp only [List.length_nil, List.nil_append, Nat.zero_add] at hloop
  have hstart : TextureCounters.after [] = {} := rfl
  rw [hstart] at hloop
  obtain ⟨hw, hb⟩ := hloop
  have hbind : ∀ active, textureBindings active (beforeDraw (mesh.Draw shader)) =
      (List.range mesh.myTextures.length).flatMap (expectedBindingsAt mesh.myTextures) := by
    intro active
    rw [hbefore]
    exact hb active _ (fun _ => rfl)
  have hwrite : uniformWrites (beforeDraw (mesh.Draw shader)) =
      (List.range mesh.myTextures.length).flatMap (expectedWritesAt mesh.myTextures) := by
    rw [hbefore, uniformWrites_append, hw]
    simp [uniformWrites, Call.uniform]
  refine ⟨hbind, hwrite, ?_, ?_⟩
  · rw [hafter]
    rfl
  · intro i t hi
    have hrange : i ∈ List.range mesh.myTextures.length := by
      rw [List.mem_range]
      exact (List.getElem?_eq_some.mp hi).1
    refine ⟨?_, ?_⟩
    · intro target flag hl
      have hbat : expectedBindingsAt mesh.myTextures i = [(i, target, t.ID)] := by
        simp only [expectedBindingsAt, hi, hl]
      have hwat : expectedWritesAt mesh.myTextures i =
          [(flag, UniformValue.bool true),
           (indexedName t.TextureType (typeIndex mesh.myTextures i t.TextureType), UniformValue.int i)] := by
        simp only [expectedWritesAt, hi, hl]
      rw [hbind 0, hwrite]
      simp only [List.mem_flatMap]
      refine ⟨⟨i, hrange, ?_⟩, ⟨i, hrange, ?_⟩, ⟨i, hrange, ?_⟩⟩
      · rw [hbat]; exact List.mem_singleton.mpr rfl
      · rw [hwat]; exact List.mem_cons_self _ _
      · rw [hwat]; exact List.mem_cons_of_mem _ (List.mem_singleton.mpr rfl)
    · intro hl
      refine ⟨?_, ?_⟩
      · intro target texture hmem
        rw [hbind 0, List.mem_flatMap] at hmem
        obtain ⟨j, -, hj⟩ := hmem
        have hji : j = i := by
          unfold expectedBindingsAt at hj
          cases htj : mesh.myTextures[j]? with
          | none => simp [htj] at hj
          | some u =>
            simp only [htj] at hj
            cases hlu : recognisedTextureTypes.lookup u.TextureType with
            | none => simp [hlu] at hj
            | some found =>
              simp only [hlu, List.mem_singleton, Prod.mk.injEq] at hj
              exact hj.1.symm
        subst hji
        simp [expectedBindingsAt, hi, hl] at hj
      · rw [hwrite, List.mem_flatMap]
        refine ⟨i, hrange, ?_⟩
        simp only [expectedWritesAt, hi, hl]
        exact List.mem_singleton.mpr rfl

/-- C22, amended, at a concrete mesh: a list of two diffuse textures with a shadow texture
between them. -/
theorem C22_mesh_draw_texture_slots_witness :
    uniformWrites (beforeDraw (PBRViewerMesh.Draw
        { myTextures := [{ ID := 5, TextureType := "textureDiffuse" },
            { ID := 6, TextureType := "textureShadows" },
            { ID := 9, TextureType := "textureDiffuse" }], myIndices := [0, 1, 2] }
        { vertexPath := "CommonVertexShader.vert", fragmentPath := "NoLighting.frag" })) =
      (List.range 3).flatMap (expectedWritesAt
        [{ ID := 5, TextureType := "textureDiffuse" },
         { ID := 6, TextureType := "textureShadows" },
         { ID := 9, TextureType := "textureDiffuse" }]) :=
  (C22_mesh_draw_texture_slots
    { myTextures := [{ ID := 5, TextureType := "textureDiffuse" },
        { ID := 6, TextureType := "textureShadows" },
        { ID := 9, TextureType := "textureDiffuse" }], myIndices := [0, 1, 2] }
    { vertexPath := "CommonVertexShader.vert", fragmentPath := "NoLighting.frag" }
    (by decide)).2.1


/-- The expected uniform writes for two diffuse textures with a shadow texture between
them: the second diffuse texture, at position 2, goes to textureDiffuse[1]. -/
theorem expectedWritesAt_example :
    (List.range 3).flatMap (expectedWritesAt
        [{ ID := 5, TextureType := "textureDiffuse" },
         { ID := 6, TextureType := "textureShadows" },
         { ID := 9, TextureType := "textureDiffuse" }]) =
      [("textureDiffuseAvailable", .bool true), ("textureDiffuse[0]", .int 0),
       ("textureShadowsAvailable", .bool true), ("textureShadows[0]", .int 1),
       ("textureDiffuseAvailable", .bool true), ("textureDiffuse[1]", .int 2)] := by
  decide



theorem SetLightingColorLoop_length (rgb : Vec3) (lights : List PBRViewerPointLight) :
    (PBRViewerModel.SetLightingColorLoop rgb lights).length = lights.length := by
  induction lights generalizing rgb with
  | nil => rfl
  | cons light rest ih => simp only [PBRViewerModel.SetLightingColorLoop, List.length_cons, ih]

/-- Every call but DrawOpenGL, ClearModel and ClearSkybox keeps the number of lights, the
shadow set, the list RemoveShadowTexturesFromModel walks, the meshes of the loaded scene,
the three derived textures of the skybox, and the driver. -/
theorem afterCall_keeps (newScene : String → Driver → Ran PBRViewerScene)
    (statics : PointLightStatics) (s next : PBRViewerModel × Driver) (c : ModelCall)
    (h : PBRViewerModel.afterCall newScene statics s c = some next)
    (hdraw : ∀ host, c ≠ .DrawOpenGL host) (hmodel : c ≠ .ClearModel) (hskybox : c ≠ .ClearSkybox) :
    next.1.myLightSources.length = s.1.myLightSources.length ∧
    next.1.myShadows = s.1.myShadows ∧
    next.1.myShadowDepthCubeMaps = s.1.myShadowDepthCubeMaps ∧
    next.1.myLoadedModel.map (fun scene => scene.myMeshes) =
      s.1.myLoadedModel.map (fun scene => scene.myMeshes) ∧
    next.1.mySkybox.map (fun sky => (sky.myIrradianceTexture, sky.myPreFilteredEnvironmentMap,
        sky.myBRDFLookupTexture)) =
      s.1.mySkybox.map (fun sky => (sky.myIrradianceTexture, sky.myPreFilteredEnvironmentMap,
        sky.myBRDFLookupTexture)) ∧
    next.2 = s.2 := by
  cases c <;> simp only [PBRViewerModel.afterCall] at h
  case DrawOpenGL host => exact absurd rfl (hdraw host)
  case ClearModel => exact absurd rfl hmodel
  case ClearSkybox => exact absurd rfl hskybox
  all_goals try (injection h with h; subst h; exact ⟨rfl, rfl, rfl, rfl, rfl, rfl⟩)
  case SetLightingColor rgb =>
    injection h with h; subst h
    exact ⟨SetLightingColorLoop_length _ _, rfl, rfl, rfl, rfl, rfl⟩
  case SetDisney parameter value =>
    injection h with h; subst h
    cases parameter <;> exact ⟨rfl, rfl, rfl, rfl, rfl, rfl⟩
  case CameraMoved camera =>
    split at h
    · exact Option.noConfusion h
    · injection h with h; subst h; exact ⟨rfl, rfl, rfl, rfl, rfl, rfl⟩
  case ActivateLightSource number =>
    unfold PBRViewerModel.ActivateLightSource at h
    split at h
    · exact Option.noConfusion h
    · injection h with h; subst h
      exact ⟨List.length_set _ _ _, rfl, rfl, rfl, rfl, rfl⟩
  case DisableLightSource number =>
    unfold PBRViewerModel.DisableLightSource at h
    split at h
    · exact Option.noConfusion h
    · injection h with h; subst h
      exact ⟨List.length_set _ _ _, rfl, rfl, rfl, rfl, rfl⟩
  all_goals
    injection h with h
    subst h
    refine ⟨?_, ?_, ?_, ?_, ?_, rfl⟩ <;>
    simp only [PBRViewerModel.LoadNewModel, PBRViewerModel.ResetModelTransformations,
      PBRViewerModel.RotateModel, PBRViewerModel.RotateModelX, PBRViewerModel.RotateModelY,
      PBRViewerModel.RotateModelZ, PBRViewerModel.SetPosition, PBRViewerModel.SetModelMatrix,
      PBRViewerModel.ScaleIsotropically, PBRViewerModel.SetSkyboxTexture,
      PBRViewerModel.SetSkyboxTextureMipMapLevel, PBRViewerScene.ScaleIsotropically,
      PBRViewerSkybox.SetTextureToDisplay, PBRViewerSkybox.SetTextureToDisplayMipMapLevel] <;>
    (repeat' split) <;>
    first
      | rfl
      | (simp_all; done)
      | (simp_all; rfl)

/-- ClearModel, when it returns, empties myLoadedModel and changes nothing else. -/
theorem ClearModel_members (m cleared : PBRViewerModel) (calls : List Call)
    (h : m.ClearModel = some (cleared, calls)) : cleared = { m with myLoadedModel := none } := by
  unfold PBRViewerModel.ClearModel at h
  repeat' split at h
  all_goals first
    | exact Option.noConfusion h
    | (injection h with h; injection h with h1 h2; exact h1.symm)

/-- ClearSkybox, when it returns, had a skybox, takes its three derived textures from the
meshes and empties mySkybox. -/
theorem ClearSkybox_members (m cleared : PBRViewerModel) (calls : List Call)
    (h : m.ClearSkybox = some (cleared, calls)) :
    ∃ sky, m.mySkybox = some sky ∧
      cleared = { m with
        myLoadedModel := m.myLoadedModel.map fun scene =>
          ((scene.RemoveTextureFromAllMeshes sky.GetIrradianceTexture).RemoveTextureFromAllMeshes
            sky.GetPreFilteredEnvironmentMap).RemoveTextureFromAllMeshes sky.GetBRDFLookupTexture
        mySkybox := none } := by
  unfold PBRViewerModel.ClearSkybox at h
  split at h
  · exact Option.noConfusion h
  · rename_i sky hsky
    injection h with h
    injection h with h1 h2
    exact ⟨sky, hsky, h1.symm⟩

/-- What a call does to the light collection and the shadow set. -/
theorem afterCall_lights (newScene : String → Driver → Ran PBRViewerScene)
    (statics : PointLightStatics) (s next : PBRViewerModel × Driver) (c : ModelCall)
    (h : PBRViewerModel.afterCall newScene statics s c = some next) :
    next.1.myLightSources.length = s.1.myLightSources.length ∧
    (next.1.myShadows = s.1.myShadows ∨
      ∃ shadows, next.1.myShadows = some shadows ∧
        shadows.myFramebufferObjects.length = s.1.myLightSources.length % 2 ^ 32) := by
  by_cases hdraw : ∃ host, c = .DrawOpenGL host
  · obtain ⟨host, rfl⟩ := hdraw
    simp only [PBRViewerModel.afterCall] at h
    cases hframe : PBRViewerModel.DrawOpenGL host newScene statics s.1 s.2 with
    | none => rw [hframe] at h; exact Option.noConfusion h
    | some frame =>
    rw [hframe] at h
    injection h with h
    subst h
    obtain ⟨_, hres⟩ := DrawOpenGL_members host newScene statics s.1 s.2 frame hframe
    obtain ⟨hl, hs⟩ := beforeDrawFrame_lights host newScene s
    rcases hres with hres | ⟨calls, hres⟩
    · simp only [hres]
      exact ⟨congrArg List.length hl, hs⟩
    · obtain ⟨h1, h2⟩ := DrawFrame_lights host statics _ _ calls hres
      simp only [h1, h2]
      exact ⟨congrArg List.length hl, hs⟩
  by_cases hmodel : c = .ClearModel
  · subst hmodel
    simp only [PBRViewerModel.afterCall] at h
    cases hc : s.1.ClearModel with
    | none => rw [hc] at h; exact Option.noConfusion h
    | some result =>
    obtain ⟨cleared, calls⟩ := result
    rw [hc] at h
    injection h with h
    subst h
    rw [ClearModel_members s.1 cleared calls hc]
    exact ⟨rfl, Or.inl rfl⟩
  by_cases hskybox : c = .ClearSkybox
  · subst hskybox
    simp only [PBRViewerModel.afterCall] at h
    cases hc : s.1.ClearSkybox with
    | none => rw [hc] at h; exact Option.noConfusion h
    | some result =>
    obtain ⟨cleared, calls⟩ := result
    rw [hc] at h
    injection h with h
    subst h
    obtain ⟨sky, _, hcl⟩ := ClearSkybox_members s.1 cleared calls hc
    rw [hcl]
    exact ⟨rfl, Or.inl rfl⟩
  obtain ⟨h1, h2, _⟩ := afterCall_keeps newScene statics s next c h
    (fun host hc => hdraw ⟨host, hc⟩) hmodel hskybox
  exact ⟨h1, Or.inl h2⟩

/-- In every reachable state the light collection has four entries and a shadow set has
four framebuffers. -/
theorem reachable_lights (newScene : String → Driver → Ran PBRViewerScene)
    (statics : PointLightStatics) (s : PBRViewerModel × Driver)
    (h : ModelReachable newScene statics s) :
    s.1.myLightSources.length = 4 ∧
    ∀ shadows, s.1.myShadows = some shadows → shadows.myFramebufferObjects.length = 4 := by
  induction h with
  | init d => exact ⟨rfl, fun shadows hs => Option.noConfusion hs⟩
  | call s next c _ hc ih =>
    obtain ⟨hl, hs⟩ := afterCall_lights newScene statics s next c hc
    refine ⟨hl.trans ih.1, fun shadows hsh => ?_⟩
    rcases hs with hs | ⟨created, hcr, hlen⟩
    · exact ih.2 shadows (hs ▸ hsh)
    · rw [hcr] at hsh
      injection hsh with hsh
      subst hsh
      rw [hlen, ih.1]
      rfl

/-- C28: in every state reachable from Init through the calls on the model, the light
collection has four entries and a shadow set has as many framebuffers as there are lights;
ActivateLightSource and DisableLightSource return for each of the numbers 0, 1, 2, 3; and
in the state in which the next DrawOpenGL reaches its drawing part, the same counts hold
and CalculateSelfShadowing on the shadow set and the light collection returns. -/
theorem C28_light_accesses_within_bounds (newScene : String → Driver → Ran PBRViewerScene)
    (statics : PointLightStatics) (s : PBRViewerModel × Driver)
    (h : ModelReachable newScene statics s) :
    s.1.myLightSources.length = 4 ∧
    (∀ shadows, s.1.myShadows = some shadows →
      shadows.myFramebufferObjects.length = s.1.myLightSources.length) ∧
    (∀ number : Fin 4, (∃ m, s.1.ActivateLightSource number.val = some m) ∧
      ∃ m, s.1.DisableLightSource number.val = some m) ∧
    ∀ (host : Host),
      (PBRViewerModel.beforeDrawFrame host newScene s).1.myLightSources.length = 4 ∧
      ∀ shadows, (PBRViewerModel.beforeDrawFrame host newScene s).1.myShadows = some shadows →
        shadows.myFramebufferObjects.length = 4 ∧
        ∀ (scene : PBRViewerScene) (vw vh : GLuint),
          ∃ calls, shadows.CalculateSelfShadowing scene vw vh
            (PBRViewerModel.beforeDrawFrame host newScene s).1.myLightSources = some calls := by
  obtain ⟨hl, hs⟩ := reachable_lights newScene statics s h
  refine ⟨hl, fun shadows hsh => (hs shadows hsh).trans hl.symm, fun number => ?_, fun host => ?_⟩
  · have hlt : number.val < s.1.myLightSources.length := by rw [hl]; exact number.isLt
    unfold PBRViewerModel.ActivateLightSource PBRViewerModel.DisableLightSource
    rw [List.getElem?_eq_getElem hlt]
    exact ⟨⟨_, rfl⟩, ⟨_, rfl⟩⟩
  · obtain ⟨hbl, hbs⟩ := beforeDrawFrame_lights host newScene s
    have hfour : ∀ shadows,
        (PBRViewerModel.beforeDrawFrame host newScene s).1.myShadows = some shadows →
          shadows.myFramebufferObjects.length = 4 := by
      intro shadows hsh
      rcases hbs with hbs | ⟨created, hcr, hlen⟩
      · exact hs shadows (hbs ▸ hsh)
      · rw [hcr] at hsh
        injection hsh with hsh
        subst hsh
        rw [hlen, hl]
        rfl
    refine ⟨by rw [hbl]; exact hl, fun shadows hsh => ⟨hfour shadows hsh, fun scene vw vh => ?_⟩⟩
    exact CalculateSelfShadowing_returns shadows scene vw vh _
      (by rw [hfour shadows hsh, hbl, hl])



/-- The names of the three derived textures Init gives a skybox are the next three the
driver hands out after the environment texture. -/
theorem Init_names (host : Host) (sky : PBRViewerSkybox) (d : Driver) :
    ∃ e, d.textures ≤ e ∧
      (PBRViewerSkybox.Init host sky d).result.2.myIrradianceTexture.ID = e + 1 ∧
      (PBRViewerSkybox.Init host sky d).result.2.myPreFilteredEnvironmentMap.ID = e + 2 ∧
      (PBRViewerSkybox.Init host sky d).result.2.myBRDFLookupTexture.ID = e + 3 ∧
      (PBRViewerSkybox.Init host sky d).driver.textures = e + 3 := by
  refine ⟨(PBRViewerSkybox.LoadEnvironmentTexture host sky d).driver.textures, ?_, rfl, rfl, rfl, ?_⟩
  · unfold PBRViewerSkybox.LoadEnvironmentTexture PBRViewerSkybox.LoadEquirectangularTexture
    cases host.stbi_loadf sky.myFilepathEnvironmentTexture
    · exact le_refl _
    · simp [PBRViewerSkybox.ConvertEquirectangularTextureToCubemap]
      omega
  · simp only [PBRViewerSkybox.Init, PBRViewerSkybox.CreateBRDFLookupTexture, RenderFullScreenQuad]
    split_ifs <;> rfl

/-- AddTexture keeps the entries of the list. -/
theorem mem_AddTexture (mesh : PBRViewerMesh) (a t : PBRViewerTexture) (h : t ∈ mesh.myTextures) :
    t ∈ (mesh.AddTexture a).myTextures := by
  rw [AddTexture_textures]
  split_ifs
  · exact h
  · exact List.mem_append_left _ h

/-- An entry of the list after AddTexture was in the list before or is the added texture. -/
theorem mem_of_mem_AddTexture (mesh : PBRViewerMesh) (a t : PBRViewerTexture)
    (h : t ∈ (mesh.AddTexture a).myTextures) : t ∈ mesh.myTextures ∨ t = a := by
  rw [AddTexture_textures] at h
  split_ifs at h
  · exact Or.inl h
  · rcases List.mem_append.mp h with h | h
    · exact Or.inl h
    · exact Or.inr (List.mem_singleton.mp h)

/-- RemoveTexture keeps the entries whose ID is not the ID of the removed texture. -/
theorem mem_RemoveTexture (mesh : PBRViewerMesh) (r t : PBRViewerTexture) (h : t ∈ mesh.myTextures)
    (hne : t.ID ≠ r.ID) : t ∈ (mesh.RemoveTexture r).myTextures := by
  rw [RemoveTexture_textures]
  refine (List.mem_eraseP_of_neg ?_).mpr h
  simpa [PBRViewerTexture.eq] using hne

/-- AddTexture for one new texture after the other appends them all, when their IDs are
distinct and none is the ID of an entry. -/
theorem foldl_AddTexture (new : List PBRViewerTexture) :
    ∀ mesh : PBRViewerMesh,
      (∀ e ∈ mesh.myTextures, ∀ t ∈ new, e.ID ≠ t.ID) → (new.map fun t => t.ID).Nodup →
      (new.foldl PBRViewerMesh.AddTexture mesh).myTextures = mesh.myTextures ++ new := by
  induction new with
  | nil => intro mesh _ _; simp
  | cons a rest ih =>
    intro mesh hfresh hnodup
    have hadd : (mesh.AddTexture a).myTextures = mesh.myTextures ++ [a] := by
      rw [AddTexture_textures, if_neg]
      rintro ⟨e, he, hid⟩
      exact hfresh e he a (List.mem_cons_self _ _) hid
    rw [List.map_cons, List.nodup_cons] at hnodup
    rw [List.foldl_cons, ih (mesh.AddTexture a) ?_ hnodup.2, hadd, List.append_assoc,
      List.singleton_append]
    intro e he t ht
    rw [hadd] at he
    rcases List.mem_append.mp he with he | he
    · exact hfresh e he t (List.mem_cons_of_mem _ ht)
    · rw [List.mem_singleton] at he
      subst he
      intro hid
      exact hnodup.1 (List.mem_map.mpr ⟨t, ht, hid.symm⟩)

/-- AddTextureToAllMeshes for one texture after the other is AddTexture for one texture
after the other on every mesh. -/
theorem foldl_AddTextureToAllMeshes (new : List PBRViewerTexture) :
    ∀ scene : PBRViewerScene,
      (new.foldl (fun s texture => s.AddTextureToAllMeshes texture) scene).myMeshes =
        scene.myMeshes.map fun mesh => new.foldl PBRViewerMesh.AddTexture mesh := by
  induction new with
  | nil => intro scene; simp
  | cons a rest ih =>
    intro scene
    rw [List.foldl_cons, ih]
    simp only [PBRViewerScene.AddTextureToAllMeshes, List.map_map]
    rfl



/-- A state that agrees with a consistent one in the list RemoveShadowTexturesFromModel
walks, the meshes of the loaded scene, the shadow set and the three derived textures of
the skybox, with a driver that has handed out at least as many textures, is consistent. -/
theorem consistent_of_same (s next : PBRViewerModel × Driver) (hinv : TexturesConsistent s)
    (h1 : next.1.myShadowDepthCubeMaps = s.1.myShadowDepthCubeMaps)
    (h2 : next.1.myLoadedModel.map (fun scene => scene.myMeshes) =
      s.1.myLoadedModel.map (fun scene => scene.myMeshes))
    (h3 : next.1.myShadows = s.1.myShadows)
    (h4 : next.1.mySkybox.map (fun sky => (sky.myIrradianceTexture, sky.myPreFilteredEnvironmentMap,
        sky.myBRDFLookupTexture)) =
      s.1.mySkybox.map (fun sky => (sky.myIrradianceTexture, sky.myPreFilteredEnvironmentMap,
        sky.myBRDFLookupTexture)))
    (h5 : s.2.textures ≤ next.2.textures) : TexturesConsistent next := by
  have hscene : ∀ scene, next.1.myLoadedModel = some scene →
      ∃ before, s.1.myLoadedModel = some before ∧ before.myMeshes = scene.myMeshes := by
    intro scene hs
    rw [hs] at h2
    cases hb : s.1.myLoadedModel with
    | none => rw [hb] at h2; exact Option.noConfusion h2
    | some before =>
      rw [hb] at h2
      exact ⟨before, rfl, (Option.some.inj h2).symm⟩
  have hsky : ∀ sky, next.1.mySkybox = some sky →
      ∃ before, s.1.mySkybox = some before ∧
        before.myIrradianceTexture = sky.myIrradianceTexture ∧
        before.myPreFilteredEnvironmentMap = sky.myPreFilteredEnvironmentMap ∧
        before.myBRDFLookupTexture = sky.myBRDFLookupTexture := by
    intro sky hs
    rw [hs] at h4
    cases hb : s.1.mySkybox with
    | none => rw [hb] at h4; exact Option.noConfusion h4
    | some before =>
      rw [hb] at h4
      have h := Option.some.inj h4
      simp only [Prod.mk.injEq] at h
      exact ⟨before, rfl, h.1.symm, h.2.1.symm, h.2.2.symm⟩
  constructor
  · rw [h1]; exact hinv.noRemovalList
  · intro scene hs
    obtain ⟨before, hb, _⟩ := hscene scene hs
    rw [h3]
    exact hinv.sceneHasShadows before hb
  · intro scene shadows hs hsh mesh hmesh t ht
    obtain ⟨before, hb, hm⟩ := hscene scene hs
    rw [h3] at hsh
    exact hinv.shadowsListed before shadows hb hsh mesh (hm ▸ hmesh) t ht
  · intro shadows hsh t ht
    rw [h3] at hsh
    exact le_trans (hinv.shadowNames shadows hsh t ht) h5
  · intro sky hs
    obtain ⟨before, hb, e1, e2, e3⟩ := hsky sky hs
    obtain ⟨n1, n2, n3⟩ := hinv.skyboxNames before hb
    rw [← e1, ← e2, ← e3]
    exact ⟨le_trans n1 h5, le_trans n2 h5, le_trans n3 h5⟩
  · intro sky shadows hs hsh t ht
    obtain ⟨before, hb, e1, e2, e3⟩ := hsky sky hs
    rw [h3] at hsh
    rw [← e1, ← e2, ← e3]
    exact hinv.namesApart before shadows hb hsh t ht



/-- The entries of the texture lists after AddTextureToAllMeshes for three textures. -/
theorem mem_AddTextureToAllMeshes3 (scene : PBRViewerScene) (a b c : PBRViewerTexture)
    (mesh : PBRViewerMesh)
    (hmesh : mesh ∈ (((scene.AddTextureToAllMeshes a).AddTextureToAllMeshes b).AddTextureToAllMeshes
      c).myMeshes) :
    ∃ before ∈ scene.myMeshes,
      (∀ e ∈ before.myTextures, e ∈ mesh.myTextures) ∧
      ∀ e ∈ mesh.myTextures, e ∈ before.myTextures ∨ e = a ∨ e = b ∨ e = c := by
  simp only [PBRViewerScene.AddTextureToAllMeshes, List.map_map, List.mem_map,
    Function.comp_apply] at hmesh
  obtain ⟨before, hb, rfl⟩ := hmesh
  refine ⟨before, hb, fun e he => ?_, fun e he => ?_⟩
  · exact mem_AddTexture _ _ _ (mem_AddTexture _ _ _ (mem_AddTexture _ _ _ he))
  · rcases mem_of_mem_AddTexture _ _ _ he with h | h
    · rcases mem_of_mem_AddTexture _ _ _ h with h | h
      · rcases mem_of_mem_AddTexture _ _ _ h with h | h
        · exact Or.inl h
        · exact Or.inr (Or.inl h)
      · exact Or.inr (Or.inr (Or.inl h))
    · exact Or.inr (Or.inr (Or.inr h))

/-- The block of a pending scene keeps the texture lists consistent. -/
theorem LoadPendingModel_consistent (newScene : String → Driver → Ran PBRViewerScene)
    (himport : ImportUsesDriverNames newScene) (m : PBRViewerModel) (d : Driver)
    (hinv : TexturesConsistent (m, d)) :
    TexturesConsistent ((PBRViewerModel.LoadPendingModel newScene m d).result,
      (PBRViewerModel.LoadPendingModel newScene m d).driver) := by
  obtain ⟨hmono, hnames⟩ := himport m.myNewModelFilepath d
  have hnew : ∀ t ∈ (List.range' ((newScene m.myNewModelFilepath d).driver.textures + 1)
        (m.myLightSources.length % 2 ^ 32)).map
        (fun depthMap => ({ ID := depthMap, TextureType := "textureShadows" } : PBRViewerTexture)),
      (newScene m.myNewModelFilepath d).driver.textures < t.ID ∧
      t.ID ≤ (newScene m.myNewModelFilepath d).driver.textures + m.myLightSources.length % 2 ^ 32 := by
    intro t ht
    obtain ⟨id, hid, rfl⟩ := List.mem_map.mp ht
    rw [List.mem_range'_1] at hid
    exact ⟨Nat.lt_of_succ_le hid.1,
      Nat.le_of_lt_succ (lt_of_lt_of_eq hid.2 (Nat.add_right_comm _ _ _))⟩
  have hnodup : ((List.range' ((newScene m.myNewModelFilepath d).driver.textures + 1)
        (m.myLightSources.length % 2 ^ 32)).map
        (fun depthMap => ({ ID := depthMap, TextureType := "textureShadows" } : PBRViewerTexture))).map
        (fun t => t.ID) = List.range' ((newScene m.myNewModelFilepath d).driver.textures + 1)
        (m.myLightSources.length % 2 ^ 32) := by
    rw [List.map_map]
    exact List.map_id _
  constructor
  · exact hinv.noRemovalList
  · intro scene _
    exact ⟨_, rfl⟩
  · intro scene shadows hs hsh mesh hmesh t ht
    have hsh := (Option.some.inj hsh).symm
    subst hsh
    have hwith : ∀ before ∈ (match m.mySkybox with
          | some sky =>
            (((newScene m.myNewModelFilepath d).result.AddTextureToAllMeshes
              sky.GetIrradianceTexture).AddTextureToAllMeshes
              sky.GetPreFilteredEnvironmentMap).AddTextureToAllMeshes sky.GetBRDFLookupTexture
          | none => (newScene m.myNewModelFilepath d).result).myMeshes,
        ∀ e ∈ before.myTextures, e.ID ≤ (newScene m.myNewModelFilepath d).driver.textures := by
      intro before hbefore e he
      cases hsky : m.mySkybox with
      | none =>
        rw [hsky] at hbefore
        exact hnames before hbefore e he
      | some sky =>
        rw [hsky] at hbefore
        obtain ⟨n1, n2, n3⟩ := hinv.skyboxNames sky hsky
        obtain ⟨imported, himported, _, hfrom⟩ := mem_AddTextureToAllMeshes3 _ _ _ _ before hbefore
        rcases hfrom e he with h | h | h | h
        · exact hnames imported himported e h
        · rw [h]; exact le_trans n1 hmono
        · rw [h]; exact le_trans n2 hmono
        · rw [h]; exact le_trans n3 hmono
    have hs := (Option.some.inj hs).symm
    subst hs
    rw [foldl_AddTextureToAllMeshes, List.mem_map] at hmesh
    obtain ⟨before, hbefore, rfl⟩ := hmesh
    rw [foldl_AddTexture _ before ?_ ?_]
    · exact List.mem_append_right _ ht
    · intro e he added hadded
      exact (lt_of_le_of_lt (hwith before hbefore e he) (hnew added hadded).1).ne
    · exact hnodup ▸ List.nodup_range' _ _
  · intro shadows hsh t ht
    have hsh := (Option.some.inj hsh).symm
    subst hsh
    exact (hnew t ht).2
  · intro sky hs
    obtain ⟨n1, n2, n3⟩ := hinv.skyboxNames sky hs
    have hle : d.textures ≤ (PBRViewerModel.LoadPendingModel newScene m d).driver.textures :=
      le_trans hmono (Nat.le_add_right _ _)
    exact ⟨le_trans n1 hle, le_trans n2 hle, le_trans n3 hle⟩
  · intro sky shadows hs hsh t ht
    have hsh := (Option.some.inj hsh).symm
    subst hsh
    obtain ⟨n1, n2, n3⟩ := hinv.skyboxNames sky hs
    have hlt := (hnew t ht).1
    exact ⟨(lt_of_le_of_lt (le_trans n1 hmono) hlt).ne', (lt_of_le_of_lt (le_trans n2 hmono) hlt).ne',
      (lt_of_le_of_lt (le_trans n3 hmono) hlt).ne'⟩



/-- The block of a pending skybox keeps the texture lists consistent. -/
theorem LoadPendingSkybox_consistent (host : Host) (m : PBRViewerModel) (d : Driver)
    (hinv : TexturesConsistent (m, d)) :
    TexturesConsistent ((PBRViewerModel.LoadPendingSkybox host m d).result.2,
      (PBRViewerModel.LoadPendingSkybox host m d).driver) := by
  obtain ⟨e, he, hirr, hpre, hbrdf, hdriver⟩ :=
    Init_names host (PBRViewerSkybox.new m.myNewSkyboxFilepath) d
  have hle : d.textures ≤ (PBRViewerSkybox.Init host (PBRViewerSkybox.new m.myNewSkyboxFilepath)
      d).driver.textures := by
    rw [hdriver]
    exact le_trans he (Nat.le_add_right _ _)
  by_cases hfail : (PBRViewerSkybox.Init host (PBRViewerSkybox.new m.myNewSkyboxFilepath) d).result.1
      = false
  · have hresult : (PBRViewerModel.LoadPendingSkybox host m d).result.2 =
        { m with mySkybox := none, myNewSkyboxShouldBeLoaded := false } := by
      simp only [PBRViewerModel.LoadPendingSkybox, if_pos hfail]
    have hdr : (PBRViewerModel.LoadPendingSkybox host m d).driver =
        (PBRViewerSkybox.Init host (PBRViewerSkybox.new m.myNewSkyboxFilepath) d).driver := by
      simp only [PBRViewerModel.LoadPendingSkybox, if_pos hfail]
    rw [hresult, hdr]
    constructor
    · exact hinv.noRemovalList
    · exact hinv.sceneHasShadows
    · exact hinv.shadowsListed
    · exact fun shadows hsh t ht => le_trans (hinv.shadowNames shadows hsh t ht) hle
    · exact fun sky hs => Option.noConfusion hs
    · exact fun sky shadows hs => Option.noConfusion hs
  · have hresult : (PBRViewerModel.LoadPendingSkybox host m d).result.2 =
        { m with
          mySkybox := some (PBRViewerSkybox.Init host (PBRViewerSkybox.new m.myNewSkyboxFilepath)
            d).result.2
          myLoadedModel := m.myLoadedModel.map fun scene =>
            ((scene.AddTextureToAllMeshes (PBRViewerSkybox.Init host
                (PBRViewerSkybox.new m.myNewSkyboxFilepath) d).result.2.GetIrradianceTexture
              ).AddTextureToAllMeshes (PBRViewerSkybox.Init host
                (PBRViewerSkybox.new m.myNewSkyboxFilepath) d).result.2.GetPreFilteredEnvironmentMap
              ).AddTextureToAllMeshes (PBRViewerSkybox.Init host
                (PBRViewerSkybox.new m.myNewSkyboxFilepath) d).result.2.GetBRDFLookupTexture
          myNewSkyboxShouldBeLoaded := false } := by
      simp only [PBRViewerModel.LoadPendingSkybox, if_neg hfail]
    have hdr : (PBRViewerModel.LoadPendingSkybox host m d).driver =
        (PBRViewerSkybox.Init host (PBRViewerSkybox.new m.myNewSkyboxFilepath) d).driver := by
      simp only [PBRViewerModel.LoadPendingSkybox, if_neg hfail]
    rw [hresult, hdr]
    constructor
    · exact hinv.noRemovalList
    · intro scene hs
      cases hb : m.myLoadedModel with
      | none =>
        have hs : Option.map _ m.myLoadedModel = some scene := hs
        rw [hb] at hs
        exact Option.noConfusion hs
      | some before => exact hinv.sceneHasShadows before hb
    · intro scene shadows hs hsh mesh hmesh t ht
      have hs : Option.map _ m.myLoadedModel = some scene := hs
      cases hb : m.myLoadedModel with
      | none =>
        rw [hb] at hs
        exact Option.noConfusion hs
      | some before =>
        rw [hb] at hs
        have hs := (Option.some.inj hs).symm
        subst hs
        obtain ⟨old, hold, hkeeps, _⟩ := mem_AddTextureToAllMeshes3 _ _ _ _ mesh hmesh
        exact hkeeps t (hinv.shadowsListed before shadows hb hsh old hold t ht)
    · exact fun shadows hsh t ht => le_trans (hinv.shadowNames shadows hsh t ht) hle
    · intro sky hs
      have hs := (Option.some.inj hs).symm
      subst hs
      rw [hirr, hpre, hbrdf, hdriver]
      exact ⟨Nat.add_le_add_left (show 1 ≤ 3 by decide) e,
        Nat.add_le_add_left (show 2 ≤ 3 by decide) e, le_refl _⟩
    · intro sky shadows hs hsh t ht
      have hs := (Option.some.inj hs).symm
      subst hs
      have hshadow : t.ID ≤ e := le_trans (hinv.shadowNames shadows hsh t ht) he
      rw [hirr, hpre, hbrdf]
      exact ⟨(lt_of_le_of_lt hshadow (Nat.lt_add_of_pos_right (show 0 < 1 by decide))).ne,
        (lt_of_le_of_lt hshadow (Nat.lt_add_of_pos_right (show 0 < 2 by decide))).ne,
        (lt_of_le_of_lt hshadow (Nat.lt_add_of_pos_right (show 0 < 3 by decide))).ne⟩

/-- The two loading blocks of DrawOpenGL keep the texture lists consistent. -/
theorem beforeDrawFrame_consistent (host : Host) (newScene : String → Driver → Ran PBRViewerScene)
    (himport : ImportUsesDriverNames newScene) (s : PBRViewerModel × Driver)
    (hinv : TexturesConsistent s) :
    TexturesConsistent (PBRViewerModel.beforeDrawFrame host newScene s) := by
  have hmodel : TexturesConsistent ((PBRViewerModel.PendingModelStep newScene s.1 s.2).result,
      (PBRViewerModel.PendingModelStep newScene s.1 s.2).driver) := by
    unfold PBRViewerModel.PendingModelStep
    split_ifs
    · exact LoadPendingModel_consistent newScene himport s.1 s.2 hinv
    · exact hinv
  unfold PBRViewerModel.beforeDrawFrame PBRViewerModel.PendingSkyboxStep
  split_ifs
  · exact LoadPendingSkybox_consistent host _ _ hmodel
  · exact hmodel

/-- With an empty list to walk, RemoveShadowTexturesFromModel leaves the scene as it is. -/
theorem RemoveShadowTexturesFromModel_nothing (m : PBRViewerModel) (scene : PBRViewerScene)
    (h : m.myShadowDepthCubeMaps = []) : m.RemoveShadowTexturesFromModel scene = scene := by
  unfold PBRViewerModel.RemoveShadowTexturesFromModel
  rw [h]
  rfl

/-- The drawing part of DrawOpenGL keeps the texture lists consistent. -/
theorem DrawFrame_consistent (host : Host) (statics : PointLightStatics) (m drawn : PBRViewerModel)
    (d : Driver) (calls : List Call) (hinv : TexturesConsistent (m, d))
    (h : PBRViewerModel.DrawFrame host statics m = some (drawn, calls)) :
    TexturesConsistent (drawn, d) := by
  rcases DrawFrame_members host statics m drawn calls h with h1 | ⟨scene, hscene, h1⟩
  · subst h1; exact hinv
  · obtain ⟨program, hp⟩ := SetLightingShader_members m
    have hnothing : (PBRViewerModel.SetLightingShader m).RemoveShadowTexturesFromModel scene = scene :=
      RemoveShadowTexturesFromModel_nothing _ scene (by rw [hp]; exact hinv.noRemovalList)
    rw [hnothing, hp] at h1
    subst h1
    refine consistent_of_same (m, d) _ hinv rfl ?_ rfl rfl (le_refl _)
    simp only [hscene, Option.map]

/-- A call on the model keeps the texture lists consistent. -/
theorem afterCall_consistent (newScene : String → Driver → Ran PBRViewerScene)
    (himport : ImportUsesDriverNames newScene) (statics : PointLightStatics)
    (s next : PBRViewerModel × Driver) (c : ModelCall) (hinv : TexturesConsistent s)
    (h : PBRViewerModel.afterCall newScene statics s c = some next) : TexturesConsistent next := by
  by_cases hdraw : ∃ host, c = .DrawOpenGL host
  · obtain ⟨host, rfl⟩ := hdraw
    simp only [PBRViewerModel.afterCall] at h
    cases hframe : PBRViewerModel.DrawOpenGL host newScene statics s.1 s.2 with
    | none => rw [hframe] at h; exact Option.noConfusion h
    | some frame =>
    rw [hframe] at h
    injection h with h
    subst h
    obtain ⟨hdriver, hres⟩ := DrawOpenGL_members host newScene statics s.1 s.2 frame hframe
    have hbefore := beforeDrawFrame_consistent host newScene himport s hinv
    rcases hres with hres | ⟨calls, hres⟩
    · simp only [hres, hdriver]
      exact hbefore
    · simp only [hdriver]
      exact DrawFrame_consistent host statics _ _ _ calls hbefore hres
  by_cases hmodel : c = .ClearModel
  · subst hmodel
    simp only [PBRViewerModel.afterCall] at h
    cases hc : s.1.ClearModel with
    | none => rw [hc] at h; exact Option.noConfusion h
    | some result =>
    obtain ⟨cleared, calls⟩ := result
    rw [hc] at h
    injection h with h
    subst h
    rw [ClearModel_members s.1 cleared calls hc]
    constructor
    · exact hinv.noRemovalList
    · exact fun scene hs => Option.noConfusion hs
    · exact fun scene shadows hs => Option.noConfusion hs
    · exact hinv.shadowNames
    · exact hinv.skyboxNames
    · exact hinv.namesApart
  by_cases hskybox : c = .ClearSkybox
  · subst hskybox
    simp only [PBRViewerModel.afterCall] at h
    cases hc : s.1.ClearSkybox with
    | none => rw [hc] at h; exact Option.noConfusion h
    | some result =>
    obtain ⟨cleared, calls⟩ := result
    rw [hc] at h
    injection h with h
    subst h
    obtain ⟨sky, hsky, hcl⟩ := ClearSkybox_members s.1 cleared calls hc
    rw [hcl]
    constructor
    · exact hinv.noRemovalList
    · intro scene hs
      have hs : Option.map _ s.1.myLoadedModel = some scene := hs
      cases hb : s.1.myLoadedModel with
      | none => rw [hb] at hs; exact Option.noConfusion hs
      | some before => exact hinv.sceneHasShadows before hb
    · intro scene shadows hs hsh mesh hmesh t ht
      have hs : Option.map _ s.1.myLoadedModel = some scene := hs
      cases hb : s.1.myLoadedModel with
      | none => rw [hb] at hs; exact Option.noConfusion hs
      | some before =>
        rw [hb] at hs
        have hs := (Option.some.inj hs).symm
        subst hs
        simp only [PBRViewerScene.RemoveTextureFromAllMeshes, List.map_map, List.mem_map,
          Function.comp_apply] at hmesh
        obtain ⟨old, hold, rfl⟩ := hmesh
        obtain ⟨n1, n2, n3⟩ := hinv.namesApart sky shadows hsky hsh t ht
        exact mem_RemoveTexture _ _ _ (mem_RemoveTexture _ _ _ (mem_RemoveTexture _ _ _
          (hinv.shadowsListed before shadows hb hsh old hold t ht) n1) n2) n3
    · exact hinv.shadowNames
    · exact fun other hs => Option.noConfusion hs
    · exact fun other shadows hs => Option.noConfusion hs
  obtain ⟨_, h2, h3, h4, h5, h6⟩ := afterCall_keeps newScene statics s next c h
    (fun host hc => hdraw ⟨host, hc⟩) hmodel hskybox
  exact consistent_of_same s next hinv h3 h4 h2 h5 (by rw [h6])

/-- In every reachable state the texture lists are consistent. -/
theorem reachable_consistent (newScene : String → Driver → Ran PBRViewerScene)
    (himport : ImportUsesDriverNames newScene) (statics : PointLightStatics)
    (s : PBRViewerModel × Driver) (h : ModelReachable newScene statics s) :
    TexturesConsistent s := by
  induction h with
  | init d =>
    constructor
    · rfl
    · exact fun scene hs => Option.noConfusion hs
    · exact fun scene shadows hs => Option.noConfusion hs
    · exact fun shadows hs => Option.noConfusion hs
    · exact fun sky hs => Option.noConfusion hs
    · exact fun sky shadows hs => Option.noConfusion hs
  | call s next c _ hc ih => exact afterCall_consistent newScene himport statics s next c ih hc



/-- C28 at work: the state after LoadNewModel and one frame is reachable, and there the
counts and the accesses are as C28 says. -/
theorem C28_light_accesses_within_bounds_witness :
    ModelReachable sampleImport sampleStatics sceneLoaded ∧
    (sceneLoaded.1.myLightSources.length = 4 ∧
    (∀ shadows, sceneLoaded.1.myShadows = some shadows →
      shadows.myFramebufferObjects.length = sceneLoaded.1.myLightSources.length) ∧
    (∀ number : Fin 4, (∃ m, sceneLoaded.1.ActivateLightSource number.val = some m) ∧
      ∃ m, sceneLoaded.1.DisableLightSource number.val = some m) ∧
    ∀ (host : Host),
      (PBRViewerModel.beforeDrawFrame host sampleImport sceneLoaded).1.myLightSources.length = 4 ∧
      ∀ shadows, (PBRViewerModel.beforeDrawFrame host sampleImport sceneLoaded).1.myShadows =
          some shadows →
        shadows.myFramebufferObjects.length = 4 ∧
        ∀ (scene : PBRViewerScene) (vw vh : GLuint),
          ∃ calls, shadows.CalculateSelfShadowing scene vw vh
            (PBRViewerModel.beforeDrawFrame host sampleImport sceneLoaded).1.myLightSources =
              some calls) :=
  ⟨ModelReachable.call (PBRViewerModel.LoadNewModel initialModel "scene.gltf", {}) sceneLoaded
      (.DrawOpenGL decodingHost)
      (ModelReachable.call (initialModel, {}) _ (.LoadNewModel "scene.gltf") (ModelReachable.init {})
        rfl)
      rfl,
   C28_light_accesses_within_bounds sampleImport sampleStatics sceneLoaded
    (ModelReachable.call (PBRViewerModel.LoadNewModel initialModel "scene.gltf", {}) sceneLoaded
      (.DrawOpenGL decodingHost)
      (ModelReachable.call (initialModel, {}) _ (.LoadNewModel "scene.gltf") (ModelReachable.init {})
        rfl)
      rfl)⟩

/-- C29: in every state reachable from Init through the calls on the model, with an import
whose textures carry names of the driver, the list RemoveShadowTexturesFromModel walks is
empty and the function returns the scene as it got it; a loaded scene comes with a shadow
set, and every mesh of the scene lists every depth texture of the set. The same holds in
the state in which the next DrawOpenGL reaches its drawing part, where DrawModel is called
on the model SetLightingShader returns. The depth textures of a shadow set are the ones
CreateSelfShadowingTextures returned. -/
theorem C29_meshes_list_shadow_textures (newScene : String → Driver → Ran PBRViewerScene)
    (statics : PointLightStatics) (himport : ImportUsesDriverNames newScene)
    (s : PBRViewerModel × Driver) (h : ModelReachable newScene statics s) :
    (s.1.myShadowDepthCubeMaps = [] ∧
      ∀ scene, s.1.RemoveShadowTexturesFromModel scene = scene) ∧
    (∀ scene, s.1.myLoadedModel = some scene →
      ∃ shadows, s.1.myShadows = some shadows ∧
        ∀ mesh ∈ scene.myMeshes, ∀ t ∈ shadows.myTextures, t ∈ mesh.myTextures) ∧
    (∀ (host : Host),
      (PBRViewerModel.beforeDrawFrame host newScene s).1.myShadowDepthCubeMaps = [] ∧
      (∀ scene, (PBRViewerModel.SetLightingShader
        (PBRViewerModel.beforeDrawFrame host newScene s).1).RemoveShadowTexturesFromModel scene =
          scene) ∧
      ∀ scene, (PBRViewerModel.SetLightingShader
          (PBRViewerModel.beforeDrawFrame host newScene s).1).myLoadedModel = some scene →
        ∃ shadows, (PBRViewerModel.SetLightingShader
            (PBRViewerModel.beforeDrawFrame host newScene s).1).myShadows = some shadows ∧
          ∀ mesh ∈ scene.myMeshes, ∀ t ∈ shadows.myTextures, t ∈ mesh.myTextures) ∧
    ∀ (sh : PBRViewerShadows) (amountLightSources textureWidth textureHeight : GLuint) (d : Driver),
      (sh.CreateSelfShadowingTextures amountLightSources textureWidth textureHeight d).result.2.myTextures =
        (sh.CreateSelfShadowingTextures amountLightSources textureWidth textureHeight d).result.1 := by
  have hinv := reachable_consistent newScene himport statics s h
  refine ⟨⟨hinv.noRemovalList, fun scene =>
      RemoveShadowTexturesFromModel_nothing _ scene hinv.noRemovalList⟩, ?_, ?_,
    fun _ _ _ _ _ => rfl⟩
  · intro scene hs
    obtain ⟨shadows, hsh⟩ := hinv.sceneHasShadows scene hs
    exact ⟨shadows, hsh, hinv.shadowsListed scene shadows hs hsh⟩
  · intro host
    have hbefore := beforeDrawFrame_consistent host newScene himport s hinv
    obtain ⟨program, hp⟩ := SetLightingShader_members
      (PBRViewerModel.beforeDrawFrame host newScene s).1
    rw [hp]
    refine ⟨hbefore.noRemovalList, fun scene =>
      RemoveShadowTexturesFromModel_nothing _ scene hbefore.noRemovalList, ?_⟩
    intro scene hs
    obtain ⟨shadows, hsh⟩ := hbefore.sceneHasShadows scene hs
    exact ⟨shadows, hsh, hbefore.shadowsListed scene shadows hs hsh⟩

set_option maxRecDepth 100000 in
/-- The state texturedSceneLoaded: the mesh lists the material texture 1, the depth textures
2, 3, 4 and 5 of the shadow set, and the three derived textures 8, 9 and 10 of the skybox. -/
theorem texturedSceneLoaded_lists :
    texturedSceneLoaded.1.myLoadedModel.map (fun scene => scene.listedTextures) =
      some [1, 2, 3, 4, 5, 8, 9, 10] ∧
    texturedSceneLoaded.1.myShadows.map (fun shadows => shadows.myTextures.map fun t => t.ID) =
      some [2, 3, 4, 5] := by
  decide

/-- C29 at work: the import texturedImport gives its texture a name of the driver, the state
after LoadNewModel, LoadNewSkybox and one frame is reachable, and there the texture lists
are as C29 says. -/
theorem C29_meshes_list_shadow_textures_witness :
    ImportUsesDriverNames texturedImport ∧
    ModelReachable texturedImport sampleStatics texturedSceneLoaded ∧
    ((texturedSceneLoaded.1.myShadowDepthCubeMaps = [] ∧
      ∀ scene, texturedSceneLoaded.1.RemoveShadowTexturesFromModel scene = scene) ∧
    (∀ scene, texturedSceneLoaded.1.myLoadedModel = some scene →
      ∃ shadows, texturedSceneLoaded.1.myShadows = some shadows ∧
        ∀ mesh ∈ scene.myMeshes, ∀ t ∈ shadows.myTextures, t ∈ mesh.myTextures) ∧
    (∀ (host : Host),
      (PBRViewerModel.beforeDrawFrame host texturedImport texturedSceneLoaded).1.myShadowDepthCubeMaps = [] ∧
      (∀ scene, (PBRViewerModel.SetLightingShader
        (PBRViewerModel.beforeDrawFrame host texturedImport texturedSceneLoaded).1).RemoveShadowTexturesFromModel scene =
          scene) ∧
      ∀ scene, (PBRViewerModel.SetLightingShader
          (PBRViewerModel.beforeDrawFrame host texturedImport texturedSceneLoaded).1).myLoadedModel = some scene →
        ∃ shadows, (PBRViewerModel.SetLightingShader
            (PBRViewerModel.beforeDrawFrame host texturedImport texturedSceneLoaded).1).myShadows = some shadows ∧
          ∀ mesh ∈ scene.myMeshes, ∀ t ∈ shadows.myTextures, t ∈ mesh.myTextures) ∧
    ∀ (sh : PBRViewerShadows) (amountLightSources textureWidth textureHeight : GLuint) (d : Driver),
      (sh.CreateSelfShadowingTextures amountLightSources textureWidth textureHeight d).result.2.myTextures =
        (sh.CreateSelfShadowingTextures amountLightSources textureWidth textureHeight d).result.1) :=
  ⟨(fun path d => ⟨Nat.le_succ _, fun mesh hmesh t ht => by
      simp only [texturedImport, List.mem_singleton] at hmesh
      subst hmesh
      simp only [List.mem_singleton] at ht
      subst ht
      exact le_refl _⟩),
   (ModelReachable.call
      (PBRViewerModel.LoadNewSkybox (PBRViewerModel.LoadNewModel initialModel "scene.gltf") "first.hdr", {})
      texturedSceneLoaded (.DrawOpenGL decodingHost)
      (ModelReachable.call (PBRViewerModel.LoadNewModel initialModel "scene.gltf", {}) _
        (.LoadNewSkybox "first.hdr")
        (ModelReachable.call (initialModel, {}) _ (.LoadNewModel "scene.gltf")
          (ModelReachable.init {}) rfl)
        rfl)
      rfl),
   C29_meshes_list_shadow_textures texturedImport sampleStatics
    (fun path d => ⟨Nat.le_succ _, fun mesh hmesh t ht => by
      simp only [texturedImport, List.mem_singleton] at hmesh
      subst hmesh
      simp only [List.mem_singleton] at ht
      subst ht
      exact le_refl _⟩)
    texturedSceneLoaded
    (ModelReachable.call
      (PBRViewerModel.LoadNewSkybox (PBRViewerModel.LoadNewModel initialModel "scene.gltf") "first.hdr", {})
      texturedSceneLoaded (.DrawOpenGL decodingHost)
      (ModelReachable.call (PBRViewerModel.LoadNewModel initialModel "scene.gltf", {}) _
        (.LoadNewSkybox "first.hdr")
        (ModelReachable.call (initialModel, {}) _ (.LoadNewModel "scene.gltf")
          (ModelReachable.init {}) rfl)
        rfl)
      rfl)⟩


end PBRViewer
